import Mathlib

/-!
# ZeroDAdReactors: constant-pressure adiabatic ideal-gas reactor

Shallow embedding of `src/0D/IdealGasConstPressureAdiabaticReactor.{h,cpp}`, of its
sibling `src/0D/IdealGasConstPressureAdiabaticReactor_withoutdoc.{h,cpp}`, of the
constants of `src/ChemConfig.h`, and of the callback and the output-time loop of
`src/integrator/CVODESSerialIntegrator.{h,cpp}`.

Modelling conventions
* `double` is modelled by `ℚ`: arithmetic is exact, rounding is not modelled, and a
  quotient with a zero denominator is the total quotient of `ℚ` where IEEE arithmetic has
  an infinity or a NaN.  Statements are therefore meaningful on inputs whose denominators
  are non-zero; statements that need this say so.  `doubleQuotient` is the quotient with
  that case set apart: it has no value at a zero denominator.
* `int` is modelled by `Int`; a counting loop `for (i = a; i < n; i++)` runs
  `(n - a).toNat` times.  In the integrator, where the range of `int` matters, an `int`
  has 32 bits and an operation whose result is out of range has no value.
* `Species` (declared by the generated mechanism header `types_inl.h`) is an array of
  `double` indexed by species; it is modelled by a total map from indices to values.
* The mechanism functions (`molecular_weights`, the two thermo fits, `source_species`)
  are external; they are the fields of a `Mechanism` parameter.
* A caller-owned `double*` buffer is a list whose length is the allocated length; an
  access outside it is the failure `OutOfRange`.
-/

namespace ZeroDAdReactors

/-- Per-species array of `double` (type `Species` of the mechanism library). -/
abbrev Species := Nat → ℚ

/-- Caller-owned `double*` buffer together with its allocated length. -/
abbrev Buffer := List ℚ

/-- Ways a call can fail to hand back a result.  The first four are the failure
conditions named by the error taxonomy of the specification; `OutOfRange` is an access
outside a caller-owned buffer. -/
inductive Failure where
  | InvalidSpeciesCount
  | NonPositiveTemperature
  | SingularEnergyBalance
  | MalformedStateVector
  | OutOfRange
  deriving DecidableEq, Repr

/-- Read `y[i]`. -/
def Buffer.read (y : Buffer) (i : Nat) : Except Failure ℚ :=
  match y[i]? with
  | some v => .ok v
  | none => .error Failure.OutOfRange

/-- Write `y[i] = v`. -/
def Buffer.write (y : Buffer) (i : Nat) (v : ℚ) : Except Failure Buffer :=
  if i < y.length then .ok (y.set i v) else .error Failure.OutOfRange

/-- Quotient `a / b` of two `double` as a number: the quotient when `b` is not zero, no
value when `b` is zero (the IEEE result is then an infinity or a NaN, not a number). -/
def doubleQuotient (a b : ℚ) : Option ℚ :=
  if b = 0 then none else some (a / b)

namespace ChemConfig

/-- Constant `ChemConfig::TEMP0`, Kelvin. -/
def TEMP0 : ℚ := 350

/-- Constant `ChemConfig::p0`, Pascal. -/
def p0 : ℚ := 100000

/-- Constant `ChemConfig::Ru = 8.314`, J/mol-K. -/
def Ru : ℚ := 8314 / 1000

/-- Constant `ChemConfig::RTOL`. -/
def RTOL : ℚ := 1 / 10000

/-- Constant `ChemConfig::ATOL`. -/
def ATOL : ℚ := 1 / 100000000

end ChemConfig

/-- The external mechanism library used by the reactor. -/
structure Mechanism where
  /-- Function `molecular_weights()`. -/
  molecular_weights : Species
  /-- Function `species_specific_heat_constant_pressure_mass_specific(T)`. -/
  species_specific_heat_constant_pressure_mass_specific : ℚ → Species
  /-- Function `species_enthalpy_mass_specific(T)`. -/
  species_enthalpy_mass_specific : ℚ → Species
  /-- Function `source_species(C, T)`. -/
  source_species : Species → ℚ → Species

/-- A counting loop over pure state: `cnt` iterations with index `i, i+1, ...`. -/
def forLoop {σ : Type} (body : Nat → σ → σ) : Nat → Nat → σ → σ
  | _, 0, s => s
  | i, cnt + 1, s => forLoop body (i + 1) cnt (body i s)

/-- A counting loop whose body may fail; the first failure ends the loop. -/
def forLoopM {σ : Type} (body : Nat → σ → Except Failure σ) :
    Nat → Nat → σ → Except Failure σ
  | _, 0, s => .ok s
  | i, cnt + 1, s =>
    match body i s with
    | .ok s1 => forLoopM body (i + 1) cnt s1
    | .error e => .error e

/-- Data members of `class IdealGasConstPressureAdiabaticReactor`. -/
structure IdealGasConstPressureAdiabaticReactor where
  Ctot_ : ℚ
  n_species_ : Int
  T_ : ℚ
  P_ : ℚ
  MWtot_ : ℚ
  MW_ : Species
  cp_ : Species
  cp_bar_ : Species
  h_ : Species
  h_bar_ : Species
  X_ : Species
  Y0_ : Species
  Y_ : Species
  C_ : Species
  omega_ : Species
  N_ : ℚ
  D_ : ℚ

namespace IdealGasConstPressureAdiabaticReactor

/-- Method `computeThermoProperties()`. -/
def computeThermoProperties (m : Mechanism) (r : IdealGasConstPressureAdiabaticReactor) :
    IdealGasConstPressureAdiabaticReactor :=
  let r := { r with cp_ := m.species_specific_heat_constant_pressure_mass_specific r.T_ }
  let r := { r with h_ := m.species_enthalpy_mass_specific r.T_ }
  forLoop (fun i r =>
    let r := { r with cp_bar_ := Function.update r.cp_bar_ i (r.cp_ i * r.MW_ i) }
    { r with h_bar_ := Function.update r.h_bar_ i (r.h_ i * r.MW_ i) })
    0 r.n_species_.toNat r

/-- Method `computeProductionRates()`. -/
def computeProductionRates (m : Mechanism) (r : IdealGasConstPressureAdiabaticReactor) :
    IdealGasConstPressureAdiabaticReactor :=
  { r with omega_ := m.source_species r.C_ r.T_ }

/-- Method `computedTtNumerator()`: the body is commented out. -/
def computedTtNumerator (r : IdealGasConstPressureAdiabaticReactor) :
    IdealGasConstPressureAdiabaticReactor := r

/-- Method `computedTtDenominator()`: the body is commented out. -/
def computedTtDenominator (r : IdealGasConstPressureAdiabaticReactor) :
    IdealGasConstPressureAdiabaticReactor := r

/-- The constructor `IdealGasConstPressureAdiabaticReactor(n, temperature, pressure)`.
`mem` is the indeterminate content of the object before construction (the members the
constructor does not assign keep it).  The header's defaults are `temperature = 300`,
`pressure = 101325.0`.  The constructor has no failing path. -/
def construct (m : Mechanism) (mem : IdealGasConstPressureAdiabaticReactor)
    (n : Int) (temperature pressure : ℚ) :
    Except Failure IdealGasConstPressureAdiabaticReactor :=
  let r := { mem with n_species_ := n }
  let r := { r with T_ := temperature }
  let r := { r with P_ := pressure }
  let r := { r with MW_ := m.molecular_weights }
  let r := { r with N_ := 0 }
  let r := { r with D_ := 0 }
  let temp : ℚ := 0
  let r := r.computeThermoProperties m
  let r := forLoop (fun i r => { r with Y_ := Function.update r.Y_ i (1 / 10) })
    0 r.n_species_.toNat r
  let temp := forLoop (fun i temp => temp + r.Y_ i / r.MW_ i) 0 r.n_species_.toNat temp
  let r := { r with MWtot_ := 1 / temp }
  let r := forLoop (fun i r =>
    { r with
      C_ := Function.update r.C_ i
              ((r.P_ * r.MWtot_ * r.Y_ i) / (ChemConfig.Ru * r.T_ * r.MW_ i)) })
    0 r.n_species_.toNat r
  .ok (r.computeProductionRates m)

/-- Method `getProperties()`. -/
def getProperties (m : Mechanism) (r : IdealGasConstPressureAdiabaticReactor) :
    IdealGasConstPressureAdiabaticReactor :=
  (r.computeThermoProperties m).computeProductionRates m

/-- Method `getdTtNumerator()`. -/
def getdTtNumerator (r : IdealGasConstPressureAdiabaticReactor) :
    IdealGasConstPressureAdiabaticReactor := r.computedTtNumerator

/-- Method `getdTtDenominator()`. -/
def getdTtDenominator (r : IdealGasConstPressureAdiabaticReactor) :
    IdealGasConstPressureAdiabaticReactor := r.computedTtDenominator

/-- Method `setNEQ()`: `return(n_species_);` (the line `return(n_species_ + 1);` is commented
out). -/
def setNEQ (r : IdealGasConstPressureAdiabaticReactor) : Int :=
  r.n_species_

/-- Method `setInitialState(y)`. -/
def setInitialState (r : IdealGasConstPressureAdiabaticReactor) (y : Buffer) :
    Except Failure Buffer :=
  match y.write 0 r.T_ with
  | .error e => .error e
  | .ok y => forLoopM (fun i y => y.write i (r.Y_ (i - 1))) 1 r.n_species_.toNat y

/-- Method `setState(y, temperature)`. -/
def setState (r : IdealGasConstPressureAdiabaticReactor) (y : Buffer) (temperature : ℚ) :
    Except Failure IdealGasConstPressureAdiabaticReactor :=
  let r := { r with T_ := temperature }
  forLoopM (fun i r =>
    match y.read i with
    | .error e => .error e
    | .ok v =>
      let r := { r with Y_ := Function.update r.Y_ (i - 1) v }
      .ok { r with
        C_ := Function.update r.C_ (i - 1)
                ((r.P_ * r.MWtot_ * r.Y_ (i - 1)) / (ChemConfig.Ru * r.T_ * r.MW_ (i - 1))) })
    1 r.n_species_.toNat r

/-- Method `evalRHS(t, y, ydot)`.  `dTdt` aliases `ydot[0]` and `dYdt[i]` aliases `ydot[i + 1]`;
the local `massFracs` is never used. -/
def evalRHS (m : Mechanism) (r : IdealGasConstPressureAdiabaticReactor) (_t : ℚ)
    (y ydot : Buffer) : Except Failure (IdealGasConstPressureAdiabaticReactor × Buffer) :=
  match y.read 0 with
  | .error e => .error e
  | .ok temp =>
  match r.setState y temp with
  | .error e => .error e
  | .ok r =>
  let r := r.getProperties m
  let r := { r with N_ := 0 }
  let r := { r with D_ := 0 }
  let r := forLoop (fun i r =>
    let r := { r with N_ := r.N_ + (-(r.h_bar_ i)) * r.omega_ i }
    { r with
      D_ := r.D_ +
              ((r.Y_ i * r.P_ * r.MWtot_) * r.cp_bar_ i) / (ChemConfig.Ru * r.T_ * r.MW_ i) })
    0 r.n_species_.toNat r
  match ydot.write 0 (r.N_ / r.D_) with
  | .error e => .error e
  | .ok ydot =>
  let sums : ℚ × ℚ := forLoop (fun i s =>
    (s.1 + r.omega_ i,
     s.2 + (r.Y_ i * r.P_ * r.MWtot_) / (ChemConfig.Ru * r.T_ * r.MW_ i)))
    0 r.n_species_.toNat (0, 0)
  let omega_sum := sums.1
  let concentration_sum := sums.2
  match forLoopM (fun i ydot =>
      let omega_temp := r.omega_ i * (r.MW_ i * ChemConfig.Ru * r.T_) / (r.P_ * r.MWtot_)
      match ydot.read 0 with
      | .error e => .error e
      | .ok dTdt =>
        ydot.write (i + 1)
          (omega_temp - r.Y_ i * ((omega_sum / concentration_sum) + (dTdt / r.T_))))
      0 r.n_species_.toNat ydot with
  | .error e => .error e
  | .ok ydot => .ok (r, ydot)

/-- Method `getTemperature()`. -/
def getTemperature (r : IdealGasConstPressureAdiabaticReactor) : ℚ := r.T_

/-- Method `getNumberofSpecies()`: the `int` member converted to `double`. -/
def getNumberofSpecies (r : IdealGasConstPressureAdiabaticReactor) : ℚ := r.n_species_

/-- Method `getPressure()`. -/
def getPressure (r : IdealGasConstPressureAdiabaticReactor) : ℚ := r.P_

/-! ### Blocks of the constructor and of `evalRHS`

The loops of the two functions above, named one by one so that they can be reasoned
about separately; `construct_unfold` and `evalRHS_unfold` below show that the functions
are the composition of their blocks. -/

/-- Constructor, first loop: `Y_[i] = 0.1`. -/
def construct_massFractions (r : IdealGasConstPressureAdiabaticReactor) :
    IdealGasConstPressureAdiabaticReactor :=
  forLoop (fun i r => { r with Y_ := Function.update r.Y_ i (1 / 10) })
    0 r.n_species_.toNat r

/-- Constructor, second loop: `temp += Y_[i] / MW_[i]`. -/
def construct_temp (r : IdealGasConstPressureAdiabaticReactor) : ℚ :=
  forLoop (fun i temp => temp + r.Y_ i / r.MW_ i) 0 r.n_species_.toNat 0

/-- Constructor, third loop: the concentrations `C_[i]`. -/
def construct_concentrations (r : IdealGasConstPressureAdiabaticReactor) :
    IdealGasConstPressureAdiabaticReactor :=
  forLoop (fun i r =>
    { r with
      C_ := Function.update r.C_ i
              ((r.P_ * r.MWtot_ * r.Y_ i) / (ChemConfig.Ru * r.T_ * r.MW_ i)) })
    0 r.n_species_.toNat r

/-- Block "Energy equation" of `evalRHS` up to the loop's end: `N_` and `D_`. -/
def evalRHS_energy (r : IdealGasConstPressureAdiabaticReactor) :
    IdealGasConstPressureAdiabaticReactor :=
  let r := { r with N_ := 0 }
  let r := { r with D_ := 0 }
  forLoop (fun i r =>
    let r := { r with N_ := r.N_ + (-(r.h_bar_ i)) * r.omega_ i }
    { r with
      D_ := r.D_ +
              ((r.Y_ i * r.P_ * r.MWtot_) * r.cp_bar_ i) / (ChemConfig.Ru * r.T_ * r.MW_ i) })
    0 r.n_species_.toNat r

/-- Block "Species equations" of `evalRHS`, first loop: `omega_sum` and
`concentration_sum`. -/
def evalRHS_sums (r : IdealGasConstPressureAdiabaticReactor) : ℚ × ℚ :=
  forLoop (fun i s =>
    (s.1 + r.omega_ i,
     s.2 + (r.Y_ i * r.P_ * r.MWtot_) / (ChemConfig.Ru * r.T_ * r.MW_ i)))
    0 r.n_species_.toNat (0, 0)

/-- Block "Species equations" of `evalRHS`, second loop: the writes of `dYdt[i]`. -/
def evalRHS_species (r : IdealGasConstPressureAdiabaticReactor)
    (omega_sum concentration_sum : ℚ) (ydot : Buffer) : Except Failure Buffer :=
  forLoopM (fun i ydot =>
      let omega_temp := r.omega_ i * (r.MW_ i * ChemConfig.Ru * r.T_) / (r.P_ * r.MWtot_)
      match ydot.read 0 with
      | .error e => .error e
      | .ok dTdt =>
        ydot.write (i + 1)
          (omega_temp - r.Y_ i * ((omega_sum / concentration_sum) + (dTdt / r.T_))))
      0 r.n_species_.toNat ydot

/-! ### Closed forms used in the proofs

The state and the derivative buffer that `evalRHS` produces when both buffers are long
enough; `evalRHS_eq` below proves that they are what `evalRHS` returns. -/

/-- The state stored by `setState(y, y[0])` (see `setState_eq`). -/
def absorbed (r : IdealGasConstPressureAdiabaticReactor) (y : Buffer) :
    IdealGasConstPressureAdiabaticReactor :=
  { r with
    T_ := y.getD 0 0
    Y_ := fun j => if j < r.n_species_.toNat then y.getD (j + 1) 0 else r.Y_ j
    C_ := fun j => if j < r.n_species_.toNat then
      (r.P_ * r.MWtot_ * y.getD (j + 1) 0) / (ChemConfig.Ru * y.getD 0 0 * r.MW_ j)
      else r.C_ j }

/-- The state in which `evalRHS(t, y, ydot)` leaves the reactor (see `evalRHS_eq`). -/
def evalRHS_state (m : Mechanism) (r : IdealGasConstPressureAdiabaticReactor) (y : Buffer) :
    IdealGasConstPressureAdiabaticReactor :=
  evalRHS_energy ((absorbed r y).getProperties m)

/-- The content of `ydot` after `evalRHS(t, y, ydot)` (see `evalRHS_eq`). -/
def evalRHS_ydot (m : Mechanism) (r : IdealGasConstPressureAdiabaticReactor)
    (y ydot : Buffer) : Buffer :=
  (List.range ydot.length).map (fun j =>
    if j ≤ r.n_species_.toNat then
      (if j = 0 then (evalRHS_state m r y).N_ / (evalRHS_state m r y).D_ else
        (evalRHS_state m r y).omega_ (j - 1) *
            ((evalRHS_state m r y).MW_ (j - 1) * ChemConfig.Ru * (evalRHS_state m r y).T_) /
            ((evalRHS_state m r y).P_ * (evalRHS_state m r y).MWtot_) -
          (evalRHS_state m r y).Y_ (j - 1) *
            (((evalRHS_sums (evalRHS_state m r y)).1 / (evalRHS_sums (evalRHS_state m r y)).2) +
              ((evalRHS_state m r y).N_ / (evalRHS_state m r y).D_ / (evalRHS_state m r y).T_)))
    else ydot.getD j 0)

end IdealGasConstPressureAdiabaticReactor


/-! ### The variant without documentation

`src/0D/IdealGasConstPressureAdiabaticReactor_withoutdoc.{h,cpp}` define the same class
with the same data members; the member functions below are translated from that file.
Its kinetics call is `source(C_, T_)` where the documented file calls
`source_species(C_, T_)`. -/

/-- The external mechanism library as used by the variant without documentation. -/
structure Mechanism_withoutdoc where
  /-- Function `molecular_weights()`. -/
  molecular_weights : Species
  /-- Function `species_specific_heat_constant_pressure_mass_specific(T)`. -/
  species_specific_heat_constant_pressure_mass_specific : ℚ → Species
  /-- Function `species_enthalpy_mass_specific(T)`. -/
  species_enthalpy_mass_specific : ℚ → Species
  /-- Function `source(C, T)`. -/
  source : Species → ℚ → Species

namespace IdealGasConstPressureAdiabaticReactor_withoutdoc

/-- Method `setNEQ()` of `IdealGasConstPressureAdiabaticReactor_withoutdoc.cpp`:
`return(n_species_ + 1);`. -/
def setNEQ (r : IdealGasConstPressureAdiabaticReactor) : Int :=
  r.n_species_ + 1

/-- Method `computeThermoProperties()` of the variant. -/
def computeThermoProperties (m : Mechanism_withoutdoc)
    (r : IdealGasConstPressureAdiabaticReactor) : IdealGasConstPressureAdiabaticReactor :=
  let r := { r with cp_ := m.species_specific_heat_constant_pressure_mass_specific r.T_ }
  let r := { r with h_ := m.species_enthalpy_mass_specific r.T_ }
  forLoop (fun i r =>
    let r := { r with cp_bar_ := Function.update r.cp_bar_ i (r.cp_ i * r.MW_ i) }
    { r with h_bar_ := Function.update r.h_bar_ i (r.h_ i * r.MW_ i) })
    0 r.n_species_.toNat r

/-- Method `computeProductionRates()` of the variant: `omega_ = source(C_, T_);`. -/
def computeProductionRates (m : Mechanism_withoutdoc)
    (r : IdealGasConstPressureAdiabaticReactor) : IdealGasConstPressureAdiabaticReactor :=
  { r with omega_ := m.source r.C_ r.T_ }

/-- Method `computedTtNumerator()` of the variant: the body is commented out. -/
def computedTtNumerator (r : IdealGasConstPressureAdiabaticReactor) :
    IdealGasConstPressureAdiabaticReactor := r

/-- Method `computedTtDenominator()` of the variant: the body is commented out. -/
def computedTtDenominator (r : IdealGasConstPressureAdiabaticReactor) :
    IdealGasConstPressureAdiabaticReactor := r

/-- The constructor of the variant; `mem` is the content of the object before
construction. -/
def construct (m : Mechanism_withoutdoc) (mem : IdealGasConstPressureAdiabaticReactor)
    (n : Int) (temperature pressure : ℚ) :
    Except Failure IdealGasConstPressureAdiabaticReactor :=
  let r := { mem with n_species_ := n }
  let r := { r with T_ := temperature }
  let r := { r with P_ := pressure }
  let r := { r with MW_ := m.molecular_weights }
  let r := { r with N_ := 0 }
  let r := { r with D_ := 0 }
  let temp : ℚ := 0
  let r := computeThermoProperties m r
  let r := forLoop (fun i r => { r with Y_ := Function.update r.Y_ i (1 / 10) })
    0 r.n_species_.toNat r
  let temp := forLoop (fun i temp => temp + r.Y_ i / r.MW_ i) 0 r.n_species_.toNat temp
  let r := { r with MWtot_ := 1 / temp }
  let r := forLoop (fun i r =>
    { r with
      C_ := Function.update r.C_ i
              ((r.P_ * r.MWtot_ * r.Y_ i) / (ChemConfig.Ru * r.T_ * r.MW_ i)) })
    0 r.n_species_.toNat r
  .ok (computeProductionRates m r)

/-- Method `getProperties()` of the variant. -/
def getProperties (m : Mechanism_withoutdoc) (r : IdealGasConstPressureAdiabaticReactor) :
    IdealGasConstPressureAdiabaticReactor :=
  computeProductionRates m (computeThermoProperties m r)

/-- Method `getdTtNumerator()` of the variant. -/
def getdTtNumerator (r : IdealGasConstPressureAdiabaticReactor) :
    IdealGasConstPressureAdiabaticReactor := computedTtNumerator r

/-- Method `getdTtDenominator()` of the variant. -/
def getdTtDenominator (r : IdealGasConstPressureAdiabaticReactor) :
    IdealGasConstPressureAdiabaticReactor := computedTtDenominator r

/-- Method `setInitialState(y)` of the variant. -/
def setInitialState (r : IdealGasConstPressureAdiabaticReactor) (y : Buffer) :
    Except Failure Buffer :=
  match y.write 0 r.T_ with
  | .error e => .error e
  | .ok y => forLoopM (fun i y => y.write i (r.Y_ (i - 1))) 1 r.n_species_.toNat y

/-- Method `setState(y, temperature)` of the variant. -/
def setState (r : IdealGasConstPressureAdiabaticReactor) (y : Buffer) (temperature : ℚ) :
    Except Failure IdealGasConstPressureAdiabaticReactor :=
  let r := { r with T_ := temperature }
  forLoopM (fun i r =>
    match y.read i with
    | .error e => .error e
    | .ok v =>
      let r := { r with Y_ := Function.update r.Y_ (i - 1) v }
      .ok { r with
        C_ := Function.update r.C_ (i - 1)
                ((r.P_ * r.MWtot_ * r.Y_ (i - 1)) / (ChemConfig.Ru * r.T_ * r.MW_ (i - 1))) })
    1 r.n_species_.toNat r

/-- Method `evalRHS(t, y, ydot)` of the variant. -/
def evalRHS (m : Mechanism_withoutdoc) (r : IdealGasConstPressureAdiabaticReactor) (_t : ℚ)
    (y ydot : Buffer) : Except Failure (IdealGasConstPressureAdiabaticReactor × Buffer) :=
  match y.read 0 with
  | .error e => .error e
  | .ok temp =>
  match setState r y temp with
  | .error e => .error e
  | .ok r =>
  let r := getProperties m r
  let r := { r with N_ := 0 }
  let r := { r with D_ := 0 }
  let r := forLoop (fun i r =>
    let r := { r with N_ := r.N_ + (-(r.h_bar_ i)) * r.omega_ i }
    { r with
      D_ := r.D_ +
              ((r.Y_ i * r.P_ * r.MWtot_) * r.cp_bar_ i) / (ChemConfig.Ru * r.T_ * r.MW_ i) })
    0 r.n_species_.toNat r
  match ydot.write 0 (r.N_ / r.D_) with
  | .error e => .error e
  | .ok ydot =>
  let sums : ℚ × ℚ := forLoop (fun i s =>
    (s.1 + r.omega_ i,
     s.2 + (r.Y_ i * r.P_ * r.MWtot_) / (ChemConfig.Ru * r.T_ * r.MW_ i)))
    0 r.n_species_.toNat (0, 0)
  let omega_sum := sums.1
  let concentration_sum := sums.2
  match forLoopM (fun i ydot =>
      let omega_temp := r.omega_ i * (r.MW_ i * ChemConfig.Ru * r.T_) / (r.P_ * r.MWtot_)
      match ydot.read 0 with
      | .error e => .error e
      | .ok dTdt =>
        ydot.write (i + 1)
          (omega_temp - r.Y_ i * ((omega_sum / concentration_sum) + (dTdt / r.T_))))
      0 r.n_species_.toNat ydot with
  | .error e => .error e
  | .ok ydot => .ok (r, ydot)

/-- Method `getTemperature()` of the variant. -/
def getTemperature (r : IdealGasConstPressureAdiabaticReactor) : ℚ := r.T_

/-- Method `getNumberofSpecies()` of the variant. -/
def getNumberofSpecies (r : IdealGasConstPressureAdiabaticReactor) : ℚ := r.n_species_

/-- Method `getPressure()` of the variant. -/
def getPressure (r : IdealGasConstPressureAdiabaticReactor) : ℚ := r.P_

end IdealGasConstPressureAdiabaticReactor_withoutdoc


namespace IdealGasConstPressureAdiabaticReactor

/-- Body that the source keeps commented out in `computedTtDenominator()`:
`for (i < n_species_) D_ += C_[i] * (cp_bar_[i]);`. -/
def computedTtDenominator_disabled (r : IdealGasConstPressureAdiabaticReactor) :
    IdealGasConstPressureAdiabaticReactor :=
  forLoop (fun i r => { r with D_ := r.D_ + r.C_ i * (r.cp_bar_ i) })
    0 r.n_species_.toNat r

end IdealGasConstPressureAdiabaticReactor

/-! ### Adapter and integrator callback

`IdealGasConstPressureAdiabaticReactorAdapter` holds a reference `r_` to the reactor and
forwards the three calls of the `Utility` interface; it is modelled by the reactor it
refers to.  `cvode_rhs` is the right-hand-side callback handed to CVODES; its `N_Vector`
arguments are modelled by their data arrays. -/

namespace IdealGasConstPressureAdiabaticReactorAdapter

/-- Adapter method `setNEQ()`: `return r_.setNEQ();`. -/
def setNEQ (r_ : IdealGasConstPressureAdiabaticReactor) : Int :=
  r_.setNEQ

/-- Adapter method `setInitialState(y)`: `r_.setInitialState(y);`. -/
def setInitialState (r_ : IdealGasConstPressureAdiabaticReactor) (y : Buffer) :
    Except Failure Buffer :=
  r_.setInitialState y

/-- Adapter method `evalRHS(t, y, ydot)`: `r_.evalRHS(t, y, ydot);`. -/
def evalRHS (m : Mechanism) (r_ : IdealGasConstPressureAdiabaticReactor) (t : ℚ)
    (y ydot : Buffer) : Except Failure (IdealGasConstPressureAdiabaticReactor × Buffer) :=
  r_.evalRHS m t y ydot

end IdealGasConstPressureAdiabaticReactorAdapter

/-- Callback `cvode_rhs(t, y, ydot, user_data)` of `CVODESSerialIntegrator.cpp`:
`f->evalRHS(t, ydata, ydotdata); return 0;`.  The result is the returned status together
with the model object and the derivative array after the call. -/
def cvode_rhs (m : Mechanism) (t : ℚ) (y ydot : Buffer)
    (user_data : IdealGasConstPressureAdiabaticReactor) :
    Except Failure (Int × IdealGasConstPressureAdiabaticReactor × Buffer) :=
  match IdealGasConstPressureAdiabaticReactorAdapter.evalRHS m user_data t y ydot with
  | .error e => .error e
  | .ok res => .ok (0, res.1, res.2)

/-! ### Sequences of calls

A caller drives the object through its public member functions.  `Call` names one call
with its arguments, `Call.apply` is the object after the call, and `runCalls` plays a
sequence of calls from left to right.  Functions that only return a value or only write
the caller's buffer leave the object as it is. -/

/-- A call of a public member function, with its arguments. -/
inductive Call where
  | getProperties
  | getdTtNumerator
  | getdTtDenominator
  | setNEQ
  | setInitialState (y : Buffer)
  | setState (y : Buffer) (temperature : ℚ)
  | evalRHS (t : ℚ) (y ydot : Buffer)
  | getTemperature
  | getNumberofSpecies
  | getPressure

/-- The object after a call. -/
def Call.apply (m : Mechanism) (r : IdealGasConstPressureAdiabaticReactor) :
    Call → Except Failure IdealGasConstPressureAdiabaticReactor
  | .getProperties => .ok (r.getProperties m)
  | .getdTtNumerator => .ok r.getdTtNumerator
  | .getdTtDenominator => .ok r.getdTtDenominator
  | .setNEQ => .ok r
  | .setInitialState y =>
    match r.setInitialState y with
    | .error e => .error e
    | .ok _ => .ok r
  | .setState y temperature => r.setState y temperature
  | .evalRHS t y ydot =>
    match r.evalRHS m t y ydot with
    | .error e => .error e
    | .ok res => .ok res.1
  | .getTemperature => .ok r
  | .getNumberofSpecies => .ok r
  | .getPressure => .ok r

/-- The object after a sequence of calls. -/
def runCalls (m : Mechanism) :
    IdealGasConstPressureAdiabaticReactor → List Call →
      Except Failure IdealGasConstPressureAdiabaticReactor
  | r, [] => .ok r
  | r, c :: cs =>
    match c.apply m r with
    | .error e => .error e
    | .ok r1 => runCalls m r1 cs

/-- The buffers of a call hold at least `n + 1` entries. -/
def Call.fits (n : Nat) : Call → Bool
  | .setInitialState y => decide (n < y.length)
  | .setState y _ => decide (n < y.length)
  | .evalRHS _ y ydot => decide (n < y.length) && decide (n < ydot.length)
  | _ => true

/-! ### Concrete scenario

The two-species scenario of the specification's testable properties: `MW = [2, 32]`,
`T = 1000`, `P = 101325`, `Y = [0.5, 0.5]`, constant `cp = [14000, 900]`, `h = [0, 0]`. -/

/-- Species array with the listed leading entries and zero afterwards. -/
def Species.ofList (l : List ℚ) : Species := fun i => l.getD i 0

/-- Mechanism of the scenario; the kinetics returns the given production rates. -/
def scenarioMechanism (omega : List ℚ) : Mechanism where
  molecular_weights := Species.ofList [2, 32]
  species_specific_heat_constant_pressure_mass_specific := fun _ => Species.ofList [14000, 900]
  species_enthalpy_mass_specific := fun _ => Species.ofList [0, 0]
  source_species := fun _ _ => Species.ofList omega

/-- The mechanism of the scenario as seen by the variant: the same functions, the
kinetics under the name `source`. -/
def scenarioMechanism_withoutdoc (omega : List ℚ) : Mechanism_withoutdoc where
  molecular_weights := Species.ofList [2, 32]
  species_specific_heat_constant_pressure_mass_specific := fun _ => Species.ofList [14000, 900]
  species_enthalpy_mass_specific := fun _ => Species.ofList [0, 0]
  source := fun _ _ => Species.ofList omega

/-- Reactor of the scenario, with the mixture molecular weight of `Y = [0.5, 0.5]`,
`1 / (0.5 / 2 + 0.5 / 32) = 64 / 17`. -/
def scenarioReactor : IdealGasConstPressureAdiabaticReactor where
  Ctot_ := 0
  n_species_ := 2
  T_ := 1000
  P_ := 101325
  MWtot_ := 64 / 17
  MW_ := Species.ofList [2, 32]
  cp_ := Species.ofList []
  cp_bar_ := Species.ofList []
  h_ := Species.ofList []
  h_bar_ := Species.ofList []
  X_ := Species.ofList []
  Y0_ := Species.ofList []
  Y_ := Species.ofList [1 / 2, 1 / 2]
  C_ := Species.ofList []
  omega_ := Species.ofList []
  N_ := 0
  D_ := 0

/-- Mechanism with three species whose first production rate is the concentration of the
third species, `omega = [C[2], 0, 0]`; molecular weights and thermo as in the scenario. -/
def thirdSpeciesMechanism : Mechanism where
  molecular_weights := Species.ofList [2, 32, 18]
  species_specific_heat_constant_pressure_mass_specific :=
    fun _ => Species.ofList [14000, 900, 2000]
  species_enthalpy_mass_specific := fun _ => Species.ofList [0, 0, 0]
  source_species := fun C _ => Species.ofList [C 2, 0, 0]

/-- The scenario reactor with another content of the member `Ctot_`. -/
def scenarioReactorCtot : IdealGasConstPressureAdiabaticReactor :=
  { scenarioReactor with Ctot_ := 1 }

/-- The scenario reactor with another content of `C_[2]`, an entry past its two
species. -/
def scenarioReactorThird : IdealGasConstPressureAdiabaticReactor :=
  { scenarioReactor with C_ := Species.ofList [0, 0, 1] }

/-- The scenario reactor with other contents of `T`, `N`, `D`, `cp`, `h`, `omega` and of
the first two entries of `Y`, `C`, `cp_bar`, `h_bar`. -/
def scenarioReactorOther : IdealGasConstPressureAdiabaticReactor :=
  { scenarioReactor with
    T_ := 5, Y_ := Species.ofList [9, 8], C_ := Species.ofList [7, 6]
    cp_ := Species.ofList [5, 4], h_ := Species.ofList [3, 2]
    cp_bar_ := Species.ofList [1, 2], h_bar_ := Species.ofList [3, 4]
    omega_ := Species.ofList [5, 6], N_ := 7, D_ := 8 }

/-! ### Integrator: the output-time schedule

`src/integrator/CVODESSerialIntegrator.{h,cpp}`.  Only the members that `integrate()`
reads are modelled, together with `NEQ_`, `RTOL_` and `debug_`; the SUNDIALS handles, the
tolerance vector `ATOL_` and the statistics file are not.  The library function `CVode` is
external: it is a parameter that gives, for the number of the call and the requested
output time, the flag that the call returns.  An `int` has 32 bits. -/

/-- Largest value of an `int`. -/
def INT_MAX : Int := 2147483647

/-- Smallest value of an `int`. -/
def INT_MIN : Int := -2147483648

/-- Result of an `int` operation: the mathematical value when an `int` can hold it, no
value (undefined behaviour) otherwise. -/
def checkedInt (z : Int) : Option Int :=
  if INT_MIN ≤ z ∧ z ≤ INT_MAX then some z else none

/-- Conversion of a `double` to `int`: the fractional part is discarded; there is no
value (undefined behaviour) when an `int` cannot hold the truncated value. -/
def doubleToInt (x : ℚ) : Option Int :=
  checkedInt (if 0 ≤ x then ⌊x⌋ else ⌈x⌉)

/-- Constant `CV_SUCCESS` of the SUNDIALS header `cvodes.h`. -/
def CV_SUCCESS : Int := 0

/-- Function `check_retval(returnvalue, funcname, opt)` called with the address of an
`int` that holds `retval` (so `returnvalue` is not `NULL`): the result is `1` exactly when
`opt == 1` and `retval < 0`. -/
def check_retval (retval : Int) (opt : Int) : Int :=
  if opt = 1 then (if retval < 0 then 1 else 0) else 0

/-- How a run of `integrate()` leaves its loop. -/
inductive IntegrateEnd where
  /-- The branch `iout == steps_`, "Integration done!". -/
  | done
  /-- The branch `check_retval(&flag, "CVode", 1)`, "--Error in integration!". -/
  | error
  /-- An `int` operation without a value: `iout++` or `tout *= TMULT_` out of range. -/
  | undefined
  /-- The model's iteration bound is used up. -/
  | outOfFuel
  deriving DecidableEq, Repr

/-- Data members of `class CVODESSerialIntegrator` (see the section header). -/
structure CVODESSerialIntegrator where
  NEQ_ : Int
  time0_ : ℚ
  timeop_ : ℚ
  TMULT_ : ℚ
  steps_ : Int
  RTOL_ : ℚ
  debug_ : Int

namespace CVODESSerialIntegrator

/-- The constructor `CVODESSerialIntegrator(model, debug)`: `NEQ_(model.setNEQ())`,
`RTOL_ = 1.0e-8`, `time0_ = 0.0`, `timeop_ = 1.0`, `TMULT_ = 10.0`, `steps_ = 12`. -/
def construct (model : IdealGasConstPressureAdiabaticReactor) (debug : Int) :
    CVODESSerialIntegrator where
  NEQ_ := IdealGasConstPressureAdiabaticReactorAdapter.setNEQ model
  RTOL_ := 1 / 100000000
  time0_ := 0
  timeop_ := 1
  TMULT_ := 10
  steps_ := 12
  debug_ := debug

/-- The `while(1)` loop of `integrate()`, at most `fuel` iterations, from the `k`-th call
of `CVode` with the locals `iout` and `tout`.  The result is the list of the output times
requested from `CVode`, in order, and the way the loop is left.  `tout *= TMULT_`
multiplies in `double` and converts the product to `int`. -/
def integrate_loop (s : CVODESSerialIntegrator) (CVode : Nat → Int → Int) :
    Nat → Nat → Int → Int → List Int × IntegrateEnd
  | 0, _, _, _ => ([], IntegrateEnd.outOfFuel)
  | fuel + 1, k, iout, tout =>
    let flag := CVode k tout
    if check_retval flag 1 ≠ 0 then ([tout], IntegrateEnd.error)
    else
      let next : Option (Int × Int) :=
        if flag = CV_SUCCESS then
          match checkedInt (iout + 1) with
          | none => none
          | some iout1 =>
            match doubleToInt ((tout : ℚ) * s.TMULT_) with
            | none => none
            | some tout1 => some (iout1, tout1)
        else some (iout, tout)
      match next with
      | none => ([tout], IntegrateEnd.undefined)
      | some (iout1, tout1) =>
        if iout1 = s.steps_ then ([tout], IntegrateEnd.done)
        else
          let rest := integrate_loop s CVode fuel (k + 1) iout1 tout1
          (tout :: rest.1, rest.2)

/-- Method `integrate()`: `iout = 0; tout = timeop_;` and the loop. -/
def integrate (s : CVODESSerialIntegrator) (CVode : Nat → Int → Int) (fuel : Nat) :
    List Int × IntegrateEnd :=
  let iout : Int := 0
  match doubleToInt s.timeop_ with
  | none => ([], IntegrateEnd.undefined)
  | some tout => integrate_loop s CVode fuel 0 iout tout

end CVODESSerialIntegrator

/-! ## Loop rules -/

/-- A pure loop whose state after `k` iterations is `F k` ends in `F cnt`. -/
theorem forLoop_eq_of_step {σ : Type} (body : Nat → σ → σ) (cnt : Nat) :
    ∀ (lo : Nat) (F : Nat → σ), (∀ k, k < cnt → body (lo + k) (F k) = F (k + 1)) →
      forLoop body lo cnt (F 0) = F cnt := by
  induction cnt with
  | zero => intro lo F _; rfl
  | succ c ih =>
    intro lo F hstep
    have h0 : body lo (F 0) = F 1 := by simpa using hstep 0 (Nat.succ_pos c)
    have hrest : ∀ k, k < c → body (lo + 1 + k) (F (k + 1)) = F (k + 1 + 1) := by
      intro k hk
      have := hstep (k + 1) (Nat.succ_lt_succ hk)
      rwa [show lo + (k + 1) = lo + 1 + k by omega] at this
    have := ih (lo + 1) (fun k => F (k + 1)) hrest
    simp only [forLoop, h0]
    simpa using this

/-- A fallible loop all of whose iterations succeed, with state `F k` after `k`
iterations, succeeds with `F cnt`. -/
theorem forLoopM_eq_of_step {σ : Type} (body : Nat → σ → Except Failure σ) (cnt : Nat) :
    ∀ (lo : Nat) (F : Nat → σ), (∀ k, k < cnt → body (lo + k) (F k) = .ok (F (k + 1))) →
      forLoopM body lo cnt (F 0) = .ok (F cnt) := by
  induction cnt with
  | zero => intro lo F _; rfl
  | succ c ih =>
    intro lo F hstep
    have h0 : body lo (F 0) = .ok (F 1) := by simpa using hstep 0 (Nat.succ_pos c)
    have hrest : ∀ k, k < c → body (lo + 1 + k) (F (k + 1)) = .ok (F (k + 1 + 1)) := by
      intro k hk
      have := hstep (k + 1) (Nat.succ_lt_succ hk)
      rwa [show lo + (k + 1) = lo + 1 + k by omega] at this
    have := ih (lo + 1) (fun k => F (k + 1)) hrest
    simp only [forLoopM, h0]
    simpa using this

/-- A fallible loop whose first `j` iterations succeed and whose next one fails with `e`
fails with `e`. -/
theorem forLoopM_error_of_step {σ : Type} (body : Nat → σ → Except Failure σ) (e : Failure)
    (j : Nat) : ∀ (lo cnt : Nat) (F : Nat → σ), j < cnt →
      (∀ k, k < j → body (lo + k) (F k) = .ok (F (k + 1))) →
      body (lo + j) (F j) = .error e →
      forLoopM body lo cnt (F 0) = .error e := by
  induction j with
  | zero =>
    intro lo cnt F hj _ hfail
    obtain ⟨c, rfl⟩ : ∃ c, cnt = c + 1 := ⟨cnt - 1, by omega⟩
    have h0 : body lo (F 0) = .error e := by simpa using hfail
    simp only [forLoopM, h0]
  | succ j ih =>
    intro lo cnt F hj hstep hfail
    obtain ⟨c, rfl⟩ : ∃ c, cnt = c + 1 := ⟨cnt - 1, by omega⟩
    have h0 : body lo (F 0) = .ok (F 1) := by simpa using hstep 0 (Nat.succ_pos j)
    have hrest : ∀ k, k < j → body (lo + 1 + k) (F (k + 1)) = .ok (F (k + 1 + 1)) := by
      intro k hk
      have := hstep (k + 1) (Nat.succ_lt_succ hk)
      rwa [show lo + (k + 1) = lo + 1 + k by omega] at this
    have hfail1 : body (lo + 1 + j) (F (j + 1)) = .error e := by
      rwa [show lo + (j + 1) = lo + 1 + j by omega] at hfail
    have := ih (lo + 1) c (fun k => F (k + 1)) (by omega) hrest hfail1
    simp only [forLoopM, h0]
    simpa using this

/-- A fallible loop can only fail with a failure that one of its iterations produces. -/
theorem forLoopM_error_cases {σ : Type} (body : Nat → σ → Except Failure σ) (e : Failure)
    (cnt : Nat) : ∀ (lo : Nat) (s : σ), forLoopM body lo cnt s = .error e →
      ∃ i s1, body i s1 = .error e := by
  induction cnt with
  | zero => intro lo s h; simp [forLoopM] at h
  | succ c ih =>
    intro lo s h
    simp only [forLoopM] at h
    cases hb : body lo s with
    | error e1 =>
      rw [hb] at h
      simp only [Except.error.injEq] at h
      exact ⟨lo, s, by rw [hb, h]⟩
    | ok s1 =>
      rw [hb] at h
      exact ih (lo + 1) s1 h

/-- Variant of `forLoop_eq_of_step` with the initial state named. -/
theorem forLoop_eq {σ : Type} (body : Nat → σ → σ) (lo cnt : Nat) (F : Nat → σ) (s : σ)
    (hs : s = F 0) (hstep : ∀ k, k < cnt → body (lo + k) (F k) = F (k + 1)) :
    forLoop body lo cnt s = F cnt := by
  rw [hs]; exact forLoop_eq_of_step body cnt lo F hstep

/-- Variant of `forLoopM_eq_of_step` with the initial state named. -/
theorem forLoopM_eq {σ : Type} (body : Nat → σ → Except Failure σ) (lo cnt : Nat)
    (F : Nat → σ) (s : σ) (hs : s = F 0)
    (hstep : ∀ k, k < cnt → body (lo + k) (F k) = .ok (F (k + 1))) :
    forLoopM body lo cnt s = .ok (F cnt) := by
  rw [hs]; exact forLoopM_eq_of_step body cnt lo F hstep

/-- Variant of `forLoopM_error_of_step` with the initial state named. -/
theorem forLoopM_error {σ : Type} (body : Nat → σ → Except Failure σ) (lo cnt : Nat)
    (F : Nat → σ) (s : σ) (e : Failure) (j : Nat) (hs : s = F 0) (hj : j < cnt)
    (hstep : ∀ k, k < j → body (lo + k) (F k) = .ok (F (k + 1)))
    (hfail : body (lo + j) (F j) = .error e) :
    forLoopM body lo cnt s = .error e := by
  rw [hs]; exact forLoopM_error_of_step body e j lo cnt F hj hstep hfail

/-- Writing index `k` of an array already filled below `k`. -/
theorem update_fill (a b : Species) (k : Nat) :
    Function.update (fun j => if j < k then a j else b j) k (a k) =
      fun j => if j < k + 1 then a j else b j := by
  funext j
  by_cases hj : j = k
  · subst hj; simp
  · rw [Function.update_noteq hj]
    by_cases h1 : j < k
    · simp [h1, Nat.lt_succ_of_lt h1]
    · have : ¬ j < k + 1 := by omega
      simp [h1, this]

/-- An accumulating loop computes the sum of its increments. -/
theorem forLoop_sum (g : Nat → ℚ) (cnt : Nat) (a : ℚ) :
    forLoop (fun i acc => acc + g i) 0 cnt a = a + ∑ i in Finset.range cnt, g i := by
  have := forLoop_eq_of_step (fun i acc => acc + g i) cnt 0
    (fun k => a + ∑ i in Finset.range k, g i)
    (by intro k _; simp [Finset.sum_range_succ, add_assoc])
  simpa using this

theorem Buffer.read_of_lt (y : Buffer) (i : Nat) (h : i < y.length) :
    y.read i = .ok (y.getD i 0) := by
  simp [Buffer.read, List.getD, List.getElem?_eq_getElem h]

theorem Buffer.read_of_le (y : Buffer) (i : Nat) (h : y.length ≤ i) :
    y.read i = .error Failure.OutOfRange := by
  simp [Buffer.read, List.getElem?_eq_none h]

theorem Buffer.write_of_lt (y : Buffer) (i : Nat) (v : ℚ) (h : i < y.length) :
    y.write i v = .ok (y.set i v) := by
  simp [Buffer.write, h]

theorem Buffer.write_of_le (y : Buffer) (i : Nat) (v : ℚ) (h : y.length ≤ i) :
    y.write i v = .error Failure.OutOfRange := by
  simp [Buffer.write, Nat.not_lt.mpr h]


/-! ## Buffers as tabulated maps -/

theorem Buffer.eq_map_range (y : Buffer) :
    y = (List.range y.length).map (fun j => y.getD j 0) := by
  apply List.ext_getElem?
  intro i
  by_cases h : i < y.length
  · simp [List.getElem?_map, List.getElem?_range h, List.getD, List.getElem?_eq_getElem h]
  · have h1 : y.length ≤ i := Nat.le_of_not_lt h
    have h2 : (List.range y.length)[i]? = none :=
      List.getElem?_eq_none (by simpa using h1)
    simp [List.getElem?_eq_none h1, h2]

theorem Buffer.set_map_range (len k : Nat) (v : ℚ) (g : Nat → ℚ) :
    ((List.range len).map g).set k v = (List.range len).map (Function.update g k v) := by
  apply List.ext_getElem?
  intro i
  by_cases h : i < len
  · by_cases hik : k = i
    · subst hik
      simp only [List.getElem?_set, List.getElem?_map, List.getElem?_range h,
        List.length_map, List.length_range, h, if_true, Option.map_some',
        Function.update_same]
    · have hne : i ≠ k := fun hh => hik hh.symm
      simp [List.getElem?_set, List.getElem?_map, List.getElem?_range h, hik,
        Function.update_noteq hne]
  · have h1 : len ≤ i := Nat.le_of_not_lt h
    simp [List.getElem?_set, List.getElem?_eq_none, h1]

theorem Buffer.getD_map_range (len : Nat) (g : Nat → ℚ) (i : Nat) (h : i < len) :
    ((List.range len).map g).getD i 0 = g i := by
  simp [List.getD, List.getElem?_map, List.getElem?_range h]

theorem Buffer.getElem?_map_range (len : Nat) (g : Nat → ℚ) (i : Nat) (h : i < len) :
    ((List.range len).map g)[i]? = some (g i) := by
  simp [List.getElem?_map, List.getElem?_range h]

/-- Writing `w 0` at index `0` of a buffer. -/
theorem Buffer.write_zero (y : Buffer) (w : Nat → ℚ) (h : 0 < y.length) :
    y.write 0 (w 0) =
      .ok ((List.range y.length).map (fun j => if j ≤ 0 then w j else y.getD j 0)) := by
  rw [Buffer.write_of_lt y 0 _ h]
  congr 1
  conv_lhs => rw [Buffer.eq_map_range y]
  rw [Buffer.set_map_range]
  congr 1
  funext j
  by_cases hj : j = 0
  · subst hj; simp
  · rw [Function.update_noteq hj]
    have : ¬ j ≤ 0 := by omega
    simp [this]

/-- Writing `w (k + 1)` at index `k + 1` of a buffer already filled up to `k`. -/
theorem Buffer.write_fill (len : Nat) (w b : Nat → ℚ) (k : Nat) (h : k + 1 < len) :
    Buffer.write ((List.range len).map (fun j => if j ≤ k then w j else b j)) (k + 1)
        (w (k + 1)) =
      .ok ((List.range len).map (fun j => if j ≤ k + 1 then w j else b j)) := by
  rw [Buffer.write_of_lt _ _ _ (by simpa using h), Buffer.set_map_range]
  congr 2
  funext j
  by_cases hj : j = k + 1
  · subst hj; simp
  · rw [Function.update_noteq hj]
    by_cases h1 : j ≤ k
    · have : j ≤ k + 1 := by omega
      simp [h1, this]
    · have : ¬ j ≤ k + 1 := by omega
      simp [h1, this]

/-- Writing past the end of a tabulated buffer. -/
theorem Buffer.write_fill_outOfRange (len : Nat) (g : Nat → ℚ) (i : Nat) (v : ℚ)
    (h : len ≤ i) :
    Buffer.write ((List.range len).map g) i v = .error Failure.OutOfRange :=
  Buffer.write_of_le _ _ _ (by simpa using h)

/-- Reading index `0` of a tabulated buffer. -/
theorem Buffer.read_fill_zero (len : Nat) (g : Nat → ℚ) (h : 0 < len) :
    Buffer.read ((List.range len).map g) 0 = .ok (g 0) := by
  rw [Buffer.read_of_lt _ _ (by simpa using h), Buffer.getD_map_range len g 0 h]

namespace IdealGasConstPressureAdiabaticReactor

/-! ## Closed forms of the member functions -/

theorem computeThermoProperties_eq (m : Mechanism)
    (r : IdealGasConstPressureAdiabaticReactor) :
    r.computeThermoProperties m =
      { r with
        cp_ := m.species_specific_heat_constant_pressure_mass_specific r.T_
        h_ := m.species_enthalpy_mass_specific r.T_
        cp_bar_ := fun j => if j < r.n_species_.toNat then
          m.species_specific_heat_constant_pressure_mass_specific r.T_ j * r.MW_ j
          else r.cp_bar_ j
        h_bar_ := fun j => if j < r.n_species_.toNat then
          m.species_enthalpy_mass_specific r.T_ j * r.MW_ j
          else r.h_bar_ j } := by
  have h := forLoop_eq_of_step
    (fun i (r : IdealGasConstPressureAdiabaticReactor) =>
      let r := { r with cp_bar_ := Function.update r.cp_bar_ i (r.cp_ i * r.MW_ i) }
      { r with h_bar_ := Function.update r.h_bar_ i (r.h_ i * r.MW_ i) })
    r.n_species_.toNat 0
    (fun k => { r with
        cp_ := m.species_specific_heat_constant_pressure_mass_specific r.T_
        h_ := m.species_enthalpy_mass_specific r.T_
        cp_bar_ := fun j => if j < k then
          m.species_specific_heat_constant_pressure_mass_specific r.T_ j * r.MW_ j
          else r.cp_bar_ j
        h_bar_ := fun j => if j < k then
          m.species_enthalpy_mass_specific r.T_ j * r.MW_ j
          else r.h_bar_ j })
    (by
      intro k _
      simp only [Nat.zero_add]
      rw [update_fill (fun j =>
          m.species_specific_heat_constant_pressure_mass_specific r.T_ j * r.MW_ j),
        update_fill (fun j => m.species_enthalpy_mass_specific r.T_ j * r.MW_ j)])
  simpa [computeThermoProperties] using h

/-- State of `setState` after `k` iterations of its loop. -/
theorem setState_step (r : IdealGasConstPressureAdiabaticReactor) (y : Buffer)
    (temperature : ℚ) (k : Nat) (hk : k + 1 < y.length) :
    (fun i (r : IdealGasConstPressureAdiabaticReactor) =>
      match y.read i with
      | .error e => Except.error e
      | .ok v =>
        let r := { r with Y_ := Function.update r.Y_ (i - 1) v }
        .ok { r with
          C_ := Function.update r.C_ (i - 1)
                  ((r.P_ * r.MWtot_ * r.Y_ (i - 1)) / (ChemConfig.Ru * r.T_ * r.MW_ (i - 1))) })
      (1 + k)
      { r with
        T_ := temperature
        Y_ := fun j => if j < k then y.getD (j + 1) 0 else r.Y_ j
        C_ := fun j => if j < k then
          (r.P_ * r.MWtot_ * y.getD (j + 1) 0) / (ChemConfig.Ru * temperature * r.MW_ j)
          else r.C_ j } =
    .ok { r with
        T_ := temperature
        Y_ := fun j => if j < k + 1 then y.getD (j + 1) 0 else r.Y_ j
        C_ := fun j => if j < k + 1 then
          (r.P_ * r.MWtot_ * y.getD (j + 1) 0) / (ChemConfig.Ru * temperature * r.MW_ j)
          else r.C_ j } := by
  have hr : y.read (1 + k) = .ok (y.getD (k + 1) 0) := by
    rw [Nat.add_comm 1 k]
    exact Buffer.read_of_lt y (k + 1) hk
  simp only [hr, Nat.add_sub_cancel_left, Function.update_same]
  rw [update_fill (fun j => y.getD (j + 1) 0),
    update_fill (fun j =>
      (r.P_ * r.MWtot_ * y.getD (j + 1) 0) / (ChemConfig.Ru * temperature * r.MW_ j))]

theorem setState_eq (r : IdealGasConstPressureAdiabaticReactor) (y : Buffer)
    (temperature : ℚ) (hy : r.n_species_.toNat < y.length) :
    r.setState y temperature =
      .ok { r with
        T_ := temperature
        Y_ := fun j => if j < r.n_species_.toNat then y.getD (j + 1) 0 else r.Y_ j
        C_ := fun j => if j < r.n_species_.toNat then
          (r.P_ * r.MWtot_ * y.getD (j + 1) 0) / (ChemConfig.Ru * temperature * r.MW_ j)
          else r.C_ j } := by
  simp only [setState]
  refine forLoopM_eq _ 1 r.n_species_.toNat
    (fun k => { r with
        T_ := temperature
        Y_ := fun j => if j < k then y.getD (j + 1) 0 else r.Y_ j
        C_ := fun j => if j < k then
          (r.P_ * r.MWtot_ * y.getD (j + 1) 0) / (ChemConfig.Ru * temperature * r.MW_ j)
          else r.C_ j }) _ ?_ ?_
  · simp
  · intro k hk
    exact setState_step r y temperature k (by omega)

/-- Reading `y[1..n]` in `setState` leaves a buffer of length at most `n` (and at least
one). -/
theorem setState_outOfRange (r : IdealGasConstPressureAdiabaticReactor) (y : Buffer)
    (temperature : ℚ) (h0 : 0 < y.length) (hy : y.length ≤ r.n_species_.toNat) :
    r.setState y temperature = .error Failure.OutOfRange := by
  simp only [setState]
  refine forLoopM_error _ 1 r.n_species_.toNat
    (fun k => { r with
        T_ := temperature
        Y_ := fun j => if j < k then y.getD (j + 1) 0 else r.Y_ j
        C_ := fun j => if j < k then
          (r.P_ * r.MWtot_ * y.getD (j + 1) 0) / (ChemConfig.Ru * temperature * r.MW_ j)
          else r.C_ j }) _ Failure.OutOfRange (y.length - 1) ?_ (by omega) ?_ ?_
  · simp
  · intro k hk
    exact setState_step r y temperature k (by omega)
  · have hr : y.read (1 + (y.length - 1)) = .error Failure.OutOfRange :=
      Buffer.read_of_le y _ (by omega)
    simp only [hr]

theorem setInitialState_eq (r : IdealGasConstPressureAdiabaticReactor) (y : Buffer)
    (hy : r.n_species_.toNat < y.length) :
    r.setInitialState y =
      .ok ((List.range y.length).map (fun j =>
        if j ≤ r.n_species_.toNat then (if j = 0 then r.T_ else r.Y_ (j - 1))
        else y.getD j 0)) := by
  simp only [setInitialState]
  have hw : y.write 0 r.T_ = .ok ((List.range y.length).map (fun j =>
      if j ≤ 0 then (if j = 0 then r.T_ else r.Y_ (j - 1)) else y.getD j 0)) :=
    Buffer.write_zero y (fun j => if j = 0 then r.T_ else r.Y_ (j - 1)) (by omega)
  rw [hw]
  simp only []
  refine forLoopM_eq _ 1 r.n_species_.toNat
    (fun k => (List.range y.length).map (fun j =>
        if j ≤ k then (if j = 0 then r.T_ else r.Y_ (j - 1)) else y.getD j 0)) _ rfl ?_
  intro k hk
  have h := Buffer.write_fill y.length (fun j => if j = 0 then r.T_ else r.Y_ (j - 1))
    (fun j => y.getD j 0) k (by omega)
  simpa [Nat.add_comm 1 k] using h

/-- Writing `y[0..n]` in `setInitialState` leaves a buffer of length at most `n`. -/
theorem setInitialState_outOfRange (r : IdealGasConstPressureAdiabaticReactor)
    (y : Buffer) (hy : y.length ≤ r.n_species_.toNat) :
    r.setInitialState y = .error Failure.OutOfRange := by
  simp only [setInitialState]
  by_cases h0 : y.length = 0
  · rw [Buffer.write_of_le y 0 _ (by omega)]
  · have hw : y.write 0 r.T_ = .ok ((List.range y.length).map (fun j =>
        if j ≤ 0 then (if j = 0 then r.T_ else r.Y_ (j - 1)) else y.getD j 0)) :=
      Buffer.write_zero y (fun j => if j = 0 then r.T_ else r.Y_ (j - 1)) (by omega)
    rw [hw]
    simp only []
    refine forLoopM_error _ 1 r.n_species_.toNat
      (fun k => (List.range y.length).map (fun j =>
          if j ≤ k then (if j = 0 then r.T_ else r.Y_ (j - 1)) else y.getD j 0)) _
      Failure.OutOfRange (y.length - 1) rfl (by omega) ?_ ?_
    · intro k hk
      have h := Buffer.write_fill y.length (fun j => if j = 0 then r.T_ else r.Y_ (j - 1))
        (fun j => y.getD j 0) k (by omega)
      simpa [Nat.add_comm 1 k] using h
    · exact Buffer.write_fill_outOfRange _ _ _ _ (by omega)

/-- The constructor is the composition of its blocks. -/
theorem construct_unfold (m : Mechanism) (mem : IdealGasConstPressureAdiabaticReactor)
    (n : Int) (temperature pressure : ℚ) :
    construct m mem n temperature pressure =
      .ok (computeProductionRates m (construct_concentrations
        { construct_massFractions (computeThermoProperties m
            { mem with
              n_species_ := n, T_ := temperature, P_ := pressure
              MW_ := m.molecular_weights, N_ := 0, D_ := 0 }) with
          MWtot_ := 1 / construct_temp (construct_massFractions (computeThermoProperties m
            { mem with
              n_species_ := n, T_ := temperature, P_ := pressure
              MW_ := m.molecular_weights, N_ := 0, D_ := 0 })) })) := rfl

/-- The function `evalRHS` is the composition of its blocks. -/
theorem evalRHS_unfold (m : Mechanism) (r : IdealGasConstPressureAdiabaticReactor) (t : ℚ)
    (y ydot : Buffer) :
    r.evalRHS m t y ydot =
      match y.read 0 with
      | .error e => .error e
      | .ok temp =>
      match r.setState y temp with
      | .error e => .error e
      | .ok r1 =>
      match ydot.write 0 ((evalRHS_energy (r1.getProperties m)).N_ /
          (evalRHS_energy (r1.getProperties m)).D_) with
      | .error e => .error e
      | .ok ydot1 =>
      match evalRHS_species (evalRHS_energy (r1.getProperties m))
          (evalRHS_sums (evalRHS_energy (r1.getProperties m))).1
          (evalRHS_sums (evalRHS_energy (r1.getProperties m))).2 ydot1 with
      | .error e => .error e
      | .ok ydot2 => .ok (evalRHS_energy (r1.getProperties m), ydot2) := rfl

theorem construct_massFractions_eq (r : IdealGasConstPressureAdiabaticReactor) :
    construct_massFractions r =
      { r with Y_ := fun j => if j < r.n_species_.toNat then 1 / 10 else r.Y_ j } := by
  simp only [construct_massFractions]
  refine forLoop_eq _ 0 r.n_species_.toNat
    (fun k => { r with Y_ := fun j => if j < k then 1 / 10 else r.Y_ j }) _ ?_ ?_
  · simp
  · intro k _
    simp only [Nat.zero_add]
    rw [update_fill (fun _ => 1 / 10)]

theorem construct_temp_eq (r : IdealGasConstPressureAdiabaticReactor) :
    construct_temp r = ∑ i in Finset.range r.n_species_.toNat, r.Y_ i / r.MW_ i := by
  simp only [construct_temp]
  rw [forLoop_sum (fun i => r.Y_ i / r.MW_ i)]
  simp

theorem construct_concentrations_eq (r : IdealGasConstPressureAdiabaticReactor) :
    construct_concentrations r =
      { r with
        C_ := fun j => if j < r.n_species_.toNat then
          (r.P_ * r.MWtot_ * r.Y_ j) / (ChemConfig.Ru * r.T_ * r.MW_ j)
          else r.C_ j } := by
  simp only [construct_concentrations]
  refine forLoop_eq _ 0 r.n_species_.toNat
    (fun k => { r with
      C_ := fun j => if j < k then
        (r.P_ * r.MWtot_ * r.Y_ j) / (ChemConfig.Ru * r.T_ * r.MW_ j)
        else r.C_ j }) _ ?_ ?_
  · simp
  · intro k _
    simp only [Nat.zero_add]
    rw [update_fill (fun j => (r.P_ * r.MWtot_ * r.Y_ j) / (ChemConfig.Ru * r.T_ * r.MW_ j))]

theorem evalRHS_energy_eq (r : IdealGasConstPressureAdiabaticReactor) :
    evalRHS_energy r =
      { r with
        N_ := ∑ i in Finset.range r.n_species_.toNat, (-(r.h_bar_ i)) * r.omega_ i
        D_ := ∑ i in Finset.range r.n_species_.toNat,
          ((r.Y_ i * r.P_ * r.MWtot_) * r.cp_bar_ i) /
            (ChemConfig.Ru * r.T_ * r.MW_ i) } := by
  simp only [evalRHS_energy]
  refine forLoop_eq _ 0 r.n_species_.toNat (fun k => { r with
      N_ := ∑ i in Finset.range k, (-(r.h_bar_ i)) * r.omega_ i
      D_ := ∑ i in Finset.range k,
        ((r.Y_ i * r.P_ * r.MWtot_) * r.cp_bar_ i) /
          (ChemConfig.Ru * r.T_ * r.MW_ i) }) _ ?_ ?_
  · simp
  · intro k _
    simp only [Nat.zero_add, Finset.sum_range_succ]

theorem evalRHS_sums_eq (r : IdealGasConstPressureAdiabaticReactor) :
    evalRHS_sums r =
      (∑ i in Finset.range r.n_species_.toNat, r.omega_ i,
       ∑ i in Finset.range r.n_species_.toNat,
         (r.Y_ i * r.P_ * r.MWtot_) / (ChemConfig.Ru * r.T_ * r.MW_ i)) := by
  simp only [evalRHS_sums]
  refine forLoop_eq _ 0 r.n_species_.toNat (fun k => (∑ i in Finset.range k, r.omega_ i,
     ∑ i in Finset.range k,
       (r.Y_ i * r.P_ * r.MWtot_) / (ChemConfig.Ru * r.T_ * r.MW_ i))) _ ?_ ?_
  · simp
  · intro k _
    simp only [Nat.zero_add, Finset.sum_range_succ]

/-- One iteration of the species loop on a buffer filled up to index `k`. -/
theorem evalRHS_species_step (r : IdealGasConstPressureAdiabaticReactor)
    (omega_sum concentration_sum : ℚ) (len : Nat) (g : Nat → ℚ) (k : Nat)
    (hk : k + 1 < len) :
    (fun i (ydot : Buffer) =>
      let omega_temp := r.omega_ i * (r.MW_ i * ChemConfig.Ru * r.T_) / (r.P_ * r.MWtot_)
      match ydot.read 0 with
      | .error e => Except.error e
      | .ok dTdt =>
        ydot.write (i + 1)
          (omega_temp - r.Y_ i * ((omega_sum / concentration_sum) + (dTdt / r.T_))))
      (0 + k)
      ((List.range len).map (fun j => if j ≤ k then
        (if j = 0 then g 0 else
          r.omega_ (j - 1) * (r.MW_ (j - 1) * ChemConfig.Ru * r.T_) / (r.P_ * r.MWtot_) -
            r.Y_ (j - 1) * ((omega_sum / concentration_sum) + (g 0 / r.T_)))
        else g j)) =
    .ok ((List.range len).map (fun j => if j ≤ k + 1 then
        (if j = 0 then g 0 else
          r.omega_ (j - 1) * (r.MW_ (j - 1) * ChemConfig.Ru * r.T_) / (r.P_ * r.MWtot_) -
            r.Y_ (j - 1) * ((omega_sum / concentration_sum) + (g 0 / r.T_)))
        else g j)) := by
  have hr := Buffer.read_fill_zero len (fun j => if j ≤ k then
        (if j = 0 then g 0 else
          r.omega_ (j - 1) * (r.MW_ (j - 1) * ChemConfig.Ru * r.T_) / (r.P_ * r.MWtot_) -
            r.Y_ (j - 1) * ((omega_sum / concentration_sum) + (g 0 / r.T_)))
        else g j) (by omega)
  have hw := Buffer.write_fill len (fun j =>
        (if j = 0 then g 0 else
          r.omega_ (j - 1) * (r.MW_ (j - 1) * ChemConfig.Ru * r.T_) / (r.P_ * r.MWtot_) -
            r.Y_ (j - 1) * ((omega_sum / concentration_sum) + (g 0 / r.T_)))) g k hk
  simp only [Nat.zero_le, if_true] at hr
  simp only [Nat.succ_ne_zero, if_false, Nat.add_sub_cancel] at hw
  simp only [Nat.zero_add, hr]
  exact hw

/-- The initial buffer of the species loop is "filled up to index 0". -/
theorem evalRHS_species_init (len : Nat) (g w : Nat → ℚ) (h0 : w 0 = g 0) :
    (List.range len).map g = (List.range len).map (fun j => if j ≤ 0 then w j else g j) := by
  congr 1
  funext j
  by_cases hj : j = 0
  · subst hj; simp [h0]
  · have : ¬ j ≤ 0 := by omega
    simp [this]

theorem evalRHS_species_eq (r : IdealGasConstPressureAdiabaticReactor)
    (omega_sum concentration_sum : ℚ) (len : Nat) (g : Nat → ℚ)
    (hlen : r.n_species_.toNat < len) :
    evalRHS_species r omega_sum concentration_sum ((List.range len).map g) =
      .ok ((List.range len).map (fun j => if j ≤ r.n_species_.toNat then
        (if j = 0 then g 0 else
          r.omega_ (j - 1) * (r.MW_ (j - 1) * ChemConfig.Ru * r.T_) / (r.P_ * r.MWtot_) -
            r.Y_ (j - 1) * ((omega_sum / concentration_sum) + (g 0 / r.T_)))
        else g j)) := by
  simp only [evalRHS_species]
  refine forLoopM_eq _ 0 r.n_species_.toNat
    (fun k => (List.range len).map (fun j => if j ≤ k then
        (if j = 0 then g 0 else
          r.omega_ (j - 1) * (r.MW_ (j - 1) * ChemConfig.Ru * r.T_) / (r.P_ * r.MWtot_) -
            r.Y_ (j - 1) * ((omega_sum / concentration_sum) + (g 0 / r.T_)))
        else g j)) _ ?_ ?_
  · exact evalRHS_species_init len g _ (by simp)
  · intro k hk
    exact evalRHS_species_step r omega_sum concentration_sum len g k (by omega)

/-- The species loop writes `ydot[len]` when the buffer has length `len ≤ n`. -/
theorem evalRHS_species_outOfRange (r : IdealGasConstPressureAdiabaticReactor)
    (omega_sum concentration_sum : ℚ) (len : Nat) (g : Nat → ℚ)
    (h0 : 0 < len) (hlen : len ≤ r.n_species_.toNat) :
    evalRHS_species r omega_sum concentration_sum ((List.range len).map g) =
      .error Failure.OutOfRange := by
  simp only [evalRHS_species]
  refine forLoopM_error _ 0 r.n_species_.toNat
    (fun k => (List.range len).map (fun j => if j ≤ k then
        (if j = 0 then g 0 else
          r.omega_ (j - 1) * (r.MW_ (j - 1) * ChemConfig.Ru * r.T_) / (r.P_ * r.MWtot_) -
            r.Y_ (j - 1) * ((omega_sum / concentration_sum) + (g 0 / r.T_)))
        else g j)) _ Failure.OutOfRange (len - 1) ?_ (by omega) ?_ ?_
  · exact evalRHS_species_init len g _ (by simp)
  · intro k hk
    exact evalRHS_species_step r omega_sum concentration_sum len g k (by omega)
  · have hr := Buffer.read_fill_zero len (fun j => if j ≤ len - 1 then
        (if j = 0 then g 0 else
          r.omega_ (j - 1) * (r.MW_ (j - 1) * ChemConfig.Ru * r.T_) / (r.P_ * r.MWtot_) -
            r.Y_ (j - 1) * ((omega_sum / concentration_sum) + (g 0 / r.T_)))
        else g j) h0
    simp only [Nat.zero_le, if_true] at hr
    simp only [Nat.zero_add, hr]
    exact Buffer.write_fill_outOfRange _ _ _ _ (by omega)

theorem evalRHS_energy_n_species (r : IdealGasConstPressureAdiabaticReactor) :
    (evalRHS_energy r).n_species_ = r.n_species_ := by
  rw [evalRHS_energy_eq]

theorem getProperties_n_species (m : Mechanism) (r : IdealGasConstPressureAdiabaticReactor) :
    (r.getProperties m).n_species_ = r.n_species_ := by
  simp [getProperties, computeProductionRates, computeThermoProperties_eq]

theorem evalRHS_state_n_species (m : Mechanism) (r : IdealGasConstPressureAdiabaticReactor)
    (y : Buffer) : (evalRHS_state m r y).n_species_ = r.n_species_ := by
  simp [evalRHS_state, evalRHS_energy_n_species, getProperties_n_species, absorbed]

/-- With both buffers longer than the species count, `evalRHS` succeeds and returns the
closed forms `evalRHS_state` and `evalRHS_ydot`. -/
theorem evalRHS_eq (m : Mechanism) (r : IdealGasConstPressureAdiabaticReactor) (t : ℚ)
    (y ydot : Buffer) (hy : r.n_species_.toNat < y.length)
    (hyd : r.n_species_.toNat < ydot.length) :
    r.evalRHS m t y ydot = .ok (evalRHS_state m r y, evalRHS_ydot m r y ydot) := by
  have hread : y.read 0 = .ok (y.getD 0 0) := Buffer.read_of_lt y 0 (by omega)
  have hset : r.setState y (y.getD 0 0) = .ok (absorbed r y) := setState_eq r y _ hy
  have hw : ydot.write 0 ((evalRHS_state m r y).N_ / (evalRHS_state m r y).D_) =
      .ok ((List.range ydot.length).map (fun j =>
        if j ≤ 0 then (evalRHS_state m r y).N_ / (evalRHS_state m r y).D_
        else ydot.getD j 0)) :=
    Buffer.write_zero ydot (fun _ => (evalRHS_state m r y).N_ / (evalRHS_state m r y).D_)
      (by omega)
  have hn : (evalRHS_state m r y).n_species_.toNat < ydot.length := by
    rw [evalRHS_state_n_species]; exact hyd
  have hsp := evalRHS_species_eq (evalRHS_state m r y)
    (evalRHS_sums (evalRHS_state m r y)).1 (evalRHS_sums (evalRHS_state m r y)).2
    ydot.length (fun j =>
        if j ≤ 0 then (evalRHS_state m r y).N_ / (evalRHS_state m r y).D_
        else ydot.getD j 0) hn
  rw [evalRHS_unfold, hread]
  simp only []
  rw [hset]
  simp only []
  change (match ydot.write 0 ((evalRHS_state m r y).N_ / (evalRHS_state m r y).D_) with
    | .error e => Except.error e
    | .ok ydot1 =>
      match evalRHS_species (evalRHS_state m r y) (evalRHS_sums (evalRHS_state m r y)).1
          (evalRHS_sums (evalRHS_state m r y)).2 ydot1 with
      | .error e => Except.error e
      | .ok ydot2 => Except.ok (evalRHS_state m r y, ydot2)) = _
  rw [hw]
  simp only []
  rw [hsp]
  simp only [evalRHS_ydot, evalRHS_state_n_species]
  congr 3
  funext j
  by_cases hj : j = 0
  · subst hj; simp
  · have : ¬ j ≤ 0 := by omega
    simp [hj, this]

/-- A state buffer of length at most `n` makes `evalRHS` read out of range. -/
theorem evalRHS_outOfRange_y (m : Mechanism) (r : IdealGasConstPressureAdiabaticReactor)
    (t : ℚ) (y ydot : Buffer) (hy : y.length ≤ r.n_species_.toNat) :
    r.evalRHS m t y ydot = .error Failure.OutOfRange := by
  rw [evalRHS_unfold]
  by_cases h0 : y.length = 0
  · rw [Buffer.read_of_le y 0 (by omega)]
  · rw [Buffer.read_of_lt y 0 (by omega)]
    simp only []
    rw [setState_outOfRange r y _ (by omega) hy]

/-- A derivative buffer of length at most `n` makes `evalRHS` write out of range. -/
theorem evalRHS_outOfRange_ydot (m : Mechanism) (r : IdealGasConstPressureAdiabaticReactor)
    (t : ℚ) (y ydot : Buffer) (hy : r.n_species_.toNat < y.length)
    (hyd : ydot.length ≤ r.n_species_.toNat) :
    r.evalRHS m t y ydot = .error Failure.OutOfRange := by
  have hread : y.read 0 = .ok (y.getD 0 0) := Buffer.read_of_lt y 0 (by omega)
  have hset : r.setState y (y.getD 0 0) = .ok (absorbed r y) := setState_eq r y _ hy
  rw [evalRHS_unfold, hread]
  simp only []
  rw [hset]
  simp only []
  change (match ydot.write 0 ((evalRHS_state m r y).N_ / (evalRHS_state m r y).D_) with
    | .error e => Except.error e
    | .ok ydot1 =>
      match evalRHS_species (evalRHS_state m r y) (evalRHS_sums (evalRHS_state m r y)).1
          (evalRHS_sums (evalRHS_state m r y)).2 ydot1 with
      | .error e => Except.error e
      | .ok ydot2 => Except.ok (evalRHS_state m r y, ydot2)) = _
  by_cases h0 : ydot.length = 0
  · rw [Buffer.write_of_le ydot 0 _ (by omega)]
  · have hw : ydot.write 0 ((evalRHS_state m r y).N_ / (evalRHS_state m r y).D_) =
        .ok ((List.range ydot.length).map (fun j =>
          if j ≤ 0 then (evalRHS_state m r y).N_ / (evalRHS_state m r y).D_
          else ydot.getD j 0)) :=
      Buffer.write_zero ydot (fun _ => (evalRHS_state m r y).N_ / (evalRHS_state m r y).D_)
        (by omega)
    rw [hw]
    simp only []
    rw [evalRHS_species_outOfRange (evalRHS_state m r y) _ _ ydot.length _ (by omega)
      (by rw [evalRHS_state_n_species]; exact hyd)]

/-- The only failure `evalRHS` can return is `OutOfRange`. -/
theorem evalRHS_error (m : Mechanism) (r : IdealGasConstPressureAdiabaticReactor)
    (t : ℚ) (y ydot : Buffer) (e : Failure) (h : r.evalRHS m t y ydot = .error e) :
    e = Failure.OutOfRange := by
  by_cases hy : r.n_species_.toNat < y.length
  · by_cases hyd : r.n_species_.toNat < ydot.length
    · rw [evalRHS_eq m r t y ydot hy hyd] at h
      cases h
    · rw [evalRHS_outOfRange_ydot m r t y ydot hy (by omega)] at h
      cases h; rfl
  · rw [evalRHS_outOfRange_y m r t y ydot (by omega)] at h
    cases h; rfl

/-! ### Fields of `evalRHS_state` and entries of `evalRHS_ydot` -/

theorem evalRHS_state_P (m : Mechanism) (r : IdealGasConstPressureAdiabaticReactor)
    (y : Buffer) : (evalRHS_state m r y).P_ = r.P_ := by
  simp [evalRHS_state, evalRHS_energy_eq, getProperties, computeProductionRates,
    computeThermoProperties_eq, absorbed]

theorem evalRHS_state_MWtot (m : Mechanism) (r : IdealGasConstPressureAdiabaticReactor)
    (y : Buffer) : (evalRHS_state m r y).MWtot_ = r.MWtot_ := by
  simp [evalRHS_state, evalRHS_energy_eq, getProperties, computeProductionRates,
    computeThermoProperties_eq, absorbed]

theorem evalRHS_state_MW (m : Mechanism) (r : IdealGasConstPressureAdiabaticReactor)
    (y : Buffer) : (evalRHS_state m r y).MW_ = r.MW_ := by
  simp [evalRHS_state, evalRHS_energy_eq, getProperties, computeProductionRates,
    computeThermoProperties_eq, absorbed]

theorem evalRHS_state_T (m : Mechanism) (r : IdealGasConstPressureAdiabaticReactor)
    (y : Buffer) : (evalRHS_state m r y).T_ = y.getD 0 0 := by
  simp [evalRHS_state, evalRHS_energy_eq, getProperties, computeProductionRates,
    computeThermoProperties_eq, absorbed]

theorem evalRHS_state_Y (m : Mechanism) (r : IdealGasConstPressureAdiabaticReactor)
    (y : Buffer) : (evalRHS_state m r y).Y_ =
      fun j => if j < r.n_species_.toNat then y.getD (j + 1) 0 else r.Y_ j := by
  simp [evalRHS_state, evalRHS_energy_eq, getProperties, computeProductionRates,
    computeThermoProperties_eq, absorbed]

theorem evalRHS_state_C (m : Mechanism) (r : IdealGasConstPressureAdiabaticReactor)
    (y : Buffer) : (evalRHS_state m r y).C_ =
      fun j => if j < r.n_species_.toNat then
        (r.P_ * r.MWtot_ * y.getD (j + 1) 0) / (ChemConfig.Ru * y.getD 0 0 * r.MW_ j)
        else r.C_ j := by
  simp [evalRHS_state, evalRHS_energy_eq, getProperties, computeProductionRates,
    computeThermoProperties_eq, absorbed]

theorem evalRHS_state_cp (m : Mechanism) (r : IdealGasConstPressureAdiabaticReactor)
    (y : Buffer) : (evalRHS_state m r y).cp_ =
      m.species_specific_heat_constant_pressure_mass_specific (y.getD 0 0) := by
  simp [evalRHS_state, evalRHS_energy_eq, getProperties, computeProductionRates,
    computeThermoProperties_eq, absorbed]

theorem evalRHS_state_h (m : Mechanism) (r : IdealGasConstPressureAdiabaticReactor)
    (y : Buffer) : (evalRHS_state m r y).h_ =
      m.species_enthalpy_mass_specific (y.getD 0 0) := by
  simp [evalRHS_state, evalRHS_energy_eq, getProperties, computeProductionRates,
    computeThermoProperties_eq, absorbed]

theorem evalRHS_state_cp_bar (m : Mechanism) (r : IdealGasConstPressureAdiabaticReactor)
    (y : Buffer) : (evalRHS_state m r y).cp_bar_ =
      fun j => if j < r.n_species_.toNat then
        m.species_specific_heat_constant_pressure_mass_specific (y.getD 0 0) j * r.MW_ j
        else r.cp_bar_ j := by
  simp [evalRHS_state, evalRHS_energy_eq, getProperties, computeProductionRates,
    computeThermoProperties_eq, absorbed]

theorem evalRHS_state_h_bar (m : Mechanism) (r : IdealGasConstPressureAdiabaticReactor)
    (y : Buffer) : (evalRHS_state m r y).h_bar_ =
      fun j => if j < r.n_species_.toNat then
        m.species_enthalpy_mass_specific (y.getD 0 0) j * r.MW_ j
        else r.h_bar_ j := by
  simp [evalRHS_state, evalRHS_energy_eq, getProperties, computeProductionRates,
    computeThermoProperties_eq, absorbed]

theorem evalRHS_state_omega (m : Mechanism) (r : IdealGasConstPressureAdiabaticReactor)
    (y : Buffer) : (evalRHS_state m r y).omega_ =
      m.source_species (evalRHS_state m r y).C_ (evalRHS_state m r y).T_ := by
  simp [evalRHS_state, evalRHS_energy_eq, getProperties, computeProductionRates,
    computeThermoProperties_eq, absorbed]

theorem evalRHS_state_N (m : Mechanism) (r : IdealGasConstPressureAdiabaticReactor)
    (y : Buffer) : (evalRHS_state m r y).N_ =
      ∑ i in Finset.range r.n_species_.toNat,
        (-((evalRHS_state m r y).h_bar_ i)) * (evalRHS_state m r y).omega_ i := by
  simp [evalRHS_state, evalRHS_energy_eq, getProperties, computeProductionRates,
    computeThermoProperties_eq, absorbed]

theorem evalRHS_state_D (m : Mechanism) (r : IdealGasConstPressureAdiabaticReactor)
    (y : Buffer) : (evalRHS_state m r y).D_ =
      ∑ i in Finset.range r.n_species_.toNat,
        (((evalRHS_state m r y).Y_ i * (evalRHS_state m r y).P_ *
            (evalRHS_state m r y).MWtot_) * (evalRHS_state m r y).cp_bar_ i) /
          (ChemConfig.Ru * (evalRHS_state m r y).T_ * (evalRHS_state m r y).MW_ i) := by
  simp [evalRHS_state, evalRHS_energy_eq, getProperties, computeProductionRates,
    computeThermoProperties_eq, absorbed]

theorem evalRHS_ydot_length (m : Mechanism) (r : IdealGasConstPressureAdiabaticReactor)
    (y ydot : Buffer) : (evalRHS_ydot m r y ydot).length = ydot.length := by
  simp [evalRHS_ydot]

theorem evalRHS_ydot_zero (m : Mechanism) (r : IdealGasConstPressureAdiabaticReactor)
    (y ydot : Buffer) (hyd : 0 < ydot.length) :
    (evalRHS_ydot m r y ydot)[0]? =
      some ((evalRHS_state m r y).N_ / (evalRHS_state m r y).D_) := by
  simp only [evalRHS_ydot]
  rw [Buffer.getElem?_map_range _ _ 0 hyd]
  simp

theorem evalRHS_ydot_succ (m : Mechanism) (r : IdealGasConstPressureAdiabaticReactor)
    (y ydot : Buffer) (i : Nat) (hi : i < r.n_species_.toNat)
    (hyd : r.n_species_.toNat < ydot.length) :
    (evalRHS_ydot m r y ydot)[i + 1]? =
      some ((evalRHS_state m r y).omega_ i *
            ((evalRHS_state m r y).MW_ i * ChemConfig.Ru * (evalRHS_state m r y).T_) /
            ((evalRHS_state m r y).P_ * (evalRHS_state m r y).MWtot_) -
          (evalRHS_state m r y).Y_ i *
            (((evalRHS_sums (evalRHS_state m r y)).1 / (evalRHS_sums (evalRHS_state m r y)).2) +
              ((evalRHS_state m r y).N_ / (evalRHS_state m r y).D_ /
                (evalRHS_state m r y).T_))) := by
  simp only [evalRHS_ydot]
  rw [Buffer.getElem?_map_range _ _ (i + 1) (by omega)]
  have h1 : i + 1 ≤ r.n_species_.toNat := by omega
  simp [h1]

theorem evalRHS_ydot_frame (m : Mechanism) (r : IdealGasConstPressureAdiabaticReactor)
    (y ydot : Buffer) (j : Nat) (hj : r.n_species_.toNat < j) :
    (evalRHS_ydot m r y ydot)[j]? = ydot[j]? := by
  simp only [evalRHS_ydot]
  by_cases h : j < ydot.length
  · rw [Buffer.getElem?_map_range _ _ j h]
    have h1 : ¬ j ≤ r.n_species_.toNat := by omega
    simp [h1, List.getD, List.getElem?_eq_getElem h]
  · have h1 : ydot.length ≤ j := by omega
    rw [List.getElem?_eq_none h1, List.getElem?_eq_none (by simpa using h1)]

end IdealGasConstPressureAdiabaticReactor


/-! ## Construction -/

namespace IdealGasConstPressureAdiabaticReactor

/-- C1: for every species count `n`, temperature `T0` and pressure `P0`, the constructor
returns a state with `MWtot = 1 / sum_{i<n}(Y[i]/MW[i])` and, for every `i < n`,
`C[i] = P0*MWtot*Y[i] / (Ru*T0*MW[i])`, where `MW` is the mechanism's array of molecular
weights.  (For `n <= 0` the sum and the range of `i` are empty.) -/
theorem construct_MWtot_and_C (m : Mechanism) (mem : IdealGasConstPressureAdiabaticReactor)
    (n : Int) (T0 P0 : ℚ) :
    ∃ r, construct m mem n T0 P0 = .ok r ∧
      r.MW_ = m.molecular_weights ∧
      r.MWtot_ = 1 / ∑ i in Finset.range n.toNat, r.Y_ i / r.MW_ i ∧
      ∀ i, i < n.toNat →
        r.C_ i = (P0 * r.MWtot_ * r.Y_ i) / (ChemConfig.Ru * T0 * r.MW_ i) := by
  refine ⟨_, construct_unfold m mem n T0 P0, ?_, ?_, ?_⟩
  · simp [computeProductionRates, construct_concentrations_eq, construct_massFractions_eq,
      computeThermoProperties_eq]
  · simp [computeProductionRates, construct_concentrations_eq, construct_massFractions_eq,
      computeThermoProperties_eq, construct_temp_eq]
  · intro i hi
    have hi1 : (i : Int) < n := Int.lt_toNat.mp hi
    simp [computeProductionRates, construct_concentrations_eq, construct_massFractions_eq,
      computeThermoProperties_eq, construct_temp_eq, hi1]

end IdealGasConstPressureAdiabaticReactor

/-! ## Right-hand side: the formulas -/

namespace IdealGasConstPressureAdiabaticReactor

/-- C2: for every reactor state and every state vector `y = [T, Y_1..Y_n]` (buffers of
length at least `n + 1`), `evalRHS` returns and writes `ydot[0] = N / D` with
`N = sum_{i<n}(-h_bar[i]*omega[i])` and
`D = sum_{i<n}((Y[i]*P*MWtot/(Ru*T*MW[i])) * cp_bar[i])`, where `T = y[0]`,
`Y[i] = y[i+1]`, `h_bar`/`cp_bar` are the thermo provider's values at `T` times `MW`, and
`omega` is the kinetics provider's value at the concentrations recomputed from `y`. -/
theorem evalRHS_temperature_rate (m : Mechanism)
    (r : IdealGasConstPressureAdiabaticReactor) (t : ℚ) (y ydot : Buffer)
    (hy : r.n_species_.toNat < y.length) (hyd : r.n_species_.toNat < ydot.length) :
    ∃ r1 out, r.evalRHS m t y ydot = .ok (r1, out) ∧
      r1.T_ = y.getD 0 0 ∧ r1.P_ = r.P_ ∧ r1.MWtot_ = r.MWtot_ ∧ r1.MW_ = r.MW_ ∧
      (∀ i, i < r.n_species_.toNat → r1.Y_ i = y.getD (i + 1) 0) ∧
      (∀ i, i < r.n_species_.toNat →
        r1.h_bar_ i = m.species_enthalpy_mass_specific r1.T_ i * r1.MW_ i) ∧
      (∀ i, i < r.n_species_.toNat →
        r1.cp_bar_ i =
          m.species_specific_heat_constant_pressure_mass_specific r1.T_ i * r1.MW_ i) ∧
      (∀ i, i < r.n_species_.toNat →
        r1.C_ i = (r1.P_ * r1.MWtot_ * r1.Y_ i) / (ChemConfig.Ru * r1.T_ * r1.MW_ i)) ∧
      r1.omega_ = m.source_species r1.C_ r1.T_ ∧
      out[0]? = some
        ((∑ i in Finset.range r.n_species_.toNat, (-(r1.h_bar_ i)) * r1.omega_ i) /
          (∑ i in Finset.range r.n_species_.toNat,
            (r1.Y_ i * r1.P_ * r1.MWtot_ / (ChemConfig.Ru * r1.T_ * r1.MW_ i)) *
              r1.cp_bar_ i)) := by
  refine ⟨evalRHS_state m r y, evalRHS_ydot m r y ydot, evalRHS_eq m r t y ydot hy hyd,
    evalRHS_state_T m r y, evalRHS_state_P m r y, evalRHS_state_MWtot m r y,
    evalRHS_state_MW m r y, ?_, ?_, ?_, ?_, evalRHS_state_omega m r y, ?_⟩
  · intro i hi
    simp [evalRHS_state_Y, hi]
  · intro i hi
    simp [evalRHS_state_h_bar, evalRHS_state_T, evalRHS_state_MW, hi]
  · intro i hi
    simp [evalRHS_state_cp_bar, evalRHS_state_T, evalRHS_state_MW, hi]
  · intro i hi
    simp [evalRHS_state_C, evalRHS_state_Y, evalRHS_state_T, evalRHS_state_MW,
      evalRHS_state_P, evalRHS_state_MWtot, hi]
  · rw [evalRHS_ydot_zero m r y ydot (by omega)]
    rw [← evalRHS_state_N m r y]
    congr 2
    rw [evalRHS_state_D m r y]
    refine Finset.sum_congr rfl ?_
    intro i _
    ring

/-- C2, witness: the scenario with `omega = [0, 0]`. -/
theorem evalRHS_temperature_rate_witness :
    (scenarioReactor.n_species_.toNat < [(1000 : ℚ), 1 / 2, 1 / 2].length ∧
      scenarioReactor.n_species_.toNat < [(0 : ℚ), 0, 0].length) ∧
    ∃ r1 out, scenarioReactor.evalRHS (scenarioMechanism [0, 0]) 0 [1000, 1 / 2, 1 / 2]
        [0, 0, 0] = .ok (r1, out) ∧
      out[0]? = some
        ((∑ i in Finset.range 2, (-(r1.h_bar_ i)) * r1.omega_ i) /
          (∑ i in Finset.range 2,
            (r1.Y_ i * r1.P_ * r1.MWtot_ / (ChemConfig.Ru * r1.T_ * r1.MW_ i)) *
              r1.cp_bar_ i)) := by
  refine ⟨⟨by decide, by decide⟩, ?_⟩
  obtain ⟨r1, out, h, _, _, _, _, _, _, _, _, _, h0⟩ :=
    evalRHS_temperature_rate (scenarioMechanism [0, 0]) scenarioReactor 0
      [1000, 1 / 2, 1 / 2] [0, 0, 0] (by decide) (by decide)
  exact ⟨r1, out, h, h0⟩

/-- C3: for every reactor state, every state vector `y` (buffers of length at least
`n + 1`) and every species index `i < n`, `evalRHS` returns and writes
`ydot[i+1] = omega[i]*(MW[i]*Ru*T)/(P*MWtot) - Y[i]*(omega_sum/concentration_sum + ydot[0]/T)`
with `omega_sum = sum_i omega[i]` and
`concentration_sum = sum_i (Y[i]*P*MWtot)/(Ru*T*MW[i])`. -/
theorem evalRHS_species_rate (m : Mechanism)
    (r : IdealGasConstPressureAdiabaticReactor) (t : ℚ) (y ydot : Buffer)
    (hy : r.n_species_.toNat < y.length) (hyd : r.n_species_.toNat < ydot.length) :
    ∃ r1 out dTdt, r.evalRHS m t y ydot = .ok (r1, out) ∧
      r1.T_ = y.getD 0 0 ∧ r1.P_ = r.P_ ∧ r1.MWtot_ = r.MWtot_ ∧ r1.MW_ = r.MW_ ∧
      (∀ i, i < r.n_species_.toNat → r1.Y_ i = y.getD (i + 1) 0) ∧
      r1.omega_ = m.source_species r1.C_ r1.T_ ∧
      out[0]? = some dTdt ∧
      ∀ i, i < r.n_species_.toNat →
        out[i + 1]? = some
          (r1.omega_ i * (r1.MW_ i * ChemConfig.Ru * r1.T_) / (r1.P_ * r1.MWtot_) -
            r1.Y_ i *
              ((∑ k in Finset.range r.n_species_.toNat, r1.omega_ k) /
                  (∑ k in Finset.range r.n_species_.toNat,
                    (r1.Y_ k * r1.P_ * r1.MWtot_) / (ChemConfig.Ru * r1.T_ * r1.MW_ k)) +
                dTdt / r1.T_)) := by
  refine ⟨evalRHS_state m r y, evalRHS_ydot m r y ydot,
    (evalRHS_state m r y).N_ / (evalRHS_state m r y).D_, evalRHS_eq m r t y ydot hy hyd,
    evalRHS_state_T m r y, evalRHS_state_P m r y, evalRHS_state_MWtot m r y,
    evalRHS_state_MW m r y, ?_, evalRHS_state_omega m r y,
    evalRHS_ydot_zero m r y ydot (by omega), ?_⟩
  · intro i hi
    simp [evalRHS_state_Y, hi]
  · intro i hi
    rw [evalRHS_ydot_succ m r y ydot i hi hyd, evalRHS_sums_eq, evalRHS_state_n_species]

/-- C3, witness: the scenario with `omega = [-1, 0.0625]`. -/
theorem evalRHS_species_rate_witness :
    (scenarioReactor.n_species_.toNat < [(1000 : ℚ), 1 / 2, 1 / 2].length ∧
      scenarioReactor.n_species_.toNat < [(0 : ℚ), 0, 0].length) ∧
    ∃ r1 out dTdt, scenarioReactor.evalRHS (scenarioMechanism [-1, 1 / 16]) 0
        [1000, 1 / 2, 1 / 2] [0, 0, 0] = .ok (r1, out) ∧
      out[0]? = some dTdt ∧
      ∀ i, i < 2 →
        out[i + 1]? = some
          (r1.omega_ i * (r1.MW_ i * ChemConfig.Ru * r1.T_) / (r1.P_ * r1.MWtot_) -
            r1.Y_ i *
              ((∑ k in Finset.range 2, r1.omega_ k) /
                  (∑ k in Finset.range 2,
                    (r1.Y_ k * r1.P_ * r1.MWtot_) / (ChemConfig.Ru * r1.T_ * r1.MW_ k)) +
                dTdt / r1.T_)) := by
  refine ⟨⟨by decide, by decide⟩, ?_⟩
  obtain ⟨r1, out, dTdt, h, _, _, _, _, _, _, h0, hS⟩ :=
    evalRHS_species_rate (scenarioMechanism [-1, 1 / 16]) scenarioReactor 0
      [1000, 1 / 2, 1 / 2] [0, 0, 0] (by decide) (by decide)
  exact ⟨r1, out, dTdt, h, h0, hS⟩

end IdealGasConstPressureAdiabaticReactor

/-! ## Right-hand side: the denominators in terms of the inputs -/

namespace IdealGasConstPressureAdiabaticReactor

/-- The denominator `D_` of the energy equation in terms of the inputs of the call. -/
theorem evalRHS_state_D_input (m : Mechanism) (r : IdealGasConstPressureAdiabaticReactor)
    (y : Buffer) : (evalRHS_state m r y).D_ =
      ∑ i in Finset.range r.n_species_.toNat,
        ((y.getD (i + 1) 0 * r.P_ * r.MWtot_) *
            (m.species_specific_heat_constant_pressure_mass_specific (y.getD 0 0) i *
              r.MW_ i)) /
          (ChemConfig.Ru * y.getD 0 0 * r.MW_ i) := by
  rw [evalRHS_state_D, evalRHS_state_Y, evalRHS_state_cp_bar, evalRHS_state_P,
    evalRHS_state_MWtot, evalRHS_state_T, evalRHS_state_MW]
  refine Finset.sum_congr rfl ?_
  intro i hi
  simp only [Finset.mem_range.mp hi, if_true]

/-- The sum `concentration_sum` of the species equations in terms of the inputs of the
call. -/
theorem evalRHS_state_concentration_sum_input (m : Mechanism)
    (r : IdealGasConstPressureAdiabaticReactor) (y : Buffer) :
    ∑ i in Finset.range r.n_species_.toNat,
        ((evalRHS_state m r y).Y_ i * (evalRHS_state m r y).P_ *
            (evalRHS_state m r y).MWtot_) /
          (ChemConfig.Ru * (evalRHS_state m r y).T_ * (evalRHS_state m r y).MW_ i) =
      ∑ i in Finset.range r.n_species_.toNat,
        (y.getD (i + 1) 0 * r.P_ * r.MWtot_) / (ChemConfig.Ru * y.getD 0 0 * r.MW_ i) := by
  rw [evalRHS_state_Y, evalRHS_state_P, evalRHS_state_MWtot, evalRHS_state_T,
    evalRHS_state_MW]
  refine Finset.sum_congr rfl ?_
  intro i hi
  simp only [Finset.mem_range.mp hi, if_true]

/-- The quotient of zero by a non-zero `double` is the number zero. -/
theorem doubleQuotient_zero (b : ℚ) (hb : b ≠ 0) : doubleQuotient 0 b = some 0 := by
  simp [doubleQuotient, hb]

end IdealGasConstPressureAdiabaticReactor

/-! ## Right-hand side: conservation properties -/

namespace IdealGasConstPressureAdiabaticReactor

/-- C4, counterexample: in the scenario with `omega = [0, 0]` and all mass fractions zero,
`y = [1000, 0, 0]`, the kinetics returns zero rates but `evalRHS` computes `N = 0`,
`D = 0` and `concentration_sum = 0`, and stores the quotient `N / D` in `ydot[0]`: the
quotient of zero by zero, which is not the number `0` in `double` arithmetic. -/
theorem evalRHS_inert_counterexample :
    ∃ r1 out, scenarioReactor.evalRHS (scenarioMechanism [0, 0]) 0 [1000, 0, 0]
        [0, 0, 0] = .ok (r1, out) ∧
      (∀ i, i < 2 → r1.omega_ i = 0) ∧
      out[0]? = some (r1.N_ / r1.D_) ∧ r1.N_ = 0 ∧ r1.D_ = 0 ∧
      (∑ k in Finset.range 2,
        (r1.Y_ k * r1.P_ * r1.MWtot_) / (ChemConfig.Ru * r1.T_ * r1.MW_ k)) = 0 ∧
      doubleQuotient r1.N_ r1.D_ ≠ some 0 := by
  have hD : (evalRHS_state (scenarioMechanism [0, 0]) scenarioReactor [1000, 0, 0]).D_ = 0 := by
    rw [evalRHS_state_D_input]
    simp [scenarioReactor, Finset.sum_range_succ]
  have hN : (evalRHS_state (scenarioMechanism [0, 0]) scenarioReactor [1000, 0, 0]).N_ = 0 := by
    rw [evalRHS_state_N, evalRHS_state_omega]
    simp [scenarioReactor, scenarioMechanism, Species.ofList, Finset.sum_range_succ]
  refine ⟨_, _, evalRHS_eq (scenarioMechanism [0, 0]) scenarioReactor 0 [1000, 0, 0]
    [0, 0, 0] (by decide) (by decide), ?_, evalRHS_ydot_zero _ _ _ _ (by decide), hN, hD,
    ?_, ?_⟩
  · intro i hi
    rw [evalRHS_state_omega]
    interval_cases i <;> simp [scenarioMechanism, Species.ofList]
  · have h := evalRHS_state_concentration_sum_input (scenarioMechanism [0, 0])
      scenarioReactor [1000, 0, 0]
    have h2 : scenarioReactor.n_species_.toNat = 2 := rfl
    rw [h2] at h
    rw [h]
    simp [Finset.sum_range_succ]
  · rw [hN, hD]
    simp [doubleQuotient]

/-- C4, amended: chemically inert conservation where the quotients are numbers.  For
every state vector `y` (buffers of length at least `n + 1`) at which the kinetics
provider returns `omega[i] = 0` for all `i < n` (at the concentrations recomputed from `y`
and the temperature `y[0]`), and at which no denominator of `evalRHS` is zero
(`T = y[0]`, `P*MWtot`, every `MW[i]`, `D` and `concentration_sum` are non-zero),
`evalRHS` returns `dT/dt = 0` and `dY[i]/dt = 0` for every `i < n`. -/
theorem evalRHS_inert (m : Mechanism) (r : IdealGasConstPressureAdiabaticReactor) (t : ℚ)
    (y ydot : Buffer) (hy : r.n_species_.toNat < y.length)
    (hyd : r.n_species_.toNat < ydot.length)
    (homega : ∀ i, i < r.n_species_.toNat →
      m.source_species
        (fun j => if j < r.n_species_.toNat then
          (r.P_ * r.MWtot_ * y.getD (j + 1) 0) / (ChemConfig.Ru * y.getD 0 0 * r.MW_ j)
          else r.C_ j)
        (y.getD 0 0) i = 0)
    (hT : y.getD 0 0 ≠ 0) (hP : r.P_ ≠ 0) (hMWtot : r.MWtot_ ≠ 0)
    (hMW : ∀ i, i < r.n_species_.toNat → r.MW_ i ≠ 0)
    (hD : ∑ i in Finset.range r.n_species_.toNat,
        ((y.getD (i + 1) 0 * r.P_ * r.MWtot_) *
            (m.species_specific_heat_constant_pressure_mass_specific (y.getD 0 0) i *
              r.MW_ i)) /
          (ChemConfig.Ru * y.getD 0 0 * r.MW_ i) ≠ 0)
    (hCsum : ∑ i in Finset.range r.n_species_.toNat,
        (y.getD (i + 1) 0 * r.P_ * r.MWtot_) / (ChemConfig.Ru * y.getD 0 0 * r.MW_ i) ≠ 0) :
    ∃ r1 out, r.evalRHS m t y ydot = .ok (r1, out) ∧
      r1.T_ ≠ 0 ∧ r1.P_ * r1.MWtot_ ≠ 0 ∧
      (∀ i, i < r.n_species_.toNat → ChemConfig.Ru * r1.T_ * r1.MW_ i ≠ 0) ∧
      r1.D_ ≠ 0 ∧
      (∑ k in Finset.range r.n_species_.toNat,
        (r1.Y_ k * r1.P_ * r1.MWtot_) / (ChemConfig.Ru * r1.T_ * r1.MW_ k)) ≠ 0 ∧
      doubleQuotient r1.N_ r1.D_ = some 0 ∧
      out[0]? = some 0 ∧ ∀ i, i < r.n_species_.toNat → out[i + 1]? = some 0 := by
  have hom : ∀ i, i < r.n_species_.toNat → (evalRHS_state m r y).omega_ i = 0 := by
    intro i hi
    rw [evalRHS_state_omega, evalRHS_state_C, evalRHS_state_T]
    exact homega i hi
  have hN : (evalRHS_state m r y).N_ = 0 := by
    rw [evalRHS_state_N]
    refine Finset.sum_eq_zero ?_
    intro i hi
    rw [hom i (Finset.mem_range.mp hi), mul_zero]
  have hsum : (evalRHS_sums (evalRHS_state m r y)).1 = 0 := by
    rw [evalRHS_sums_eq, evalRHS_state_n_species]
    exact Finset.sum_eq_zero (fun i hi => hom i (Finset.mem_range.mp hi))
  have hD1 : (evalRHS_state m r y).D_ ≠ 0 := by
    rw [evalRHS_state_D_input]
    exact hD
  refine ⟨evalRHS_state m r y, evalRHS_ydot m r y ydot, evalRHS_eq m r t y ydot hy hyd,
    ?_, ?_, ?_, hD1, ?_, ?_, ?_, ?_⟩
  · rw [evalRHS_state_T]
    exact hT
  · rw [evalRHS_state_P, evalRHS_state_MWtot]
    exact mul_ne_zero hP hMWtot
  · intro i hi
    rw [evalRHS_state_T, evalRHS_state_MW]
    have hRu : ChemConfig.Ru ≠ 0 := by norm_num [ChemConfig.Ru]
    exact mul_ne_zero (mul_ne_zero hRu hT) (hMW i hi)
  · rw [evalRHS_state_concentration_sum_input]
    exact hCsum
  · rw [hN]
    exact doubleQuotient_zero _ hD1
  · rw [evalRHS_ydot_zero m r y ydot (by omega), hN, zero_div]
  · intro i hi
    rw [evalRHS_ydot_succ m r y ydot i hi hyd, hom i hi, hN, hsum]
    simp

/-- C4, witness: `n = 2`, `MW = [2, 32]`, `T = 1000`, `P = 101325`, `Y = [0.5, 0.5]`,
`cp = [14000, 900]`, `h = [0, 0]`, `omega = [0, 0]`. -/
theorem evalRHS_inert_witness :
    ∃ r1 out, scenarioReactor.evalRHS (scenarioMechanism [0, 0]) 0 [1000, 1 / 2, 1 / 2]
        [0, 0, 0] = .ok (r1, out) ∧
      r1.D_ ≠ 0 ∧ out[0]? = some 0 ∧ ∀ i, i < 2 → out[i + 1]? = some 0 := by
  obtain ⟨r1, out, h, _, _, _, hD, _, _, h0, hS⟩ :=
    evalRHS_inert (scenarioMechanism [0, 0]) scenarioReactor 0 [1000, 1 / 2, 1 / 2]
      [0, 0, 0] (by decide) (by decide)
      (by
        intro i hi
        have hi2 : i < 2 := hi
        interval_cases i <;> simp [scenarioMechanism, Species.ofList])
      (by norm_num [List.getD])
      (by norm_num [scenarioReactor])
      (by norm_num [scenarioReactor])
      (by
        intro i hi
        have hi2 : i < 2 := hi
        interval_cases i <;> simp [scenarioReactor, Species.ofList])
      (by
        simp [scenarioReactor, scenarioMechanism, Species.ofList, Finset.sum_range_succ,
          ChemConfig.Ru]
        norm_num)
      (by
        simp [scenarioReactor, Species.ofList, Finset.sum_range_succ, ChemConfig.Ru]
        norm_num)
  exact ⟨r1, out, h, hD, h0, hS⟩

/-- C5, counterexample: in the scenario with the mass-conserving rates
`omega = [-1, 0.0625]` (and `T = 1000 > 0`), `evalRHS` returns the derivative vector
`[0, -4157/810600, 8314/101325]`, whose species entries do not sum to zero. -/
theorem evalRHS_species_sum_counterexample :
    ∃ r1, scenarioReactor.evalRHS (scenarioMechanism [-1, 1 / 16]) 0 [1000, 1 / 2, 1 / 2]
        [0, 0, 0] = .ok (r1, [0, -4157 / 810600, 8314 / 101325]) ∧
      (-4157 / 810600 : ℚ) + 8314 / 101325 ≠ 0 := by
  refine ⟨evalRHS_state (scenarioMechanism [-1, 1 / 16]) scenarioReactor [1000, 1 / 2, 1 / 2],
    ?_, by norm_num⟩
  rw [evalRHS_eq _ _ _ _ _ (by decide) (by decide)]
  congr 2
  simp [evalRHS_ydot, evalRHS_sums_eq, evalRHS_state_N, evalRHS_state_D,
    evalRHS_state_omega, evalRHS_state_C, evalRHS_state_T, evalRHS_state_P,
    evalRHS_state_Y, evalRHS_state_MW, evalRHS_state_MWtot, evalRHS_state_h_bar,
    evalRHS_state_cp_bar, evalRHS_state_n_species, scenarioMechanism, scenarioReactor,
    Species.ofList, Finset.sum_range_succ, List.range_succ, ChemConfig.Ru]
  norm_num

/-- C5, amended: for every state vector `y` (buffers of length at least `n + 1`) the
species derivatives written by `evalRHS` sum to
`sum_i omega[i]*(MW[i]*Ru*T)/(P*MWtot) - (sum_i Y[i]) * (omega_sum/concentration_sum + (dT/dt)/T)`. -/
theorem evalRHS_species_sum (m : Mechanism) (r : IdealGasConstPressureAdiabaticReactor)
    (t : ℚ) (y ydot : Buffer) (hy : r.n_species_.toNat < y.length)
    (hyd : r.n_species_.toNat < ydot.length) :
    ∃ r1 out dTdt, r.evalRHS m t y ydot = .ok (r1, out) ∧
      r1.T_ = y.getD 0 0 ∧ r1.P_ = r.P_ ∧ r1.MWtot_ = r.MWtot_ ∧ r1.MW_ = r.MW_ ∧
      (∀ i, i < r.n_species_.toNat → r1.Y_ i = y.getD (i + 1) 0) ∧
      r1.omega_ = m.source_species r1.C_ r1.T_ ∧
      out[0]? = some dTdt ∧
      ∑ i in Finset.range r.n_species_.toNat, out.getD (i + 1) 0 =
        (∑ i in Finset.range r.n_species_.toNat,
          r1.omega_ i * (r1.MW_ i * ChemConfig.Ru * r1.T_) / (r1.P_ * r1.MWtot_)) -
        (∑ i in Finset.range r.n_species_.toNat, r1.Y_ i) *
          ((∑ k in Finset.range r.n_species_.toNat, r1.omega_ k) /
              (∑ k in Finset.range r.n_species_.toNat,
                (r1.Y_ k * r1.P_ * r1.MWtot_) / (ChemConfig.Ru * r1.T_ * r1.MW_ k)) +
            dTdt / r1.T_) := by
  refine ⟨evalRHS_state m r y, evalRHS_ydot m r y ydot,
    (evalRHS_state m r y).N_ / (evalRHS_state m r y).D_, evalRHS_eq m r t y ydot hy hyd,
    evalRHS_state_T m r y, evalRHS_state_P m r y, evalRHS_state_MWtot m r y,
    evalRHS_state_MW m r y, ?_, evalRHS_state_omega m r y,
    evalRHS_ydot_zero m r y ydot (by omega), ?_⟩
  · intro i hi
    simp [evalRHS_state_Y, hi]
  · rw [Finset.sum_mul, ← Finset.sum_sub_distrib]
    refine Finset.sum_congr rfl ?_
    intro i hi
    have hi1 := Finset.mem_range.mp hi
    rw [List.getD_eq_getElem?_getD, evalRHS_ydot_succ m r y ydot i hi1 hyd, evalRHS_sums_eq,
      evalRHS_state_n_species]
    rfl

/-- C5, witness of the amended statement: the scenario with `omega = [-1, 0.0625]`. -/
theorem evalRHS_species_sum_witness :
    ∃ r1 out dTdt, scenarioReactor.evalRHS (scenarioMechanism [-1, 1 / 16]) 0
        [1000, 1 / 2, 1 / 2] [0, 0, 0] = .ok (r1, out) ∧
      out[0]? = some dTdt ∧
      ∑ i in Finset.range 2, out.getD (i + 1) 0 =
        (∑ i in Finset.range 2,
          r1.omega_ i * (r1.MW_ i * ChemConfig.Ru * r1.T_) / (r1.P_ * r1.MWtot_)) -
        (∑ i in Finset.range 2, r1.Y_ i) *
          ((∑ k in Finset.range 2, r1.omega_ k) /
              (∑ k in Finset.range 2,
                (r1.Y_ k * r1.P_ * r1.MWtot_) / (ChemConfig.Ru * r1.T_ * r1.MW_ k)) +
            dTdt / r1.T_) := by
  obtain ⟨r1, out, dTdt, h, _, _, _, _, _, _, h0, hS⟩ :=
    evalRHS_species_sum (scenarioMechanism [-1, 1 / 16]) scenarioReactor 0
      [1000, 1 / 2, 1 / 2] [0, 0, 0] (by decide) (by decide)
  exact ⟨r1, out, dTdt, h, h0, hS⟩

end IdealGasConstPressureAdiabaticReactor

/-! ## Failure reporting -/

namespace IdealGasConstPressureAdiabaticReactor

/-- C6, counterexample: called with the temperature entry `y[0] = -1 <= 0`, `evalRHS`
does not return `NonPositiveTemperature`; it stores `T = -1` and returns the numeric
derivative vector `[0, 0, 0]`. -/
theorem evalRHS_nonPositiveTemperature_counterexample :
    scenarioReactor.evalRHS (scenarioMechanism [0, 0]) 0 [-1, 1 / 2, 1 / 2] [0, 0, 0] ≠
        .error Failure.NonPositiveTemperature ∧
    ∃ r1, scenarioReactor.evalRHS (scenarioMechanism [0, 0]) 0 [-1, 1 / 2, 1 / 2]
        [0, 0, 0] = .ok (r1, [0, 0, 0]) ∧ r1.T_ = -1 := by
  have h : scenarioReactor.evalRHS (scenarioMechanism [0, 0]) 0 [-1, 1 / 2, 1 / 2]
      [0, 0, 0] =
      .ok (evalRHS_state (scenarioMechanism [0, 0]) scenarioReactor [-1, 1 / 2, 1 / 2],
        [0, 0, 0]) := by
    rw [evalRHS_eq _ _ _ _ _ (by decide) (by decide)]
    congr 2
    simp [evalRHS_ydot, evalRHS_sums_eq, evalRHS_state_N, evalRHS_state_D,
      evalRHS_state_omega, evalRHS_state_C, evalRHS_state_T, evalRHS_state_P,
      evalRHS_state_Y, evalRHS_state_MW, evalRHS_state_MWtot, evalRHS_state_h_bar,
      evalRHS_state_cp_bar, evalRHS_state_n_species, scenarioMechanism, scenarioReactor,
      Species.ofList, Finset.sum_range_succ, List.range_succ, ChemConfig.Ru]
  refine ⟨?_, _, h, ?_⟩
  · rw [h]
    intro hh
    cases hh
  · rw [evalRHS_state_T]
    rfl

/-- C6, amended: `evalRHS` has no temperature check.  For every state vector whose
temperature entry `y[0]` is `<= 0` (buffers of length at least `n + 1`) it reports no
failure: it stores `T = y[0]` and returns a derivative vector with `ydot[0] = N / D`. -/
theorem evalRHS_nonPositiveTemperature (m : Mechanism)
    (r : IdealGasConstPressureAdiabaticReactor) (t : ℚ) (y ydot : Buffer)
    (hy : r.n_species_.toNat < y.length) (hyd : r.n_species_.toNat < ydot.length)
    (_hT : y.getD 0 0 ≤ 0) :
    ∃ r1 out, r.evalRHS m t y ydot = .ok (r1, out) ∧
      r1.T_ = y.getD 0 0 ∧ out.length = ydot.length ∧ out[0]? = some (r1.N_ / r1.D_) :=
  ⟨evalRHS_state m r y, evalRHS_ydot m r y ydot, evalRHS_eq m r t y ydot hy hyd,
    evalRHS_state_T m r y, evalRHS_ydot_length m r y ydot,
    evalRHS_ydot_zero m r y ydot (by omega)⟩

/-- C6, witness of the amended statement: the scenario with `y[0] = -1`. -/
theorem evalRHS_nonPositiveTemperature_witness :
    ([(-1 : ℚ), 1 / 2, 1 / 2].getD 0 0 ≤ 0) ∧
    ∃ r1 out, scenarioReactor.evalRHS (scenarioMechanism [0, 0]) 0 [-1, 1 / 2, 1 / 2]
        [0, 0, 0] = .ok (r1, out) ∧
      r1.T_ = [(-1 : ℚ), 1 / 2, 1 / 2].getD 0 0 ∧ out.length = [(0 : ℚ), 0, 0].length ∧
      out[0]? = some (r1.N_ / r1.D_) :=
  ⟨by norm_num [List.getD],
    evalRHS_nonPositiveTemperature (scenarioMechanism [0, 0]) scenarioReactor 0
      [-1, 1 / 2, 1 / 2] [0, 0, 0] (by decide) (by decide) (by norm_num [List.getD])⟩

/-- C8, counterexample: construction with the species count `n = 0` does not fail with
`InvalidSpeciesCount`; it returns a reactor with `n_species_ = 0`. -/
theorem construct_invalidSpeciesCount_counterexample :
    construct (scenarioMechanism [0, 0]) scenarioReactor 0 300 101325 ≠
        .error Failure.InvalidSpeciesCount ∧
    ∃ r, construct (scenarioMechanism [0, 0]) scenarioReactor 0 300 101325 = .ok r ∧
      r.n_species_ = 0 := by
  refine ⟨?_, _, construct_unfold _ _ _ _ _, ?_⟩
  · rw [construct_unfold]
    intro hh
    cases hh
  · simp [computeProductionRates, construct_concentrations_eq, construct_massFractions_eq,
      computeThermoProperties_eq]

/-- C8, amended: the constructor has no check of the species count.  Construction
completes for every `n`, also for `n <= 0`, and returns a reactor that stores
`n_species_ = n`, `T_ = temperature` and `P_ = pressure`. -/
theorem construct_succeeds (m : Mechanism) (mem : IdealGasConstPressureAdiabaticReactor)
    (n : Int) (temperature pressure : ℚ) :
    ∃ r, construct m mem n temperature pressure = .ok r ∧
      r.n_species_ = n ∧ r.T_ = temperature ∧ r.P_ = pressure := by
  refine ⟨_, construct_unfold m mem n temperature pressure, ?_, ?_, ?_⟩ <;>
    simp [computeProductionRates, construct_concentrations_eq, construct_massFractions_eq,
      computeThermoProperties_eq]

end IdealGasConstPressureAdiabaticReactor

/-! ## Buffer lengths -/

namespace IdealGasConstPressureAdiabaticReactor

/-- C9 (the code breaks it): with a caller-owned buffer of exactly length `setNEQ()`,
`setInitialState` writes out of range: it writes the indices `0..n_species_` and
`setNEQ()` is `n_species_`. -/
theorem setInitialState_outOfRange_of_length_setNEQ
    (r : IdealGasConstPressureAdiabaticReactor) (y : Buffer)
    (hlen : (y.length : Int) = r.setNEQ) :
    r.setInitialState y = .error Failure.OutOfRange := by
  refine setInitialState_outOfRange r y ?_
  simp only [setNEQ] at hlen
  omega

/-- C9, witness: the scenario reactor (`n_species_ = 2`) and a buffer of length 2. -/
theorem setInitialState_outOfRange_of_length_setNEQ_witness :
    (([(0 : ℚ), 0] : Buffer).length : Int) = scenarioReactor.setNEQ ∧
    scenarioReactor.setInitialState [0, 0] = .error Failure.OutOfRange :=
  ⟨by decide, setInitialState_outOfRange_of_length_setNEQ scenarioReactor [0, 0] (by decide)⟩

/-- C10 (the code breaks it): with buffers `y` and `ydot` of exactly length `setNEQ()`,
`evalRHS` accesses a buffer out of range: it reads `y[0..n_species_]` and writes
`ydot[0..n_species_]`, and `setNEQ()` is `n_species_`. -/
theorem evalRHS_outOfRange_of_length_setNEQ (m : Mechanism)
    (r : IdealGasConstPressureAdiabaticReactor) (t : ℚ) (y ydot : Buffer)
    (hlen : (y.length : Int) = r.setNEQ) (_hlen1 : (ydot.length : Int) = r.setNEQ) :
    r.evalRHS m t y ydot = .error Failure.OutOfRange := by
  refine evalRHS_outOfRange_y m r t y ydot ?_
  simp only [setNEQ] at hlen
  omega

/-- C10, witness: the scenario reactor (`n_species_ = 2`) and buffers of length 2. -/
theorem evalRHS_outOfRange_of_length_setNEQ_witness :
    ((([(1000 : ℚ), 1 / 2] : Buffer).length : Int) = scenarioReactor.setNEQ ∧
      (([(0 : ℚ), 0] : Buffer).length : Int) = scenarioReactor.setNEQ) ∧
    scenarioReactor.evalRHS (scenarioMechanism [0, 0]) 0 [1000, 1 / 2] [0, 0] =
      .error Failure.OutOfRange :=
  ⟨⟨by decide, by decide⟩,
    evalRHS_outOfRange_of_length_setNEQ (scenarioMechanism [0, 0]) scenarioReactor 0
      [1000, 1 / 2] [0, 0] (by decide) (by decide)⟩

end IdealGasConstPressureAdiabaticReactor

/-! ## Equation count and state absorption -/

namespace IdealGasConstPressureAdiabaticReactor

/-- C11 (the code breaks it): for every reactor constructed with `n` species, `setNEQ()`
of the documented implementation returns `n`, not `n + 1`; the undocumented sibling
returns `n + 1`. -/
theorem construct_setNEQ (m : Mechanism) (mem : IdealGasConstPressureAdiabaticReactor)
    (n : Int) (temperature pressure : ℚ) :
    ∃ r, construct m mem n temperature pressure = .ok r ∧
      r.setNEQ = n ∧ r.setNEQ ≠ n + 1 ∧
      IdealGasConstPressureAdiabaticReactor_withoutdoc.setNEQ r = n + 1 := by
  have hn : (computeProductionRates m (construct_concentrations
        { construct_massFractions (computeThermoProperties m
            { mem with
              n_species_ := n, T_ := temperature, P_ := pressure
              MW_ := m.molecular_weights, N_ := 0, D_ := 0 }) with
          MWtot_ := 1 / construct_temp (construct_massFractions (computeThermoProperties m
            { mem with
              n_species_ := n, T_ := temperature, P_ := pressure
              MW_ := m.molecular_weights, N_ := 0, D_ := 0 })) })).n_species_ = n := by
    simp [computeProductionRates, construct_concentrations_eq, construct_massFractions_eq,
      computeThermoProperties_eq]
  refine ⟨_, construct_unfold m mem n temperature pressure, ?_, ?_, ?_⟩
  · simp only [setNEQ, hn]
  · simp only [setNEQ, hn]
    omega
  · simp only [IdealGasConstPressureAdiabaticReactor_withoutdoc.setNEQ, hn]

/-- C12: for every reactor state, vector `y` (of length at least `n + 1`) and temperature
value, `setState(y, temperature)` returns and sets `T` to `temperature`, `Y[i] = y[i+1]`
for every `i < n`, and `C[i] = P*MWtot*Y[i]/(Ru*T*MW[i])` with the new `T` and `Y` and the
`MWtot` stored before the call; `MWtot` (and `P`, `MW`, `n`) are left unchanged. -/
theorem setState_spec (r : IdealGasConstPressureAdiabaticReactor) (y : Buffer)
    (temperature : ℚ) (hy : r.n_species_.toNat < y.length) :
    ∃ r1, r.setState y temperature = .ok r1 ∧
      r1.T_ = temperature ∧
      (∀ i, i < r.n_species_.toNat → r1.Y_ i = y.getD (i + 1) 0) ∧
      (∀ i, i < r.n_species_.toNat →
        r1.C_ i = (r.P_ * r.MWtot_ * r1.Y_ i) / (ChemConfig.Ru * r1.T_ * r.MW_ i)) ∧
      r1.MWtot_ = r.MWtot_ ∧ r1.P_ = r.P_ ∧ r1.MW_ = r.MW_ ∧
      r1.n_species_ = r.n_species_ := by
  refine ⟨_, setState_eq r y temperature hy, rfl, ?_, ?_, rfl, rfl, rfl, rfl⟩
  · intro i hi
    simp only [hi, if_true]
  · intro i hi
    simp only [hi, if_true]

/-- C12, witness: the scenario reactor absorbing `y = [900, 1/4, 3/4]` at `T = 900`. -/
theorem setState_spec_witness :
    ∃ r1, scenarioReactor.setState [900, 1 / 4, 3 / 4] 900 = .ok r1 ∧
      r1.T_ = 900 ∧
      (∀ i, i < 2 → r1.Y_ i = ([900, 1 / 4, 3 / 4] : Buffer).getD (i + 1) 0) ∧
      (∀ i, i < 2 →
        r1.C_ i = (scenarioReactor.P_ * scenarioReactor.MWtot_ * r1.Y_ i) /
          (ChemConfig.Ru * r1.T_ * scenarioReactor.MW_ i)) ∧
      r1.MWtot_ = scenarioReactor.MWtot_ := by
  obtain ⟨r1, h, hT, hY, hC, hM, _, _, _⟩ :=
    setState_spec scenarioReactor [900, 1 / 4, 3 / 4] 900 (by decide)
  exact ⟨r1, h, hT, hY, hC, hM⟩

/-- C13, counterexample: the scenario reactor stores `MWtot = 64/17`, the mixture
molecular weight of `Y = [1/2, 1/2]`; after `setState` and after `evalRHS` with the new
composition `Y = [1, 0]` the stored `MWtot` is still `64/17`, while
`1 / sum_{i<n}(Y[i]/MW[i]) = 2`. -/
theorem MWtot_recomputed_counterexample :
    (1 / ∑ i in Finset.range 2, scenarioReactor.Y_ i / scenarioReactor.MW_ i =
      scenarioReactor.MWtot_) ∧
    (∃ r1, scenarioReactor.setState [1000, 1, 0] 1000 = .ok r1 ∧
      r1.MWtot_ = 64 / 17 ∧ 1 / ∑ i in Finset.range 2, r1.Y_ i / r1.MW_ i = 2) ∧
    (∃ r1 out, scenarioReactor.evalRHS (scenarioMechanism [0, 0]) 0 [1000, 1, 0]
        [0, 0, 0] = .ok (r1, out) ∧
      r1.MWtot_ = 64 / 17 ∧ 1 / ∑ i in Finset.range 2, r1.Y_ i / r1.MW_ i = 2) := by
  refine ⟨?_, ⟨_, setState_eq scenarioReactor [1000, 1, 0] 1000 (by decide), ?_, ?_⟩,
    ⟨_, _, evalRHS_eq (scenarioMechanism [0, 0]) scenarioReactor 0 [1000, 1, 0] [0, 0, 0]
      (by decide) (by decide), ?_, ?_⟩⟩
  · simp [scenarioReactor, Species.ofList, Finset.sum_range_succ]
    norm_num
  · simp [scenarioReactor]
  · simp [scenarioReactor, Species.ofList, Finset.sum_range_succ]
  · simp [evalRHS_state_MWtot, scenarioReactor]
  · simp [evalRHS_state_Y, evalRHS_state_MW, scenarioReactor, Species.ofList,
      Finset.sum_range_succ]

/-- C13, amended: the mixture molecular weight is not recomputed when the composition
changes.  For every state vector `y` (buffers of length at least `n + 1`), `setState` and
`evalRHS` return a state whose `MWtot` is the value stored before the call. -/
theorem MWtot_unchanged (m : Mechanism) (r : IdealGasConstPressureAdiabaticReactor)
    (t temperature : ℚ) (y ydot : Buffer) (hy : r.n_species_.toNat < y.length)
    (hyd : r.n_species_.toNat < ydot.length) :
    (∃ r1, r.setState y temperature = .ok r1 ∧ r1.MWtot_ = r.MWtot_) ∧
    (∃ r1 out, r.evalRHS m t y ydot = .ok (r1, out) ∧ r1.MWtot_ = r.MWtot_) :=
  ⟨⟨_, setState_eq r y temperature hy, rfl⟩,
    ⟨_, _, evalRHS_eq m r t y ydot hy hyd, evalRHS_state_MWtot m r y⟩⟩

/-- C13, witness of the amended statement: the scenario reactor and `y = [1000, 1, 0]`. -/
theorem MWtot_unchanged_witness :
    (∃ r1, scenarioReactor.setState [1000, 1, 0] 1000 = .ok r1 ∧
      r1.MWtot_ = scenarioReactor.MWtot_) ∧
    (∃ r1 out, scenarioReactor.evalRHS (scenarioMechanism [0, 0]) 0 [1000, 1, 0]
        [0, 0, 0] = .ok (r1, out) ∧ r1.MWtot_ = scenarioReactor.MWtot_) :=
  MWtot_unchanged (scenarioMechanism [0, 0]) scenarioReactor 0 1000 [1000, 1, 0] [0, 0, 0]
    (by decide) (by decide)

end IdealGasConstPressureAdiabaticReactor

/-! ## Frame properties -/

/-- A call whose buffers fit succeeds and leaves `P_`, `n_species_` and `MW_` as they
are. -/
theorem Call.apply_frame (m : Mechanism) (r : IdealGasConstPressureAdiabaticReactor)
    (c : Call) (hc : c.fits r.n_species_.toNat = true) :
    ∃ r1, c.apply m r = .ok r1 ∧
      r1.P_ = r.P_ ∧ r1.n_species_ = r.n_species_ ∧ r1.MW_ = r.MW_ := by
  cases c with
  | getProperties =>
    refine ⟨_, rfl, ?_, ?_, ?_⟩ <;>
      simp [IdealGasConstPressureAdiabaticReactor.getProperties,
        IdealGasConstPressureAdiabaticReactor.computeProductionRates,
        IdealGasConstPressureAdiabaticReactor.computeThermoProperties_eq]
  | getdTtNumerator => exact ⟨_, rfl, rfl, rfl, rfl⟩
  | getdTtDenominator => exact ⟨_, rfl, rfl, rfl, rfl⟩
  | setNEQ => exact ⟨_, rfl, rfl, rfl, rfl⟩
  | setInitialState y =>
    have hy : r.n_species_.toNat < y.length := by simpa [Call.fits] using hc
    refine ⟨r, ?_, rfl, rfl, rfl⟩
    simp only [Call.apply,
      IdealGasConstPressureAdiabaticReactor.setInitialState_eq r y hy]
  | setState y temperature =>
    have hy : r.n_species_.toNat < y.length := by simpa [Call.fits] using hc
    exact ⟨_, IdealGasConstPressureAdiabaticReactor.setState_eq r y temperature hy,
      rfl, rfl, rfl⟩
  | evalRHS t y ydot =>
    have hy : r.n_species_.toNat < y.length ∧ r.n_species_.toNat < ydot.length := by
      simpa [Call.fits] using hc
    refine ⟨IdealGasConstPressureAdiabaticReactor.evalRHS_state m r y, ?_,
      IdealGasConstPressureAdiabaticReactor.evalRHS_state_P m r y,
      IdealGasConstPressureAdiabaticReactor.evalRHS_state_n_species m r y,
      IdealGasConstPressureAdiabaticReactor.evalRHS_state_MW m r y⟩
    simp only [Call.apply,
      IdealGasConstPressureAdiabaticReactor.evalRHS_eq m r t y ydot hy.1 hy.2]
  | getTemperature => exact ⟨_, rfl, rfl, rfl, rfl⟩
  | getNumberofSpecies => exact ⟨_, rfl, rfl, rfl, rfl⟩
  | getPressure => exact ⟨_, rfl, rfl, rfl, rfl⟩

namespace IdealGasConstPressureAdiabaticReactor

/-- C14: pressure and equation count are fixed for the object's lifetime.  For every
reactor state (in particular the one the constructor returns) and every sequence of
`setState`, `setInitialState`, `getProperties`, `evalRHS` and accessor calls whose buffers
hold at least `n + 1` entries, the sequence runs to completion and afterwards
`getPressure()` and `setNEQ()` return the same values as before it; `P_`, `n_species_`
and `MW_` are not modified. -/
theorem runCalls_frame (m : Mechanism) (calls : List Call) :
    ∀ (r : IdealGasConstPressureAdiabaticReactor),
      (∀ c, c ∈ calls → c.fits r.n_species_.toNat = true) →
      ∃ r1, runCalls m r calls = .ok r1 ∧
        r1.getPressure = r.getPressure ∧ r1.setNEQ = r.setNEQ ∧
        r1.P_ = r.P_ ∧ r1.n_species_ = r.n_species_ ∧ r1.MW_ = r.MW_ := by
  induction calls with
  | nil =>
    intro r _
    exact ⟨r, rfl, rfl, rfl, rfl, rfl, rfl⟩
  | cons c cs ih =>
    intro r hfit
    obtain ⟨r1, h1, hP, hn, hMW⟩ :=
      Call.apply_frame m r c (hfit c (List.mem_cons_self c cs))
    obtain ⟨r2, h2, _, _, hP2, hn2, hMW2⟩ := ih r1 (by
      intro c1 hc1
      rw [hn]
      exact hfit c1 (List.mem_cons_of_mem c hc1))
    refine ⟨r2, ?_, ?_, ?_, hP2.trans hP, hn2.trans hn, hMW2.trans hMW⟩
    · simp only [runCalls, h1, h2]
    · simp only [getPressure, hP2, hP]
    · simp only [setNEQ, hn2, hn]

/-- C14, witness: a sequence of four calls on the scenario reactor. -/
theorem runCalls_frame_witness :
    ∃ r1, runCalls (scenarioMechanism [-1, 1 / 16]) scenarioReactor
        [Call.setState [900, 1 / 4, 3 / 4] 900, Call.setInitialState [0, 0, 0],
          Call.getProperties, Call.evalRHS 0 [1200, 1 / 3, 2 / 3] [0, 0, 0]] = .ok r1 ∧
      r1.getPressure = scenarioReactor.getPressure ∧ r1.setNEQ = scenarioReactor.setNEQ ∧
      r1.P_ = scenarioReactor.P_ ∧ r1.n_species_ = scenarioReactor.n_species_ ∧
      r1.MW_ = scenarioReactor.MW_ :=
  runCalls_frame (scenarioMechanism [-1, 1 / 16])
    [Call.setState [900, 1 / 4, 3 / 4] 900, Call.setInitialState [0, 0, 0],
      Call.getProperties, Call.evalRHS 0 [1200, 1 / 3, 2 / 3] [0, 0, 0]] scenarioReactor
    (by
      intro c hc
      simp only [List.mem_cons, List.mem_singleton, List.not_mem_nil, or_false] at hc
      rcases hc with rfl | rfl | rfl | rfl <;> decide)

/-- C15: the system is autonomous.  For every reactor state, every state vector `y` and
every two times `t1`, `t2`, `evalRHS(t1, y, .)` and `evalRHS(t2, y, .)` have the same
outcome: the same derivative vector and the same reactor state (or the same failure). -/
theorem evalRHS_autonomous (m : Mechanism) (r : IdealGasConstPressureAdiabaticReactor)
    (t1 t2 : ℚ) (y ydot : Buffer) :
    r.evalRHS m t1 y ydot = r.evalRHS m t2 y ydot := rfl

/-- C16, counterexample: the reactor holds the valid state `T = 1000`, `Y = [1/2, 1/2]`
left by a first evaluation; a second evaluation with the invalid temperature `y[0] = -1`
returns with the stored state overwritten: `T = -1`, `Y = [1/4, 3/4]` and new `C`. -/
theorem evalRHS_failure_atomicity_counterexample :
    ∃ r0 out0 r1 out1,
      scenarioReactor.evalRHS (scenarioMechanism [0, 0]) 0 [1000, 1 / 2, 1 / 2] [0, 0, 0] =
        .ok (r0, out0) ∧
      r0.evalRHS (scenarioMechanism [0, 0]) 0 [-1, 1 / 4, 3 / 4] [0, 0, 0] =
        .ok (r1, out1) ∧
      r0.T_ = 1000 ∧ r1.T_ = -1 ∧ r0.Y_ 0 = 1 / 2 ∧ r1.Y_ 0 = 1 / 4 ∧
      r0.C_ 0 = 810600 / 70669 ∧ r1.C_ 0 = -405300000 / 70669 := by
  refine ⟨_, _, _, _,
    evalRHS_eq (scenarioMechanism [0, 0]) scenarioReactor 0 [1000, 1 / 2, 1 / 2] [0, 0, 0]
      (by decide) (by decide),
    evalRHS_eq (scenarioMechanism [0, 0]) _ 0 [-1, 1 / 4, 3 / 4] [0, 0, 0]
      (by rw [evalRHS_state_n_species]; decide) (by rw [evalRHS_state_n_species]; decide),
    ?_, ?_, ?_, ?_, ?_, ?_⟩
  · simp [evalRHS_state_T]
  · simp [evalRHS_state_T]
  · simp [evalRHS_state_Y, scenarioReactor]
  · simp [evalRHS_state_Y, evalRHS_state_n_species, scenarioReactor]
  · simp [evalRHS_state_C, scenarioReactor, Species.ofList, ChemConfig.Ru]
    norm_num
  · simp [evalRHS_state_C, evalRHS_state_n_species, evalRHS_state_P, evalRHS_state_MWtot,
      evalRHS_state_MW, scenarioReactor, Species.ofList, ChemConfig.Ru]
    norm_num

/-- C16, amended: `evalRHS` overwrites the stored state in place before anything else.
For every state vector `y` (buffers of length at least `n + 1`), valid or not, the state
after the call has `T = y[0]`, `Y[i] = y[i+1]` and
`C[i] = P*MWtot*Y[i]/(Ru*T*MW[i])` for every `i < n`; the previous `T`, `Y`, `C` are not
kept. -/
theorem evalRHS_overwrites_state (m : Mechanism)
    (r : IdealGasConstPressureAdiabaticReactor) (t : ℚ) (y ydot : Buffer)
    (hy : r.n_species_.toNat < y.length) (hyd : r.n_species_.toNat < ydot.length) :
    ∃ r1 out, r.evalRHS m t y ydot = .ok (r1, out) ∧
      r1.T_ = y.getD 0 0 ∧
      (∀ i, i < r.n_species_.toNat → r1.Y_ i = y.getD (i + 1) 0) ∧
      (∀ i, i < r.n_species_.toNat →
        r1.C_ i = (r.P_ * r.MWtot_ * y.getD (i + 1) 0) /
          (ChemConfig.Ru * y.getD 0 0 * r.MW_ i)) := by
  refine ⟨evalRHS_state m r y, evalRHS_ydot m r y ydot, evalRHS_eq m r t y ydot hy hyd,
    evalRHS_state_T m r y, ?_, ?_⟩
  · intro i hi
    rw [evalRHS_state_Y]
    simp only [hi, if_true]
  · intro i hi
    rw [evalRHS_state_C]
    simp only [hi, if_true]

/-- C16, witness of the amended statement: the scenario reactor and
`y = [-1, 1/4, 3/4]`. -/
theorem evalRHS_overwrites_state_witness :
    ∃ r1 out, scenarioReactor.evalRHS (scenarioMechanism [0, 0]) 0 [-1, 1 / 4, 3 / 4]
        [0, 0, 0] = .ok (r1, out) ∧
      r1.T_ = ([-1, 1 / 4, 3 / 4] : Buffer).getD 0 0 ∧
      (∀ i, i < 2 → r1.Y_ i = ([-1, 1 / 4, 3 / 4] : Buffer).getD (i + 1) 0) ∧
      (∀ i, i < 2 →
        r1.C_ i = (scenarioReactor.P_ * scenarioReactor.MWtot_ *
            ([-1, 1 / 4, 3 / 4] : Buffer).getD (i + 1) 0) /
          (ChemConfig.Ru * ([-1, 1 / 4, 3 / 4] : Buffer).getD 0 0 *
            scenarioReactor.MW_ i)) :=
  evalRHS_overwrites_state (scenarioMechanism [0, 0]) scenarioReactor 0 [-1, 1 / 4, 3 / 4]
    [0, 0, 0] (by decide) (by decide)

/-- C17: for every reactor state and every buffer of length at least `n + 1`,
`setInitialState` returns and writes the layout `[T, Y_1..Y_n]`: `y[0] = T` and
`y[i] = Y[i-1]` for every `1 <= i <= n` (entries after `n` keep their content), and the
reactor object is the same after the call. -/
theorem setInitialState_layout (m : Mechanism) (r : IdealGasConstPressureAdiabaticReactor)
    (y : Buffer) (hy : r.n_species_.toNat < y.length) :
    ∃ out, r.setInitialState y = .ok out ∧
      out.length = y.length ∧
      out[0]? = some r.T_ ∧
      (∀ i, 1 ≤ i → i ≤ r.n_species_.toNat → out[i]? = some (r.Y_ (i - 1))) ∧
      (∀ i, r.n_species_.toNat < i → out[i]? = y[i]?) ∧
      Call.apply m r (Call.setInitialState y) = .ok r := by
  refine ⟨_, setInitialState_eq r y hy, by simp, ?_, ?_, ?_, ?_⟩
  · rw [Buffer.getElem?_map_range _ _ 0 (by omega)]
    simp
  · intro i h1 hi
    rw [Buffer.getElem?_map_range _ _ i (by omega)]
    have h0 : i ≠ 0 := by omega
    simp [hi, h0]
  · intro i hi
    by_cases h : i < y.length
    · rw [Buffer.getElem?_map_range _ _ i h]
      have h1 : ¬ i ≤ r.n_species_.toNat := by omega
      simp [h1, List.getD, List.getElem?_eq_getElem h]
    · have h1 : y.length ≤ i := by omega
      rw [List.getElem?_eq_none h1, List.getElem?_eq_none (by simpa using h1)]
  · simp only [Call.apply, setInitialState_eq r y hy]

/-- C17, witness: the scenario reactor and a buffer of length 3. -/
theorem setInitialState_layout_witness :
    ∃ out, scenarioReactor.setInitialState [7, 7, 7] = .ok out ∧
      out.length = ([7, 7, 7] : Buffer).length ∧
      out[0]? = some scenarioReactor.T_ ∧
      (∀ i, 1 ≤ i → i ≤ 2 → out[i]? = some (scenarioReactor.Y_ (i - 1))) ∧
      (∀ i, 2 < i → out[i]? = ([7, 7, 7] : Buffer)[i]?) ∧
      Call.apply (scenarioMechanism [0, 0]) scenarioReactor (Call.setInitialState [7, 7, 7]) =
        .ok scenarioReactor :=
  setInitialState_layout (scenarioMechanism [0, 0]) scenarioReactor [7, 7, 7] (by decide)

end IdealGasConstPressureAdiabaticReactor

/-! ## Further closed forms -/

/-- Below `k` a filled array does not show what it held before. -/
theorem ite_fill_congr (b b1 : Species) (k : Nat) (h : ∀ j, k ≤ j → b j = b1 j)
    (j : Nat) (a : ℚ) :
    (if j < k then a else b j) = (if j < k then a else b1 j) := by
  by_cases hj : j < k
  · simp only [hj, if_true]
  · simp only [hj, if_false]
    exact h j (by omega)

namespace IdealGasConstPressureAdiabaticReactor

/-- Two states that agree on everything `evalRHS` does not overwrite are left by it in
the same state. -/
theorem evalRHS_state_congr (m : Mechanism) (r r1 : IdealGasConstPressureAdiabaticReactor)
    (y : Buffer) (hn : r.n_species_ = r1.n_species_) (hP : r.P_ = r1.P_)
    (hMW : r.MW_ = r1.MW_) (hMWtot : r.MWtot_ = r1.MWtot_)
    (hCtot : r.Ctot_ = r1.Ctot_) (hX : r.X_ = r1.X_) (hY0 : r.Y0_ = r1.Y0_)
    (hY : ∀ j, r.n_species_.toNat ≤ j → r.Y_ j = r1.Y_ j)
    (hC : ∀ j, r.n_species_.toNat ≤ j → r.C_ j = r1.C_ j)
    (hcp : ∀ j, r.n_species_.toNat ≤ j → r.cp_bar_ j = r1.cp_bar_ j)
    (hh : ∀ j, r.n_species_.toNat ≤ j → r.h_bar_ j = r1.h_bar_ j) :
    evalRHS_state m r y = evalRHS_state m r1 y := by
  rw [hn] at hY hC hcp hh
  simp only [evalRHS_state, evalRHS_energy_eq, absorbed, getProperties,
    computeProductionRates, computeThermoProperties_eq]
  simp only [hn, hP, hMW, hMWtot, hCtot, hX, hY0]
  simp only [ite_fill_congr r.Y_ r1.Y_ _ hY, ite_fill_congr r.C_ r1.C_ _ hC,
    ite_fill_congr r.cp_bar_ r1.cp_bar_ _ hcp, ite_fill_congr r.h_bar_ r1.h_bar_ _ hh]

/-- Two states that agree on everything `evalRHS` does not overwrite make it write the
same derivative buffer. -/
theorem evalRHS_ydot_congr (m : Mechanism) (r r1 : IdealGasConstPressureAdiabaticReactor)
    (y ydot : Buffer) (hn : r.n_species_ = r1.n_species_)
    (hs : evalRHS_state m r y = evalRHS_state m r1 y) :
    evalRHS_ydot m r y ydot = evalRHS_ydot m r1 y ydot := by
  simp only [evalRHS_ydot, hn, hs]

theorem evalRHS_state_Ctot (m : Mechanism) (r : IdealGasConstPressureAdiabaticReactor)
    (y : Buffer) : (evalRHS_state m r y).Ctot_ = r.Ctot_ := by
  simp [evalRHS_state, evalRHS_energy_eq, getProperties, computeProductionRates,
    computeThermoProperties_eq, absorbed]

theorem evalRHS_state_X (m : Mechanism) (r : IdealGasConstPressureAdiabaticReactor)
    (y : Buffer) : (evalRHS_state m r y).X_ = r.X_ := by
  simp [evalRHS_state, evalRHS_energy_eq, getProperties, computeProductionRates,
    computeThermoProperties_eq, absorbed]

theorem evalRHS_state_Y0 (m : Mechanism) (r : IdealGasConstPressureAdiabaticReactor)
    (y : Buffer) : (evalRHS_state m r y).Y0_ = r.Y0_ := by
  simp [evalRHS_state, evalRHS_energy_eq, getProperties, computeProductionRates,
    computeThermoProperties_eq, absorbed]

end IdealGasConstPressureAdiabaticReactor

namespace IdealGasConstPressureAdiabaticReactor

/-- The constructor returns a reactor that stores its three arguments. -/
theorem construct_succeeds_aux (m : Mechanism) (mem : IdealGasConstPressureAdiabaticReactor)
    (n : Int) (temperature pressure : ℚ) :
    ∃ r, construct m mem n temperature pressure = .ok r ∧
      r.n_species_ = n ∧ r.T_ = temperature ∧ r.P_ = pressure := by
  refine ⟨_, construct_unfold m mem n temperature pressure, ?_, ?_, ?_⟩ <;>
    simp [computeProductionRates, construct_concentrations_eq, construct_massFractions_eq,
      computeThermoProperties_eq]

end IdealGasConstPressureAdiabaticReactor

/-! ## Derived caches -/

namespace IdealGasConstPressureAdiabaticReactor

/-- C18: the thermo refresh is a pure function of `T` and `MW`.  After
`computeThermoProperties`, `cp` and `h` are the provider's arrays at `T`, and
`cp_bar[i] = cp(T)[i]*MW[i]`, `h_bar[i] = h(T)[i]*MW[i]` for every `i < n`, whatever
`cp`, `h`, `cp_bar`, `h_bar` held before; calling it twice in a row gives the same state
as calling it once. -/
theorem computeThermoProperties_pure (m : Mechanism)
    (r : IdealGasConstPressureAdiabaticReactor) :
    (r.computeThermoProperties m).cp_ =
        m.species_specific_heat_constant_pressure_mass_specific r.T_ ∧
      (r.computeThermoProperties m).h_ = m.species_enthalpy_mass_specific r.T_ ∧
      (∀ i, i < r.n_species_.toNat →
        (r.computeThermoProperties m).cp_bar_ i =
            m.species_specific_heat_constant_pressure_mass_specific r.T_ i * r.MW_ i ∧
          (r.computeThermoProperties m).h_bar_ i =
            m.species_enthalpy_mass_specific r.T_ i * r.MW_ i) ∧
      (r.computeThermoProperties m).computeThermoProperties m =
        r.computeThermoProperties m := by
  refine ⟨?_, ?_, ?_, ?_⟩
  · rw [computeThermoProperties_eq]
  · rw [computeThermoProperties_eq]
  · intro i hi
    rw [computeThermoProperties_eq]
    simp only [hi, if_true, and_self]
  · rw [computeThermoProperties_eq (r := r)]
    rw [computeThermoProperties_eq]
    simp
    constructor <;> funext j <;> split <;> simp [*]

end IdealGasConstPressureAdiabaticReactor

/-! ## Accessors -/


namespace IdealGasConstPressureAdiabaticReactor

/-- C19: accessors reflect the most recently absorbed state.  For a reactor constructed
with `n` species at pressure `P0` and every state vector `y` (buffers of length at least
`n + 1`), after `evalRHS(t, y, .)` `getTemperature()` returns `y[0]`, `getPressure()`
returns `P0` and `getNumberofSpecies()` returns `n`; an accessor call leaves the object
as it is. -/
theorem accessors_after_evalRHS (m : Mechanism) (mem : IdealGasConstPressureAdiabaticReactor)
    (n : Int) (T0 P0 t : ℚ) (y ydot : Buffer) (hy : n.toNat < y.length)
    (hyd : n.toNat < ydot.length) :
    ∃ r r1 out, construct m mem n T0 P0 = .ok r ∧ r.evalRHS m t y ydot = .ok (r1, out) ∧
      r1.getTemperature = y.getD 0 0 ∧ r1.getPressure = P0 ∧
      r1.getNumberofSpecies = (n : ℚ) ∧
      Call.apply m r1 Call.getTemperature = .ok r1 ∧
      Call.apply m r1 Call.getPressure = .ok r1 ∧
      Call.apply m r1 Call.getNumberofSpecies = .ok r1 := by
  obtain ⟨r, hr, hrn, _, hrP⟩ := construct_succeeds_aux m mem n T0 P0
  refine ⟨r, evalRHS_state m r y, evalRHS_ydot m r y ydot, hr,
    evalRHS_eq m r t y ydot (by rw [hrn]; exact hy) (by rw [hrn]; exact hyd),
    ?_, ?_, ?_, rfl, rfl, rfl⟩
  · simp only [getTemperature, evalRHS_state_T]
  · simp only [getPressure, evalRHS_state_P, hrP]
  · simp only [getNumberofSpecies, evalRHS_state_n_species, hrn]

/-- C19, witness: construction with `n = 2`, `T0 = 300`, `P0 = 101325`, then an
evaluation at `y = [1000, 1/2, 1/2]`. -/
theorem accessors_after_evalRHS_witness :
    ∃ r r1 out, construct (scenarioMechanism [0, 0]) scenarioReactor 2 300 101325 = .ok r ∧
      r.evalRHS (scenarioMechanism [0, 0]) 0 [1000, 1 / 2, 1 / 2] [0, 0, 0] = .ok (r1, out) ∧
      r1.getTemperature = ([1000, 1 / 2, 1 / 2] : Buffer).getD 0 0 ∧
      r1.getPressure = 101325 ∧ r1.getNumberofSpecies = ((2 : Int) : ℚ) ∧
      Call.apply (scenarioMechanism [0, 0]) r1 Call.getTemperature = .ok r1 ∧
      Call.apply (scenarioMechanism [0, 0]) r1 Call.getPressure = .ok r1 ∧
      Call.apply (scenarioMechanism [0, 0]) r1 Call.getNumberofSpecies = .ok r1 :=
  accessors_after_evalRHS (scenarioMechanism [0, 0]) scenarioReactor 2 300 101325 0
    [1000, 1 / 2, 1 / 2] [0, 0, 0] (by decide) (by decide)

end IdealGasConstPressureAdiabaticReactor

/-! ## No stale state -/

namespace IdealGasConstPressureAdiabaticReactor

/-- C20, counterexample: two pairs of reactor states that agree on `n`, `P`, `MW` and
`MWtot`.  The first pair differs in `Ctot_` only, and `evalRHS` ends in different reactor
states.  The second pair differs only in `C_[2]`, an entry past `n = 2` that `setState`
does not overwrite, and with a kinetics that reads it `evalRHS` writes different
derivative vectors. -/
theorem evalRHS_no_stale_state_counterexample :
    (scenarioReactor.n_species_ = scenarioReactorCtot.n_species_ ∧
      scenarioReactor.P_ = scenarioReactorCtot.P_ ∧
      scenarioReactor.MW_ = scenarioReactorCtot.MW_ ∧
      scenarioReactor.MWtot_ = scenarioReactorCtot.MWtot_ ∧
      ∃ s out s1 out1,
        scenarioReactor.evalRHS (scenarioMechanism [0, 0]) 0 [1000, 1 / 2, 1 / 2]
          [0, 0, 0] = .ok (s, out) ∧
        scenarioReactorCtot.evalRHS (scenarioMechanism [0, 0]) 0 [1000, 1 / 2, 1 / 2]
          [0, 0, 0] = .ok (s1, out1) ∧
        s ≠ s1) ∧
    (scenarioReactor.n_species_ = scenarioReactorThird.n_species_ ∧
      scenarioReactor.P_ = scenarioReactorThird.P_ ∧
      scenarioReactor.MW_ = scenarioReactorThird.MW_ ∧
      scenarioReactor.MWtot_ = scenarioReactorThird.MWtot_ ∧
      ∃ s s1,
        scenarioReactor.evalRHS thirdSpeciesMechanism 0 [1000, 1 / 2, 1 / 2] [0, 0, 0] =
          .ok (s, [0, 0, 0]) ∧
        scenarioReactorThird.evalRHS thirdSpeciesMechanism 0 [1000, 1 / 2, 1 / 2]
          [0, 0, 0] = .ok (s1, [0, 4157 / 1621200, -4157 / 101325])) := by
  refine ⟨⟨rfl, rfl, rfl, rfl, _, _, _, _,
      evalRHS_eq (scenarioMechanism [0, 0]) scenarioReactor 0 [1000, 1 / 2, 1 / 2] [0, 0, 0]
        (by decide) (by decide),
      evalRHS_eq (scenarioMechanism [0, 0]) scenarioReactorCtot 0 [1000, 1 / 2, 1 / 2]
        [0, 0, 0] (by decide) (by decide), ?_⟩,
    ⟨rfl, rfl, rfl, rfl,
      evalRHS_state thirdSpeciesMechanism scenarioReactor [1000, 1 / 2, 1 / 2],
      evalRHS_state thirdSpeciesMechanism scenarioReactorThird [1000, 1 / 2, 1 / 2],
      ?_, ?_⟩⟩
  · intro h
    have h1 := congrArg IdealGasConstPressureAdiabaticReactor.Ctot_ h
    simp [evalRHS_state_Ctot, scenarioReactor, scenarioReactorCtot] at h1
  · rw [evalRHS_eq _ _ _ _ _ (by decide) (by decide)]
    congr 2
    simp [evalRHS_ydot, evalRHS_sums_eq, evalRHS_state_N, evalRHS_state_D,
      evalRHS_state_omega, evalRHS_state_C, evalRHS_state_T, evalRHS_state_P,
      evalRHS_state_Y, evalRHS_state_MW, evalRHS_state_MWtot, evalRHS_state_h_bar,
      evalRHS_state_cp_bar, evalRHS_state_n_species, thirdSpeciesMechanism, scenarioReactor,
      Species.ofList, Finset.sum_range_succ, List.range_succ, ChemConfig.Ru]
  · rw [evalRHS_eq _ _ _ _ _ (by decide) (by decide)]
    congr 2
    simp [evalRHS_ydot, evalRHS_sums_eq, evalRHS_state_N, evalRHS_state_D,
      evalRHS_state_omega, evalRHS_state_C, evalRHS_state_T, evalRHS_state_P,
      evalRHS_state_Y, evalRHS_state_MW, evalRHS_state_MWtot, evalRHS_state_h_bar,
      evalRHS_state_cp_bar, evalRHS_state_n_species, thirdSpeciesMechanism, scenarioReactor,
      scenarioReactorThird, Species.ofList, Finset.sum_range_succ, List.range_succ,
      ChemConfig.Ru]
    norm_num

/-- C20, amended: evaluation carries no state over from what it overwrites.  For any two
reactor states that agree on `n`, `P`, `MW`, `MWtot` and on what `evalRHS` never writes
(`Ctot`, `X`, `Y0` and the entries of `Y`, `C`, `cp_bar`, `h_bar` at indices `>= n`), and
that differ arbitrarily in `T`, `cp`, `h`, `omega`, `N`, `D` and in the entries of `Y`,
`C`, `cp_bar`, `h_bar` below `n`, and any state vector `y` (buffers of length at least
`n + 1`), `evalRHS` writes the same derivative vector and ends in the same reactor
state. -/
theorem evalRHS_no_stale_state (m : Mechanism)
    (r r1 : IdealGasConstPressureAdiabaticReactor) (t : ℚ) (y ydot : Buffer)
    (hy : r.n_species_.toNat < y.length) (hyd : r.n_species_.toNat < ydot.length)
    (hn : r.n_species_ = r1.n_species_) (hP : r.P_ = r1.P_)
    (hMW : r.MW_ = r1.MW_) (hMWtot : r.MWtot_ = r1.MWtot_)
    (hCtot : r.Ctot_ = r1.Ctot_) (hX : r.X_ = r1.X_) (hY0 : r.Y0_ = r1.Y0_)
    (hY : ∀ j, r.n_species_.toNat ≤ j → r.Y_ j = r1.Y_ j)
    (hC : ∀ j, r.n_species_.toNat ≤ j → r.C_ j = r1.C_ j)
    (hcp : ∀ j, r.n_species_.toNat ≤ j → r.cp_bar_ j = r1.cp_bar_ j)
    (hh : ∀ j, r.n_species_.toNat ≤ j → r.h_bar_ j = r1.h_bar_ j) :
    ∃ s out, r.evalRHS m t y ydot = .ok (s, out) ∧ r1.evalRHS m t y ydot = .ok (s, out) := by
  have hs := evalRHS_state_congr m r r1 y hn hP hMW hMWtot hCtot hX hY0 hY hC hcp hh
  refine ⟨evalRHS_state m r y, evalRHS_ydot m r y ydot, evalRHS_eq m r t y ydot hy hyd, ?_⟩
  rw [evalRHS_eq m r1 t y ydot (by rw [← hn]; exact hy) (by rw [← hn]; exact hyd),
    ← hs, ← evalRHS_ydot_congr m r r1 y ydot hn hs]

/-- C20, witness of the amended statement: the scenario reactor and a reactor that
differs from it in `T`, `cp`, `h`, `omega`, `N`, `D` and in the first two entries of `Y`,
`C`, `cp_bar`, `h_bar`. -/
theorem evalRHS_no_stale_state_witness :
    scenarioReactor.T_ ≠ scenarioReactorOther.T_ ∧
    ∃ s out,
      scenarioReactor.evalRHS (scenarioMechanism [-1, 1 / 16]) 0 [1000, 1 / 2, 1 / 2]
        [0, 0, 0] = .ok (s, out) ∧
      scenarioReactorOther.evalRHS (scenarioMechanism [-1, 1 / 16]) 0 [1000, 1 / 2, 1 / 2]
        [0, 0, 0] = .ok (s, out) := by
  refine ⟨by simp [scenarioReactor, scenarioReactorOther], ?_⟩
  refine evalRHS_no_stale_state (scenarioMechanism [-1, 1 / 16]) scenarioReactor
    scenarioReactorOther 0 [1000, 1 / 2, 1 / 2] [0, 0, 0] (by decide) (by decide)
    rfl rfl rfl rfl rfl rfl rfl ?_ ?_ ?_ ?_ <;>
  · intro j hj
    have hj2 : 2 ≤ j := hj
    obtain ⟨k, rfl⟩ : ∃ k, j = k + 2 := ⟨j - 2, by omega⟩
    simp [scenarioReactor, scenarioReactorOther, Species.ofList]

end IdealGasConstPressureAdiabaticReactor

/-! ## Signs -/

theorem ChemConfig.Ru_pos : 0 < ChemConfig.Ru := by
  simp only [ChemConfig.Ru]
  norm_num

namespace IdealGasConstPressureAdiabaticReactor

/-- What the constructor stores. -/
theorem construct_post (m : Mechanism) (mem : IdealGasConstPressureAdiabaticReactor)
    (n : Int) (T0 P0 : ℚ) :
    ∃ r, construct m mem n T0 P0 = .ok r ∧
      r.n_species_ = n ∧ r.T_ = T0 ∧ r.P_ = P0 ∧ r.MW_ = m.molecular_weights ∧
      (∀ i, i < n.toNat → r.Y_ i = 1 / 10) ∧
      r.MWtot_ = 1 / ∑ i in Finset.range n.toNat, (1 / 10) / m.molecular_weights i ∧
      (∀ i, i < n.toNat →
        r.C_ i = (P0 * r.MWtot_ * (1 / 10)) / (ChemConfig.Ru * T0 * m.molecular_weights i)) ∧
      r.omega_ = m.source_species r.C_ r.T_ ∧
      r.cp_ = m.species_specific_heat_constant_pressure_mass_specific T0 ∧
      r.h_ = m.species_enthalpy_mass_specific T0 ∧
      (∀ i, i < n.toNat →
        r.cp_bar_ i =
          m.species_specific_heat_constant_pressure_mass_specific T0 i *
            m.molecular_weights i) ∧
      (∀ i, i < n.toNat →
        r.h_bar_ i = m.species_enthalpy_mass_specific T0 i * m.molecular_weights i) := by
  have hsum : ∑ i in Finset.range n.toNat,
      (if i < n.toNat then (1 / 10 : ℚ) else mem.Y_ i) / m.molecular_weights i =
      ∑ i in Finset.range n.toNat, (1 / 10) / m.molecular_weights i := by
    refine Finset.sum_congr rfl ?_
    intro i hi
    simp only [Finset.mem_range.mp hi, if_true]
  refine ⟨_, construct_unfold m mem n T0 P0, ?_, ?_, ?_, ?_, ?_, ?_, ?_, ?_, ?_, ?_, ?_, ?_⟩
  · simp [computeProductionRates, construct_concentrations_eq, construct_massFractions_eq,
      computeThermoProperties_eq]
  · simp [computeProductionRates, construct_concentrations_eq, construct_massFractions_eq,
      computeThermoProperties_eq]
  · simp [computeProductionRates, construct_concentrations_eq, construct_massFractions_eq,
      computeThermoProperties_eq]
  · simp [computeProductionRates, construct_concentrations_eq, construct_massFractions_eq,
      computeThermoProperties_eq]
  · intro i hi
    simp only [computeProductionRates, construct_concentrations_eq,
      construct_massFractions_eq, computeThermoProperties_eq, hi, if_true]
  · simp only [computeProductionRates, construct_concentrations_eq,
      construct_massFractions_eq, computeThermoProperties_eq, construct_temp_eq]
    rw [hsum]
  · intro i hi
    simp only [computeProductionRates, construct_concentrations_eq,
      construct_massFractions_eq, computeThermoProperties_eq, construct_temp_eq, hi,
      if_true]
  · simp only [computeProductionRates, construct_concentrations_eq,
      construct_massFractions_eq, computeThermoProperties_eq]
  · simp only [computeProductionRates, construct_concentrations_eq,
      construct_massFractions_eq, computeThermoProperties_eq]
  · simp only [computeProductionRates, construct_concentrations_eq,
      construct_massFractions_eq, computeThermoProperties_eq]
  · intro i hi
    simp only [computeProductionRates, construct_concentrations_eq,
      construct_massFractions_eq, computeThermoProperties_eq, hi, if_true]
  · intro i hi
    simp only [computeProductionRates, construct_concentrations_eq,
      construct_massFractions_eq, computeThermoProperties_eq, hi, if_true]

end IdealGasConstPressureAdiabaticReactor

namespace IdealGasConstPressureAdiabaticReactor

/-- C21: concentrations are non-negative.  For `P > 0`, `MWtot > 0`, after `setState`
with `T > 0` (and `y` of length at least `n + 1`) every species `i < n` with `MW[i] > 0`
and stored `Y[i] >= 0` has `C[i] >= 0`. -/
theorem setState_C_nonneg (r : IdealGasConstPressureAdiabaticReactor) (y : Buffer)
    (temperature : ℚ) (hy : r.n_species_.toNat < y.length) (hP : 0 < r.P_)
    (hMWtot : 0 < r.MWtot_) (hT : 0 < temperature) :
    ∃ r1, r.setState y temperature = .ok r1 ∧
      ∀ i, i < r.n_species_.toNat → 0 < r.MW_ i → 0 ≤ r1.Y_ i → 0 ≤ r1.C_ i := by
  refine ⟨_, setState_eq r y temperature hy, ?_⟩
  intro i hi hMW hY
  simp only [hi, if_true] at hY ⊢
  exact div_nonneg (mul_nonneg (mul_nonneg hP.le hMWtot.le) hY)
    (mul_pos (mul_pos ChemConfig.Ru_pos hT) hMW).le

/-- C21, witness: the scenario reactor absorbing `y = [900, 1/4, 3/4]` at `T = 900`. -/
theorem setState_C_nonneg_witness :
    (0 < scenarioReactor.P_ ∧ 0 < scenarioReactor.MWtot_ ∧ (0 : ℚ) < 900) ∧
    ∃ r1, scenarioReactor.setState [900, 1 / 4, 3 / 4] 900 = .ok r1 ∧
      ∀ i, i < 2 → 0 < scenarioReactor.MW_ i → 0 ≤ r1.Y_ i → 0 ≤ r1.C_ i :=
  ⟨⟨by norm_num [scenarioReactor], by norm_num [scenarioReactor], by norm_num⟩,
    setState_C_nonneg scenarioReactor [900, 1 / 4, 3 / 4] 900 (by decide)
      (by norm_num [scenarioReactor]) (by norm_num [scenarioReactor]) (by norm_num)⟩

/-- C22: the energy-equation denominator is strictly positive for a physically valid
mixture.  For a reactor constructed with `P0 > 0` and `MW[i] > 0`, and a state vector `y`
(buffers of length at least `n + 1`) with `T = y[0] > 0`, all `Y[i] >= 0` and not all
zero, and all `cp_bar[i] = cp(T)[i]*MW[i] > 0`, the `D` that `evalRHS` computes from the
`MWtot` established at construction satisfies `D > 0`. -/
theorem evalRHS_D_pos (m : Mechanism) (mem : IdealGasConstPressureAdiabaticReactor)
    (n : Int) (T0 P0 t : ℚ) (y ydot : Buffer) (hy : n.toNat < y.length)
    (hyd : n.toNat < ydot.length) (hP : 0 < P0)
    (hMW : ∀ i, i < n.toNat → 0 < m.molecular_weights i)
    (hT : 0 < y.getD 0 0)
    (hcp : ∀ i, i < n.toNat →
      0 < m.species_specific_heat_constant_pressure_mass_specific (y.getD 0 0) i *
        m.molecular_weights i)
    (hY : ∀ i, i < n.toNat → 0 ≤ y.getD (i + 1) 0)
    (hY1 : ∃ i, i < n.toNat ∧ y.getD (i + 1) 0 ≠ 0) :
    ∃ r r1 out, construct m mem n T0 P0 = .ok r ∧ r.evalRHS m t y ydot = .ok (r1, out) ∧
      r1.MWtot_ = r.MWtot_ ∧
      (∀ i, i < n.toNat →
        r1.cp_bar_ i =
          m.species_specific_heat_constant_pressure_mass_specific (y.getD 0 0) i *
            m.molecular_weights i) ∧
      out[0]? = some (r1.N_ / r1.D_) ∧ 0 < r1.D_ := by
  obtain ⟨r, hr, hrn, _, hrP, hrMW, _, hrMWtot, _⟩ := construct_post m mem n T0 P0
  obtain ⟨i0, hi0, hYi0⟩ := hY1
  have hS : 0 < ∑ i in Finset.range n.toNat, (1 / 10 : ℚ) / m.molecular_weights i := by
    refine Finset.sum_pos ?_ ⟨i0, Finset.mem_range.mpr hi0⟩
    intro i hi
    exact div_pos (by norm_num) (hMW i (Finset.mem_range.mp hi))
  have hMWtot : 0 < r.MWtot_ := by
    rw [hrMWtot]
    exact div_pos one_pos hS
  refine ⟨r, evalRHS_state m r y, evalRHS_ydot m r y ydot, hr,
    evalRHS_eq m r t y ydot (by rw [hrn]; exact hy) (by rw [hrn]; exact hyd),
    evalRHS_state_MWtot m r y, ?_, evalRHS_ydot_zero m r y ydot (by omega), ?_⟩
  · intro i hi
    rw [evalRHS_state_cp_bar, hrn, hrMW]
    simp only [hi, if_true]
  · rw [evalRHS_state_D, evalRHS_state_Y, evalRHS_state_cp_bar, evalRHS_state_P,
      evalRHS_state_MWtot, evalRHS_state_T, evalRHS_state_MW, hrn, hrP, hrMW]
    refine Finset.sum_pos' ?_ ⟨i0, Finset.mem_range.mpr hi0, ?_⟩
    · intro i hi
      have hi1 := Finset.mem_range.mp hi
      simp only [hi1, if_true]
      exact div_nonneg
        (mul_nonneg (mul_nonneg (mul_nonneg (hY i hi1) hP.le) hMWtot.le) (hcp i hi1).le)
        (mul_pos (mul_pos ChemConfig.Ru_pos hT) (hMW i hi1)).le
    · simp only [hi0, if_true]
      exact div_pos
        (mul_pos (mul_pos (mul_pos (lt_of_le_of_ne (hY i0 hi0) (Ne.symm hYi0)) hP) hMWtot)
          (hcp i0 hi0))
        (mul_pos (mul_pos ChemConfig.Ru_pos hT) (hMW i0 hi0))

/-- C22, witness: construction with `n = 2`, `P0 = 101325`, `MW = [2, 32]`, then an
evaluation at `y = [1000, 1/2, 1/2]` with `cp = [14000, 900]`. -/
theorem evalRHS_D_pos_witness :
    ∃ r r1 out, construct (scenarioMechanism [0, 0]) scenarioReactor 2 300 101325 = .ok r ∧
      r.evalRHS (scenarioMechanism [0, 0]) 0 [1000, 1 / 2, 1 / 2] [0, 0, 0] = .ok (r1, out) ∧
      r1.MWtot_ = r.MWtot_ ∧
      (∀ i, i < 2 →
        r1.cp_bar_ i = Species.ofList [14000, 900] i * Species.ofList [2, 32] i) ∧
      out[0]? = some (r1.N_ / r1.D_) ∧ 0 < r1.D_ :=
  evalRHS_D_pos (scenarioMechanism [0, 0]) scenarioReactor 2 300 101325 0
    [1000, 1 / 2, 1 / 2] [0, 0, 0] (by decide) (by decide) (by norm_num)
    (by
      intro i hi
      have hi2 : i < 2 := hi
      interval_cases i <;> simp [scenarioMechanism, Species.ofList])
    (by norm_num [List.getD])
    (by
      intro i hi
      have hi2 : i < 2 := hi
      interval_cases i <;> simp [scenarioMechanism, Species.ofList])
    (by
      intro i hi
      have hi2 : i < 2 := hi
      interval_cases i <;> simp [List.getD])
    ⟨0, by decide, by simp [List.getD]⟩

end IdealGasConstPressureAdiabaticReactor

/-! ## Zero enthalpy, cache consistency, inline sums -/

namespace IdealGasConstPressureAdiabaticReactor

/-- C23, counterexample: in the scenario with `h = [0, 0]`, `omega = [-1, 0.0625]` and
all mass fractions zero, `y = [1000, 0, 0]`, `evalRHS` computes `N = 0`, `D = 0` and
`concentration_sum = 0`, and stores the quotient `N / D` in `ydot[0]`: the quotient of
zero by zero, which is not the number `0` in `double` arithmetic. -/
theorem evalRHS_zero_enthalpy_counterexample :
    (∀ i, i < 2 → (scenarioMechanism [-1, 1 / 16]).species_enthalpy_mass_specific
      (([1000, 0, 0] : Buffer).getD 0 0) i = 0) ∧
    ∃ r1 out, scenarioReactor.evalRHS (scenarioMechanism [-1, 1 / 16]) 0 [1000, 0, 0]
        [0, 0, 0] = .ok (r1, out) ∧
      out[0]? = some (r1.N_ / r1.D_) ∧ r1.N_ = 0 ∧ r1.D_ = 0 ∧
      (∑ k in Finset.range 2,
        (r1.Y_ k * r1.P_ * r1.MWtot_) / (ChemConfig.Ru * r1.T_ * r1.MW_ k)) = 0 ∧
      doubleQuotient r1.N_ r1.D_ ≠ some 0 := by
  have hD : (evalRHS_state (scenarioMechanism [-1, 1 / 16]) scenarioReactor
      [1000, 0, 0]).D_ = 0 := by
    rw [evalRHS_state_D_input]
    simp [scenarioReactor, Finset.sum_range_succ]
  have hN : (evalRHS_state (scenarioMechanism [-1, 1 / 16]) scenarioReactor
      [1000, 0, 0]).N_ = 0 := by
    rw [evalRHS_state_N, evalRHS_state_h_bar]
    simp [scenarioReactor, scenarioMechanism, Species.ofList, Finset.sum_range_succ]
  refine ⟨?_, _, _, evalRHS_eq (scenarioMechanism [-1, 1 / 16]) scenarioReactor 0
    [1000, 0, 0] [0, 0, 0] (by decide) (by decide), evalRHS_ydot_zero _ _ _ _ (by decide),
    hN, hD, ?_, ?_⟩
  · intro i hi
    interval_cases i <;> simp [scenarioMechanism, Species.ofList]
  · have h := evalRHS_state_concentration_sum_input (scenarioMechanism [-1, 1 / 16])
      scenarioReactor [1000, 0, 0]
    have h2 : scenarioReactor.n_species_.toNat = 2 := rfl
    rw [h2] at h
    rw [h]
    simp [Finset.sum_range_succ]
  · rw [hN, hD]
    simp [doubleQuotient]

/-- C23, amended: zero-enthalpy case where the quotients are numbers.  For every state
vector `y` (buffers of length at least `n + 1`) and every kinetics, if the thermo provider
returns `h[i] = 0` for all `i < n` at `T = y[0]` and no denominator of `evalRHS` is zero
(`T = y[0]`, `P*MWtot`, every `MW[i]`, `D` and `concentration_sum` are non-zero), then
`evalRHS` returns `dT/dt = 0` and, for every `i < n`,
`dY[i]/dt = omega[i]*MW[i]*Ru*T/(P*MWtot) - Y[i]*omega_sum/concentration_sum`. -/
theorem evalRHS_zero_enthalpy (m : Mechanism) (r : IdealGasConstPressureAdiabaticReactor)
    (t : ℚ) (y ydot : Buffer) (hy : r.n_species_.toNat < y.length)
    (hyd : r.n_species_.toNat < ydot.length)
    (hh : ∀ i, i < r.n_species_.toNat → m.species_enthalpy_mass_specific (y.getD 0 0) i = 0)
    (hT : y.getD 0 0 ≠ 0) (hP : r.P_ ≠ 0) (hMWtot : r.MWtot_ ≠ 0)
    (hMW : ∀ i, i < r.n_species_.toNat → r.MW_ i ≠ 0)
    (hD : ∑ i in Finset.range r.n_species_.toNat,
        ((y.getD (i + 1) 0 * r.P_ * r.MWtot_) *
            (m.species_specific_heat_constant_pressure_mass_specific (y.getD 0 0) i *
              r.MW_ i)) /
          (ChemConfig.Ru * y.getD 0 0 * r.MW_ i) ≠ 0)
    (hCsum : ∑ i in Finset.range r.n_species_.toNat,
        (y.getD (i + 1) 0 * r.P_ * r.MWtot_) / (ChemConfig.Ru * y.getD 0 0 * r.MW_ i) ≠ 0) :
    ∃ r1 out, r.evalRHS m t y ydot = .ok (r1, out) ∧
      r1.T_ = y.getD 0 0 ∧ r1.P_ = r.P_ ∧ r1.MWtot_ = r.MWtot_ ∧ r1.MW_ = r.MW_ ∧
      (∀ i, i < r.n_species_.toNat → r1.Y_ i = y.getD (i + 1) 0) ∧
      r1.omega_ = m.source_species r1.C_ r1.T_ ∧
      r1.T_ ≠ 0 ∧ r1.P_ * r1.MWtot_ ≠ 0 ∧
      (∀ i, i < r.n_species_.toNat → ChemConfig.Ru * r1.T_ * r1.MW_ i ≠ 0) ∧
      r1.D_ ≠ 0 ∧
      (∑ k in Finset.range r.n_species_.toNat,
        (r1.Y_ k * r1.P_ * r1.MWtot_) / (ChemConfig.Ru * r1.T_ * r1.MW_ k)) ≠ 0 ∧
      doubleQuotient r1.N_ r1.D_ = some 0 ∧
      out[0]? = some 0 ∧
      ∀ i, i < r.n_species_.toNat →
        out[i + 1]? = some
          (r1.omega_ i * r1.MW_ i * ChemConfig.Ru * r1.T_ / (r1.P_ * r1.MWtot_) -
            r1.Y_ i * (∑ k in Finset.range r.n_species_.toNat, r1.omega_ k) /
              (∑ k in Finset.range r.n_species_.toNat,
                (r1.Y_ k * r1.P_ * r1.MWtot_) / (ChemConfig.Ru * r1.T_ * r1.MW_ k))) := by
  have hN : (evalRHS_state m r y).N_ = 0 := by
    rw [evalRHS_state_N, evalRHS_state_h_bar]
    refine Finset.sum_eq_zero ?_
    intro i hi
    simp only [Finset.mem_range.mp hi, if_true, hh i (Finset.mem_range.mp hi), zero_mul,
      neg_zero]
  have hD1 : (evalRHS_state m r y).D_ ≠ 0 := by
    rw [evalRHS_state_D_input]
    exact hD
  refine ⟨evalRHS_state m r y, evalRHS_ydot m r y ydot, evalRHS_eq m r t y ydot hy hyd,
    evalRHS_state_T m r y, evalRHS_state_P m r y, evalRHS_state_MWtot m r y,
    evalRHS_state_MW m r y, ?_, evalRHS_state_omega m r y, ?_, ?_, ?_, hD1, ?_, ?_, ?_, ?_⟩
  · intro i hi
    simp [evalRHS_state_Y, hi]
  · rw [evalRHS_state_T]
    exact hT
  · rw [evalRHS_state_P, evalRHS_state_MWtot]
    exact mul_ne_zero hP hMWtot
  · intro i hi
    rw [evalRHS_state_T, evalRHS_state_MW]
    have hRu : ChemConfig.Ru ≠ 0 := by norm_num [ChemConfig.Ru]
    exact mul_ne_zero (mul_ne_zero hRu hT) (hMW i hi)
  · rw [evalRHS_state_concentration_sum_input]
    exact hCsum
  · rw [hN]
    exact doubleQuotient_zero _ hD1
  · rw [evalRHS_ydot_zero m r y ydot (by omega), hN, zero_div]
  · intro i hi
    rw [evalRHS_ydot_succ m r y ydot i hi hyd, hN, evalRHS_sums_eq, evalRHS_state_n_species]
    congr 1
    simp only [zero_div, add_zero]
    ring

/-- C23, witness: `n = 2`, `MW = [2, 32]`, `T = 1000`, `P = 101325`, `Y = [0.5, 0.5]`,
`h = [0, 0]`, `omega = [-1, 0.0625]`. -/
theorem evalRHS_zero_enthalpy_witness :
    ∃ r1 out, scenarioReactor.evalRHS (scenarioMechanism [-1, 1 / 16]) 0
        [1000, 1 / 2, 1 / 2] [0, 0, 0] = .ok (r1, out) ∧
      r1.D_ ≠ 0 ∧ out[0]? = some 0 ∧
      ∀ i, i < 2 →
        out[i + 1]? = some
          (r1.omega_ i * r1.MW_ i * ChemConfig.Ru * r1.T_ / (r1.P_ * r1.MWtot_) -
            r1.Y_ i * (∑ k in Finset.range 2, r1.omega_ k) /
              (∑ k in Finset.range 2,
                (r1.Y_ k * r1.P_ * r1.MWtot_) / (ChemConfig.Ru * r1.T_ * r1.MW_ k))) := by
  obtain ⟨r1, out, h, _, _, _, _, _, _, _, _, _, hD, _, _, h0, hS⟩ :=
    evalRHS_zero_enthalpy (scenarioMechanism [-1, 1 / 16]) scenarioReactor 0
      [1000, 1 / 2, 1 / 2] [0, 0, 0] (by decide) (by decide)
      (by
        intro i hi
        have hi2 : i < 2 := hi
        interval_cases i <;> simp [scenarioMechanism, Species.ofList])
      (by norm_num [List.getD])
      (by norm_num [scenarioReactor])
      (by norm_num [scenarioReactor])
      (by
        intro i hi
        have hi2 : i < 2 := hi
        interval_cases i <;> simp [scenarioReactor, Species.ofList])
      (by
        simp [scenarioReactor, scenarioMechanism, Species.ofList, Finset.sum_range_succ,
          ChemConfig.Ru]
        norm_num)
      (by
        simp [scenarioReactor, Species.ofList, Finset.sum_range_succ, ChemConfig.Ru]
        norm_num)
  exact ⟨r1, out, h, hD, h0, hS⟩

/-- C24: cache consistency.  Immediately after construction, after every `getProperties`
call and after every `evalRHS` call (buffers of length at least `n + 1`), the cached
properties agree with the stored state: `omega = kinetics(C, T)` and, for every `i < n`,
`cp_bar[i] = cp(T)[i]*MW[i]` and `h_bar[i] = h(T)[i]*MW[i]`, for the stored `C`, `T` and
`MW`. -/
theorem cache_consistent (m : Mechanism) (mem r : IdealGasConstPressureAdiabaticReactor)
    (n : Int) (T0 P0 t : ℚ) (y ydot : Buffer) (hy : r.n_species_.toNat < y.length)
    (hyd : r.n_species_.toNat < ydot.length) :
    (∃ r0, construct m mem n T0 P0 = .ok r0 ∧
      r0.omega_ = m.source_species r0.C_ r0.T_ ∧
      ∀ i, i < r0.n_species_.toNat →
        r0.cp_bar_ i =
            m.species_specific_heat_constant_pressure_mass_specific r0.T_ i * r0.MW_ i ∧
          r0.h_bar_ i = m.species_enthalpy_mass_specific r0.T_ i * r0.MW_ i) ∧
    ((r.getProperties m).T_ = r.T_ ∧ (r.getProperties m).C_ = r.C_ ∧
      (r.getProperties m).omega_ =
        m.source_species (r.getProperties m).C_ (r.getProperties m).T_ ∧
      ∀ i, i < (r.getProperties m).n_species_.toNat →
        (r.getProperties m).cp_bar_ i =
            m.species_specific_heat_constant_pressure_mass_specific (r.getProperties m).T_ i *
              (r.getProperties m).MW_ i ∧
          (r.getProperties m).h_bar_ i =
            m.species_enthalpy_mass_specific (r.getProperties m).T_ i *
              (r.getProperties m).MW_ i) ∧
    (∃ r1 out, r.evalRHS m t y ydot = .ok (r1, out) ∧
      r1.omega_ = m.source_species r1.C_ r1.T_ ∧
      ∀ i, i < r1.n_species_.toNat →
        r1.cp_bar_ i =
            m.species_specific_heat_constant_pressure_mass_specific r1.T_ i * r1.MW_ i ∧
          r1.h_bar_ i = m.species_enthalpy_mass_specific r1.T_ i * r1.MW_ i) := by
  refine ⟨?_, ⟨?_, ?_, ?_, ?_⟩, ?_⟩
  · obtain ⟨r0, hr0, hn, hT, _, hMW, _, _, _, hom, _, _, hcp, hhb⟩ :=
      construct_post m mem n T0 P0
    refine ⟨r0, hr0, hom, ?_⟩
    intro i hi
    rw [hn] at hi
    rw [hT, hMW]
    exact ⟨hcp i hi, hhb i hi⟩
  · simp [getProperties, computeProductionRates, computeThermoProperties_eq]
  · simp [getProperties, computeProductionRates, computeThermoProperties_eq]
  · simp [getProperties, computeProductionRates, computeThermoProperties_eq]
  · intro i hi
    rw [getProperties_n_species] at hi
    simp only [getProperties, computeProductionRates, computeThermoProperties_eq, hi,
      if_true, and_self]
  · refine ⟨evalRHS_state m r y, evalRHS_ydot m r y ydot, evalRHS_eq m r t y ydot hy hyd,
      evalRHS_state_omega m r y, ?_⟩
    intro i hi
    rw [evalRHS_state_n_species] at hi
    rw [evalRHS_state_cp_bar, evalRHS_state_h_bar, evalRHS_state_T, evalRHS_state_MW]
    simp only [hi, if_true, and_self]

/-- C24, witness: construction with `n = 2`, and the scenario reactor refreshed and
evaluated at `y = [1000, 1/2, 1/2]`. -/
theorem cache_consistent_witness :
    ∃ r1 out, scenarioReactor.evalRHS (scenarioMechanism [-1, 1 / 16]) 0
        [1000, 1 / 2, 1 / 2] [0, 0, 0] = .ok (r1, out) ∧
      r1.omega_ = (scenarioMechanism [-1, 1 / 16]).source_species r1.C_ r1.T_ ∧
      ∀ i, i < r1.n_species_.toNat →
        r1.cp_bar_ i =
            (scenarioMechanism [-1, 1 / 16]).species_specific_heat_constant_pressure_mass_specific
              r1.T_ i * r1.MW_ i ∧
          r1.h_bar_ i =
            (scenarioMechanism [-1, 1 / 16]).species_enthalpy_mass_specific r1.T_ i *
              r1.MW_ i :=
  (cache_consistent (scenarioMechanism [-1, 1 / 16]) scenarioReactor scenarioReactor 2 300
    101325 0 [1000, 1 / 2, 1 / 2] [0, 0, 0] (by decide) (by decide)).2.2

theorem computedTtDenominator_disabled_eq (r : IdealGasConstPressureAdiabaticReactor) :
    computedTtDenominator_disabled r =
      { r with
        D_ := r.D_ + ∑ i in Finset.range r.n_species_.toNat, r.C_ i * r.cp_bar_ i } := by
  simp only [computedTtDenominator_disabled]
  refine forLoop_eq _ 0 r.n_species_.toNat (fun k => { r with
      D_ := r.D_ + ∑ i in Finset.range k, r.C_ i * r.cp_bar_ i }) _ ?_ ?_
  · simp
  · intro k _
    simp only [Nat.zero_add, Finset.sum_range_succ, add_assoc]

/-- C25: the sums that `evalRHS` recomputes inline agree with the stored concentrations.
For every state vector `y` (buffers of length at least `n + 1`), with `C` the array that
`setState` stored in the same call: `concentration_sum = sum_{i<n} C[i]` and
`D = sum_{i<n} C[i]*cp_bar[i]`, which is what the commented-out body of
`computedTtDenominator` adds to `D_ = 0`; the derivative vector is `ydot[0] = N / D` and
`ydot[i+1]` as computed from these sums. -/
theorem evalRHS_inline_sums (m : Mechanism) (r : IdealGasConstPressureAdiabaticReactor)
    (t : ℚ) (y ydot : Buffer) (hy : r.n_species_.toNat < y.length)
    (hyd : r.n_species_.toNat < ydot.length) :
    ∃ r1 out, r.evalRHS m t y ydot = .ok (r1, out) ∧
      (∀ i, i < r.n_species_.toNat →
        r1.C_ i = (r1.P_ * r1.MWtot_ * r1.Y_ i) / (ChemConfig.Ru * r1.T_ * r1.MW_ i)) ∧
      (evalRHS_sums r1).2 = ∑ i in Finset.range r.n_species_.toNat, r1.C_ i ∧
      r1.D_ = ∑ i in Finset.range r.n_species_.toNat, r1.C_ i * r1.cp_bar_ i ∧
      r1.D_ = (computedTtDenominator_disabled { r1 with D_ := 0 }).D_ ∧
      out[0]? = some (r1.N_ / ∑ i in Finset.range r.n_species_.toNat, r1.C_ i * r1.cp_bar_ i) ∧
      ∀ i, i < r.n_species_.toNat →
        out[i + 1]? = some
          (r1.omega_ i * (r1.MW_ i * ChemConfig.Ru * r1.T_) / (r1.P_ * r1.MWtot_) -
            r1.Y_ i *
              ((∑ k in Finset.range r.n_species_.toNat, r1.omega_ k) /
                  (∑ k in Finset.range r.n_species_.toNat, r1.C_ k) +
                r1.N_ / r1.D_ / r1.T_)) := by
  have hC : ∀ i, i < r.n_species_.toNat →
      (evalRHS_state m r y).C_ i =
        ((evalRHS_state m r y).P_ * (evalRHS_state m r y).MWtot_ *
            (evalRHS_state m r y).Y_ i) /
          (ChemConfig.Ru * (evalRHS_state m r y).T_ * (evalRHS_state m r y).MW_ i) := by
    intro i hi
    simp [evalRHS_state_C, evalRHS_state_Y, evalRHS_state_T, evalRHS_state_MW,
      evalRHS_state_P, evalRHS_state_MWtot, hi]
  have hcs : (evalRHS_sums (evalRHS_state m r y)).2 =
      ∑ i in Finset.range r.n_species_.toNat, (evalRHS_state m r y).C_ i := by
    rw [evalRHS_sums_eq, evalRHS_state_n_species]
    show ∑ i in Finset.range r.n_species_.toNat,
        ((evalRHS_state m r y).Y_ i * (evalRHS_state m r y).P_ *
            (evalRHS_state m r y).MWtot_) /
          (ChemConfig.Ru * (evalRHS_state m r y).T_ * (evalRHS_state m r y).MW_ i) =
      ∑ i in Finset.range r.n_species_.toNat, (evalRHS_state m r y).C_ i
    refine Finset.sum_congr rfl ?_
    intro i hi
    rw [hC i (Finset.mem_range.mp hi)]
    ring
  have hD : (evalRHS_state m r y).D_ =
      ∑ i in Finset.range r.n_species_.toNat,
        (evalRHS_state m r y).C_ i * (evalRHS_state m r y).cp_bar_ i := by
    rw [evalRHS_state_D]
    refine Finset.sum_congr rfl ?_
    intro i hi
    rw [hC i (Finset.mem_range.mp hi)]
    ring
  refine ⟨evalRHS_state m r y, evalRHS_ydot m r y ydot, evalRHS_eq m r t y ydot hy hyd,
    hC, hcs, hD, ?_, ?_, ?_⟩
  · rw [computedTtDenominator_disabled_eq]
    simp only [zero_add, evalRHS_state_n_species]
    exact hD
  · rw [evalRHS_ydot_zero m r y ydot (by omega), ← hD]
  · intro i hi
    rw [evalRHS_ydot_succ m r y ydot i hi hyd, hcs, evalRHS_sums_eq,
      evalRHS_state_n_species]

/-- C25, witness: the scenario with `omega = [-1, 0.0625]`. -/
theorem evalRHS_inline_sums_witness :
    ∃ r1 out, scenarioReactor.evalRHS (scenarioMechanism [-1, 1 / 16]) 0
        [1000, 1 / 2, 1 / 2] [0, 0, 0] = .ok (r1, out) ∧
      (evalRHS_sums r1).2 = ∑ i in Finset.range 2, r1.C_ i ∧
      r1.D_ = ∑ i in Finset.range 2, r1.C_ i * r1.cp_bar_ i ∧
      r1.D_ = (computedTtDenominator_disabled { r1 with D_ := 0 }).D_ := by
  obtain ⟨r1, out, h, _, hcs, hD, hD1, _, _⟩ :=
    evalRHS_inline_sums (scenarioMechanism [-1, 1 / 16]) scenarioReactor 0
      [1000, 1 / 2, 1 / 2] [0, 0, 0] (by decide) (by decide)
  exact ⟨r1, out, h, hcs, hD, hD1⟩

end IdealGasConstPressureAdiabaticReactor

/-! ## State absorption and the callback -/

namespace IdealGasConstPressureAdiabaticReactor

/-- C26: `setState` uses only the mass-fraction entries of `y`.  For any two vectors `y`,
`y1` (of length at least `n + 1`) that agree on the indices `1..n` and any temperature
argument, `setState(y, temperature)` and `setState(y1, temperature)` return the same
reactor state, whose `T` is the temperature argument whatever `y[0]` is. -/
theorem setState_ignores_y0 (r : IdealGasConstPressureAdiabaticReactor) (y y1 : Buffer)
    (temperature : ℚ) (hy : r.n_species_.toNat < y.length)
    (hy1 : r.n_species_.toNat < y1.length)
    (hagree : ∀ i, 1 ≤ i → i ≤ r.n_species_.toNat → y.getD i 0 = y1.getD i 0) :
    ∃ r1, r.setState y temperature = .ok r1 ∧ r.setState y1 temperature = .ok r1 ∧
      r1.T_ = temperature := by
  have hYf : (fun j => if j < r.n_species_.toNat then y.getD (j + 1) 0 else r.Y_ j) =
      (fun j => if j < r.n_species_.toNat then y1.getD (j + 1) 0 else r.Y_ j) := by
    funext j
    by_cases hj : j < r.n_species_.toNat
    · simp only [hj, if_true]
      exact hagree (j + 1) (by omega) (by omega)
    · simp only [hj, if_false]
  have hCf : (fun j => if j < r.n_species_.toNat then
        (r.P_ * r.MWtot_ * y.getD (j + 1) 0) / (ChemConfig.Ru * temperature * r.MW_ j)
        else r.C_ j) =
      (fun j => if j < r.n_species_.toNat then
        (r.P_ * r.MWtot_ * y1.getD (j + 1) 0) / (ChemConfig.Ru * temperature * r.MW_ j)
        else r.C_ j) := by
    funext j
    by_cases hj : j < r.n_species_.toNat
    · simp only [hj, if_true]
      rw [hagree (j + 1) (by omega) (by omega)]
    · simp only [hj, if_false]
  refine ⟨_, setState_eq r y temperature hy, ?_, rfl⟩
  rw [setState_eq r y1 temperature hy1, hYf, hCf]

/-- C26, witness: `y = [1000, 1/4, 3/4]` and `y1 = [5, 1/4, 3/4]`. -/
theorem setState_ignores_y0_witness :
    ∃ r1, scenarioReactor.setState [1000, 1 / 4, 3 / 4] 900 = .ok r1 ∧
      scenarioReactor.setState [5, 1 / 4, 3 / 4] 900 = .ok r1 ∧ r1.T_ = 900 :=
  setState_ignores_y0 scenarioReactor [1000, 1 / 4, 3 / 4] [5, 1 / 4, 3 / 4] 900
    (by decide) (by decide)
    (by
      intro i h1 hi
      have hi2 : i ≤ 2 := hi
      interval_cases i <;> simp [List.getD])

end IdealGasConstPressureAdiabaticReactor

/-- C27, counterexample: with the invalid temperature `y[0] = -1` and with the singular
mixture `y = [1000, 0, 0]` (for which `D = 0`), `cvode_rhs` returns the status `0`. -/
theorem cvode_rhs_counterexample :
    (∃ s out, cvode_rhs (scenarioMechanism [0, 0]) 0 [-1, 1 / 2, 1 / 2] [0, 0, 0]
        scenarioReactor = .ok (0, s, out) ∧ s.T_ = -1) ∧
    (∃ s out, cvode_rhs (scenarioMechanism [-1, 1 / 16]) 0 [1000, 0, 0] [0, 0, 0]
        scenarioReactor = .ok (0, s, out) ∧ s.D_ = 0) := by
  constructor
  · refine ⟨IdealGasConstPressureAdiabaticReactor.evalRHS_state (scenarioMechanism [0, 0])
        scenarioReactor [-1, 1 / 2, 1 / 2],
      IdealGasConstPressureAdiabaticReactor.evalRHS_ydot (scenarioMechanism [0, 0])
        scenarioReactor [-1, 1 / 2, 1 / 2] [0, 0, 0], ?_, ?_⟩
    · simp only [cvode_rhs, IdealGasConstPressureAdiabaticReactorAdapter.evalRHS,
        IdealGasConstPressureAdiabaticReactor.evalRHS_eq (scenarioMechanism [0, 0])
          scenarioReactor 0 [-1, 1 / 2, 1 / 2] [0, 0, 0] (by decide) (by decide)]
    · simp [IdealGasConstPressureAdiabaticReactor.evalRHS_state_T]
  · refine ⟨IdealGasConstPressureAdiabaticReactor.evalRHS_state
        (scenarioMechanism [-1, 1 / 16]) scenarioReactor [1000, 0, 0],
      IdealGasConstPressureAdiabaticReactor.evalRHS_ydot (scenarioMechanism [-1, 1 / 16])
        scenarioReactor [1000, 0, 0] [0, 0, 0], ?_, ?_⟩
    · simp only [cvode_rhs, IdealGasConstPressureAdiabaticReactorAdapter.evalRHS,
        IdealGasConstPressureAdiabaticReactor.evalRHS_eq (scenarioMechanism [-1, 1 / 16])
          scenarioReactor 0 [1000, 0, 0] [0, 0, 0] (by decide) (by decide)]
    · simp [IdealGasConstPressureAdiabaticReactor.evalRHS_state_D,
        IdealGasConstPressureAdiabaticReactor.evalRHS_state_Y, scenarioReactor,
        Finset.sum_range_succ]

/-- C27, amended: failures are not surfaced to the integrator.  For every model state and
every state vector (buffers of length at least `n + 1`), also when `T <= 0` or `D = 0`,
the callback `cvode_rhs` lets the model evaluate and returns the status `0`. -/
theorem cvode_rhs_returns_zero (m : Mechanism) (t : ℚ) (y ydot : Buffer)
    (user_data : IdealGasConstPressureAdiabaticReactor)
    (hy : user_data.n_species_.toNat < y.length)
    (hyd : user_data.n_species_.toNat < ydot.length) :
    ∃ s out, user_data.evalRHS m t y ydot = .ok (s, out) ∧
      cvode_rhs m t y ydot user_data = .ok (0, s, out) := by
  refine ⟨_, _, IdealGasConstPressureAdiabaticReactor.evalRHS_eq m user_data t y ydot hy hyd,
    ?_⟩
  simp only [cvode_rhs, IdealGasConstPressureAdiabaticReactorAdapter.evalRHS,
    IdealGasConstPressureAdiabaticReactor.evalRHS_eq m user_data t y ydot hy hyd]

/-- C27, witness of the amended statement: the scenario reactor and `y[0] = -1`. -/
theorem cvode_rhs_returns_zero_witness :
    ∃ s out, scenarioReactor.evalRHS (scenarioMechanism [0, 0]) 0 [-1, 1 / 2, 1 / 2]
        [0, 0, 0] = .ok (s, out) ∧
      cvode_rhs (scenarioMechanism [0, 0]) 0 [-1, 1 / 2, 1 / 2] [0, 0, 0] scenarioReactor =
        .ok (0, s, out) :=
  cvode_rhs_returns_zero (scenarioMechanism [0, 0]) 0 [-1, 1 / 2, 1 / 2] [0, 0, 0]
    scenarioReactor (by decide) (by decide)

namespace IdealGasConstPressureAdiabaticReactor

/-- C28: state round trip.  For every reactor state and every vector `y` of length at
least `n + 1`: after `setState(y, y[0])`, `setInitialState(y1)` (with `y1` of length at
least `n + 1`) writes `y1[k] = y[k]` for every `0 <= k <= n`; conversely
`setInitialState(y)` followed by `setState(y, y[0])` leaves `T` and `Y` unchanged. -/
theorem setState_setInitialState_roundtrip (r : IdealGasConstPressureAdiabaticReactor)
    (y y1 : Buffer) (hy : r.n_species_.toNat < y.length)
    (hy1 : r.n_species_.toNat < y1.length) :
    (∃ r1 out, r.setState y (y.getD 0 0) = .ok r1 ∧ r1.setInitialState y1 = .ok out ∧
      ∀ k, k ≤ r.n_species_.toNat → out[k]? = y[k]?) ∧
    (∃ out r2, r.setInitialState y = .ok out ∧ r.setState out (out.getD 0 0) = .ok r2 ∧
      r2.T_ = r.T_ ∧ r2.Y_ = r.Y_) := by
  constructor
  · refine ⟨_, _, setState_eq r y (y.getD 0 0) hy, setInitialState_eq _ y1 hy1, ?_⟩
    intro k hk
    have hky : k < y.length := by omega
    rw [Buffer.getElem?_map_range _ _ k (by omega), List.getElem?_eq_getElem hky]
    by_cases h0 : k = 0
    · subst h0
      simp [List.getD, List.getElem?_eq_getElem hky]
    · have h1 : k - 1 < r.n_species_.toNat := by omega
      have h2 : k - 1 + 1 = k := by omega
      simp [hk, h0, h1, h2, List.getD, List.getElem?_eq_getElem hky]
  · have hlen : r.n_species_.toNat <
        ((List.range y.length).map (fun j =>
          if j ≤ r.n_species_.toNat then (if j = 0 then r.T_ else r.Y_ (j - 1))
          else y.getD j 0)).length := by
      simpa using hy
    refine ⟨_, _, setInitialState_eq r y hy, setState_eq r _ _ hlen, ?_, ?_⟩
    · show List.getD _ 0 0 = r.T_
      rw [Buffer.getD_map_range _ _ 0 (by omega)]
      simp
    · show (fun j => if j < r.n_species_.toNat then List.getD _ (j + 1) 0 else r.Y_ j) = r.Y_
      funext j
      by_cases hj : j < r.n_species_.toNat
      · have h1 : j + 1 ≤ r.n_species_.toNat := by omega
        simp only [hj, if_true]
        rw [Buffer.getD_map_range _ _ (j + 1) (by omega)]
        simp [h1]
      · simp only [hj, if_false]

/-- C28, witness: the scenario reactor, `y = [900, 1/4, 3/4]` and a second buffer of
length 3. -/
theorem setState_setInitialState_roundtrip_witness :
    (∃ r1 out, scenarioReactor.setState [900, 1 / 4, 3 / 4]
        (([900, 1 / 4, 3 / 4] : Buffer).getD 0 0) = .ok r1 ∧
      r1.setInitialState [0, 0, 0] = .ok out ∧
      ∀ k, k ≤ 2 → out[k]? = ([900, 1 / 4, 3 / 4] : Buffer)[k]?) ∧
    (∃ out r2, scenarioReactor.setInitialState [900, 1 / 4, 3 / 4] = .ok out ∧
      scenarioReactor.setState out (out.getD 0 0) = .ok r2 ∧
      r2.T_ = scenarioReactor.T_ ∧ r2.Y_ = scenarioReactor.Y_) :=
  setState_setInitialState_roundtrip scenarioReactor [900, 1 / 4, 3 / 4] [0, 0, 0]
    (by decide) (by decide)

end IdealGasConstPressureAdiabaticReactor

/-! ## Ideal-gas identities -/

namespace IdealGasConstPressureAdiabaticReactor

/-- C29: residual of the species sum.  For every state vector `y` (buffers of length at
least `n + 1`) such that the stored `MWtot` is consistent with the absorbed composition,
`MWtot = 1 / sum_{i<n}(Y[i]/MW[i])` with that sum non-zero, `T = y[0] > 0`, `P > 0`, and
the kinetics conserve mass at the absorbed state, `sum_i omega[i]*MW[i] = 0`, the
derivatives written by `evalRHS` satisfy
`sum_i dY[i]/dt = -(sum_i Y[i]) * (omega_sum*Ru*T/P + (dT/dt)/T)`. -/
theorem evalRHS_species_sum_residual (m : Mechanism)
    (r : IdealGasConstPressureAdiabaticReactor) (t : ℚ) (y ydot : Buffer)
    (hy : r.n_species_.toNat < y.length) (hyd : r.n_species_.toNat < ydot.length)
    (hS : ∑ i in Finset.range r.n_species_.toNat, y.getD (i + 1) 0 / r.MW_ i ≠ 0)
    (hcons : r.MWtot_ = 1 / ∑ i in Finset.range r.n_species_.toNat,
      y.getD (i + 1) 0 / r.MW_ i)
    (_hT : 0 < y.getD 0 0) (_hP : 0 < r.P_)
    (hmass : ∑ i in Finset.range r.n_species_.toNat,
      m.source_species
        (fun j => if j < r.n_species_.toNat then
          (r.P_ * r.MWtot_ * y.getD (j + 1) 0) / (ChemConfig.Ru * y.getD 0 0 * r.MW_ j)
          else r.C_ j)
        (y.getD 0 0) i * r.MW_ i = 0) :
    ∃ r1 out dTdt, r.evalRHS m t y ydot = .ok (r1, out) ∧
      r1.omega_ = m.source_species r1.C_ r1.T_ ∧
      out[0]? = some dTdt ∧
      ∑ i in Finset.range r.n_species_.toNat, out.getD (i + 1) 0 =
        -(∑ i in Finset.range r.n_species_.toNat, y.getD (i + 1) 0) *
          ((∑ k in Finset.range r.n_species_.toNat, r1.omega_ k) * ChemConfig.Ru *
              y.getD 0 0 / r.P_ +
            dTdt / y.getD 0 0) := by
  have hmass1 : ∑ i in Finset.range r.n_species_.toNat,
      (evalRHS_state m r y).omega_ i * r.MW_ i = 0 := by
    rw [evalRHS_state_omega, evalRHS_state_C, evalRHS_state_T]
    exact hmass
  have hY : ∀ i, i < r.n_species_.toNat →
      (evalRHS_state m r y).Y_ i = y.getD (i + 1) 0 := by
    intro i hi
    rw [evalRHS_state_Y]
    simp only [hi, if_true]
  have hMS : r.MWtot_ * ∑ i in Finset.range r.n_species_.toNat,
      y.getD (i + 1) 0 / r.MW_ i = 1 := by
    rw [hcons]
    exact one_div_mul_cancel hS
  have hcs : (evalRHS_sums (evalRHS_state m r y)).2 =
      r.P_ / (ChemConfig.Ru * y.getD 0 0) := by
    rw [evalRHS_sums_eq, evalRHS_state_n_species]
    show ∑ i in Finset.range r.n_species_.toNat,
        ((evalRHS_state m r y).Y_ i * (evalRHS_state m r y).P_ *
            (evalRHS_state m r y).MWtot_) /
          (ChemConfig.Ru * (evalRHS_state m r y).T_ * (evalRHS_state m r y).MW_ i) =
      r.P_ / (ChemConfig.Ru * y.getD 0 0)
    rw [evalRHS_state_P, evalRHS_state_MWtot, evalRHS_state_T, evalRHS_state_MW]
    have h1 : ∑ i in Finset.range r.n_species_.toNat,
        ((evalRHS_state m r y).Y_ i * r.P_ * r.MWtot_) /
          (ChemConfig.Ru * y.getD 0 0 * r.MW_ i) =
        (r.P_ / (ChemConfig.Ru * y.getD 0 0)) *
          (r.MWtot_ * ∑ i in Finset.range r.n_species_.toNat,
            y.getD (i + 1) 0 / r.MW_ i) := by
      rw [Finset.mul_sum, Finset.mul_sum]
      refine Finset.sum_congr rfl ?_
      intro i hi
      rw [hY i (Finset.mem_range.mp hi)]
      ring
    rw [h1, hMS, mul_one]
  have hA : ∑ i in Finset.range r.n_species_.toNat,
      (evalRHS_state m r y).omega_ i * (r.MW_ i * ChemConfig.Ru * y.getD 0 0) /
        (r.P_ * r.MWtot_) = 0 := by
    have h1 : ∑ i in Finset.range r.n_species_.toNat,
        (evalRHS_state m r y).omega_ i * (r.MW_ i * ChemConfig.Ru * y.getD 0 0) /
          (r.P_ * r.MWtot_) =
        (ChemConfig.Ru * y.getD 0 0 / (r.P_ * r.MWtot_)) *
          ∑ i in Finset.range r.n_species_.toNat,
            (evalRHS_state m r y).omega_ i * r.MW_ i := by
      rw [Finset.mul_sum]
      refine Finset.sum_congr rfl ?_
      intro i _
      ring
    rw [h1, hmass1, mul_zero]
  refine ⟨evalRHS_state m r y, evalRHS_ydot m r y ydot,
    (evalRHS_state m r y).N_ / (evalRHS_state m r y).D_, evalRHS_eq m r t y ydot hy hyd,
    evalRHS_state_omega m r y, evalRHS_ydot_zero m r y ydot (by omega), ?_⟩
  have hterm : ∀ i, i ∈ Finset.range r.n_species_.toNat →
      (evalRHS_ydot m r y ydot).getD (i + 1) 0 =
        (evalRHS_state m r y).omega_ i * (r.MW_ i * ChemConfig.Ru * y.getD 0 0) /
            (r.P_ * r.MWtot_) -
          y.getD (i + 1) 0 *
            ((∑ k in Finset.range r.n_species_.toNat, (evalRHS_state m r y).omega_ k) *
                ChemConfig.Ru * y.getD 0 0 / r.P_ +
              (evalRHS_state m r y).N_ / (evalRHS_state m r y).D_ / y.getD 0 0) := by
    intro i hi
    have hi1 := Finset.mem_range.mp hi
    rw [List.getD_eq_getElem?_getD, evalRHS_ydot_succ m r y ydot i hi1 hyd, hcs, hY i hi1,
      evalRHS_sums_eq, evalRHS_state_n_species, evalRHS_state_P, evalRHS_state_MWtot,
      evalRHS_state_T, evalRHS_state_MW]
    simp only [Option.getD_some]
    rw [div_div_eq_mul_div]
    ring
  rw [Finset.sum_congr rfl hterm, Finset.sum_sub_distrib, hA, ← Finset.sum_mul]
  ring

/-- C29, witness: the scenario with the mass-conserving rates `omega = [-1, 0.0625]`;
`MWtot = 64/17 = 1 / (0.5/2 + 0.5/32)`. -/
theorem evalRHS_species_sum_residual_witness :
    ∃ r1 out dTdt, scenarioReactor.evalRHS (scenarioMechanism [-1, 1 / 16]) 0
        [1000, 1 / 2, 1 / 2] [0, 0, 0] = .ok (r1, out) ∧
      r1.omega_ = (scenarioMechanism [-1, 1 / 16]).source_species r1.C_ r1.T_ ∧
      out[0]? = some dTdt ∧
      ∑ i in Finset.range scenarioReactor.n_species_.toNat, out.getD (i + 1) 0 =
        -(∑ i in Finset.range scenarioReactor.n_species_.toNat,
            ([1000, 1 / 2, 1 / 2] : Buffer).getD (i + 1) 0) *
          ((∑ k in Finset.range scenarioReactor.n_species_.toNat, r1.omega_ k) *
              ChemConfig.Ru * ([1000, 1 / 2, 1 / 2] : Buffer).getD 0 0 / scenarioReactor.P_ +
            dTdt / ([1000, 1 / 2, 1 / 2] : Buffer).getD 0 0) :=
  evalRHS_species_sum_residual (scenarioMechanism [-1, 1 / 16]) scenarioReactor 0
    [1000, 1 / 2, 1 / 2] [0, 0, 0] (by decide) (by decide)
    (by
      simp [scenarioReactor, Species.ofList, Finset.sum_range_succ]
      norm_num)
    (by
      simp [scenarioReactor, Species.ofList, Finset.sum_range_succ]
      norm_num)
    (by norm_num [List.getD])
    (by norm_num [scenarioReactor])
    (by
      simp [scenarioReactor, scenarioMechanism, Species.ofList, Finset.sum_range_succ]
      norm_num)

/-- C30: ideal-gas total concentration at construction.  For every `n > 0`, `T0 != 0`
and positive `MW[i]`, the concentrations stored by the constructor satisfy
`sum_{i<n} C[i] = P0 / (Ru*T0)`. -/
theorem construct_total_concentration (m : Mechanism)
    (mem : IdealGasConstPressureAdiabaticReactor) (n : Int) (T0 P0 : ℚ) (hn : 0 < n)
    (_hT0 : T0 ≠ 0) (hMW : ∀ i, i < n.toNat → 0 < m.molecular_weights i) :
    ∃ r, construct m mem n T0 P0 = .ok r ∧
      ∑ i in Finset.range n.toNat, r.C_ i = P0 / (ChemConfig.Ru * T0) := by
  obtain ⟨r, hr, _, _, _, _, _, hMWtot, hC, _⟩ := construct_post m mem n T0 P0
  refine ⟨r, hr, ?_⟩
  have h0 : 0 < n.toNat := by omega
  have hS : 0 < ∑ i in Finset.range n.toNat, (1 / 10 : ℚ) / m.molecular_weights i := by
    refine Finset.sum_pos ?_ ⟨0, Finset.mem_range.mpr h0⟩
    intro i hi
    exact div_pos (by norm_num) (hMW i (Finset.mem_range.mp hi))
  have hMS : r.MWtot_ * ∑ i in Finset.range n.toNat,
      (1 / 10 : ℚ) / m.molecular_weights i = 1 := by
    rw [hMWtot]
    exact one_div_mul_cancel hS.ne'
  have h1 : ∑ i in Finset.range n.toNat, r.C_ i =
      (P0 / (ChemConfig.Ru * T0)) *
        (r.MWtot_ * ∑ i in Finset.range n.toNat, (1 / 10 : ℚ) / m.molecular_weights i) := by
    rw [Finset.mul_sum, Finset.mul_sum]
    refine Finset.sum_congr rfl ?_
    intro i hi
    rw [hC i (Finset.mem_range.mp hi)]
    ring
  rw [h1, hMS, mul_one]

/-- C30, witness: construction with `n = 2`, `T0 = 300`, `P0 = 101325`,
`MW = [2, 32]`. -/
theorem construct_total_concentration_witness :
    ∃ r, construct (scenarioMechanism [0, 0]) scenarioReactor 2 300 101325 = .ok r ∧
      ∑ i in Finset.range (2 : Int).toNat, r.C_ i = 101325 / (ChemConfig.Ru * 300) :=
  construct_total_concentration (scenarioMechanism [0, 0]) scenarioReactor 2 300 101325
    (by norm_num) (by norm_num)
    (by
      intro i hi
      have hi2 : i < 2 := hi
      interval_cases i <;> simp [scenarioMechanism, Species.ofList])

end IdealGasConstPressureAdiabaticReactor

/-! ## Placeholder composition -/

namespace IdealGasConstPressureAdiabaticReactor

/-- C31: placeholder initial composition.  For every `n` the constructor returns a reactor
with `Y[i] = 0.1` for every `i < n`; the sum of these mass fractions is a tenth of the
number of species (`n / 10` for every `n >= 0`; no index is below a negative `n`), it is
`1` exactly when `n = 10`, and `MWtot = 10 / sum_{i<n} (1 / MW[i])`. -/
theorem construct_placeholder_composition (m : Mechanism)
    (mem : IdealGasConstPressureAdiabaticReactor) (n : Int) (T0 P0 : ℚ) :
    ∃ r, construct m mem n T0 P0 = .ok r ∧
      (∀ i, i < n.toNat → r.Y_ i = 1 / 10) ∧
      ∑ i in Finset.range n.toNat, r.Y_ i = (n.toNat : ℚ) / 10 ∧
      (0 ≤ n → ∑ i in Finset.range n.toNat, r.Y_ i = (n : ℚ) / 10) ∧
      (∑ i in Finset.range n.toNat, r.Y_ i = 1 ↔ n = 10) ∧
      r.MWtot_ = 10 / ∑ i in Finset.range n.toNat, 1 / r.MW_ i := by
  obtain ⟨r, hr, _, _, _, hMW, hY, hMWtot, _⟩ := construct_post m mem n T0 P0
  have hsum : ∑ i in Finset.range n.toNat, r.Y_ i = (n.toNat : ℚ) / 10 := by
    rw [Finset.sum_congr rfl (fun i hi => hY i (Finset.mem_range.mp hi))]
    simp only [Finset.sum_const, Finset.card_range, nsmul_eq_mul]
    ring
  refine ⟨r, hr, hY, hsum, ?_, ?_, ?_⟩
  · intro hn
    rw [hsum]
    have h : (n.toNat : ℚ) = (n : ℚ) := by exact_mod_cast Int.toNat_of_nonneg hn
    rw [h]
  · rw [hsum]
    constructor
    · intro h
      have h10 : (n.toNat : ℚ) = 10 := by linarith
      have h10n : n.toNat = 10 := by exact_mod_cast h10
      omega
    · intro h
      subst h
      have h10 : Int.toNat 10 = 10 := rfl
      rw [h10]
      norm_num
  · rw [hMWtot, hMW]
    have h : ∑ i in Finset.range n.toNat, (1 / 10 : ℚ) / m.molecular_weights i =
        (1 / 10) * ∑ i in Finset.range n.toNat, 1 / m.molecular_weights i := by
      rw [Finset.mul_sum]
      refine Finset.sum_congr rfl ?_
      intro i _
      ring
    rw [h]
    by_cases h0 : ∑ i in Finset.range n.toNat, 1 / m.molecular_weights i = 0
    · rw [h0]
      norm_num
    · field_simp

end IdealGasConstPressureAdiabaticReactor

/-! ## The two variants -/

/-- C32: the documented and the undocumented implementation are equivalent.  Given the
same thermo and kinetics functions, the constructor, `setState`, `setInitialState`,
`evalRHS`, `getProperties`, the two unused helpers and the three accessors of the two
files return the same states and outputs on all inputs; `setNEQ()` returns `n_species_` in
the documented file and `n_species_ + 1` in the other. -/
theorem withoutdoc_equivalent (m : Mechanism) (mw : Mechanism_withoutdoc)
    (hMW : mw.molecular_weights = m.molecular_weights)
    (hcp : mw.species_specific_heat_constant_pressure_mass_specific =
      m.species_specific_heat_constant_pressure_mass_specific)
    (hh : mw.species_enthalpy_mass_specific = m.species_enthalpy_mass_specific)
    (hsource : mw.source = m.source_species) :
    (∀ mem n temperature pressure,
      IdealGasConstPressureAdiabaticReactor_withoutdoc.construct mw mem n temperature pressure =
        IdealGasConstPressureAdiabaticReactor.construct m mem n temperature pressure) ∧
    (∀ r y temperature,
      IdealGasConstPressureAdiabaticReactor_withoutdoc.setState r y temperature =
        r.setState y temperature) ∧
    (∀ r y, IdealGasConstPressureAdiabaticReactor_withoutdoc.setInitialState r y =
        r.setInitialState y) ∧
    (∀ r t y ydot, IdealGasConstPressureAdiabaticReactor_withoutdoc.evalRHS mw r t y ydot =
        r.evalRHS m t y ydot) ∧
    (∀ r, IdealGasConstPressureAdiabaticReactor_withoutdoc.getProperties mw r =
        r.getProperties m) ∧
    (∀ r, IdealGasConstPressureAdiabaticReactor_withoutdoc.getdTtNumerator r =
        r.getdTtNumerator) ∧
    (∀ r, IdealGasConstPressureAdiabaticReactor_withoutdoc.getdTtDenominator r =
        r.getdTtDenominator) ∧
    (∀ r, IdealGasConstPressureAdiabaticReactor_withoutdoc.getTemperature r =
        r.getTemperature) ∧
    (∀ r, IdealGasConstPressureAdiabaticReactor_withoutdoc.getNumberofSpecies r =
        r.getNumberofSpecies) ∧
    (∀ r, IdealGasConstPressureAdiabaticReactor_withoutdoc.getPressure r = r.getPressure) ∧
    (∀ r : IdealGasConstPressureAdiabaticReactor,
      r.setNEQ = r.n_species_ ∧
      IdealGasConstPressureAdiabaticReactor_withoutdoc.setNEQ r = r.n_species_ + 1 ∧
      IdealGasConstPressureAdiabaticReactor_withoutdoc.setNEQ r ≠ r.setNEQ) := by
  cases m
  cases mw
  simp only at hMW hcp hh hsource
  subst hMW hcp hh hsource
  refine ⟨fun _ _ _ _ => rfl, fun _ _ _ => rfl, fun _ _ => rfl, fun _ _ _ _ => rfl,
    fun _ => rfl, fun _ => rfl, fun _ => rfl, fun _ => rfl, fun _ => rfl, fun _ => rfl, ?_⟩
  intro r
  refine ⟨rfl, rfl, ?_⟩
  simp only [IdealGasConstPressureAdiabaticReactor_withoutdoc.setNEQ,
    IdealGasConstPressureAdiabaticReactor.setNEQ]
  omega

/-- C32, witness: the two variants on the scenario's mechanism, state and buffers. -/
theorem withoutdoc_equivalent_witness :
    IdealGasConstPressureAdiabaticReactor_withoutdoc.evalRHS
        (scenarioMechanism_withoutdoc [-1, 1 / 16]) scenarioReactor 0
        [1000, 1 / 2, 1 / 2] [0, 0, 0] =
      scenarioReactor.evalRHS (scenarioMechanism [-1, 1 / 16]) 0
        [1000, 1 / 2, 1 / 2] [0, 0, 0] :=
  (withoutdoc_equivalent (scenarioMechanism [-1, 1 / 16])
    (scenarioMechanism_withoutdoc [-1, 1 / 16]) rfl rfl rfl rfl).2.2.2.1
    scenarioReactor 0 [1000, 1 / 2, 1 / 2] [0, 0, 0]

/-! ## Output-time schedule of the integrator -/

/-- Conversion of an integral `double`. -/
theorem doubleToInt_intCast (z : Int) : doubleToInt (z : ℚ) = checkedInt z := by
  unfold doubleToInt
  by_cases h : (0 : ℚ) ≤ (z : ℚ)
  · rw [if_pos h, Int.floor_intCast]
  · rw [if_neg h, Int.ceil_intCast]

/-- Conversion of the product of an `int` with the factor ten. -/
theorem doubleToInt_mul_ten (z : Int) : doubleToInt ((z : ℚ) * 10) = checkedInt (z * 10) := by
  have h : ((z : ℚ) * 10) = ((z * 10 : Int) : ℚ) := by push_cast; ring
  rw [h, doubleToInt_intCast]

namespace CVODESSerialIntegrator

/-- One iteration of the loop of `integrate()` when `CVode` succeeds and the two `int`
updates have a value. -/
theorem integrate_loop_success (s : CVODESSerialIntegrator) (CVode : Nat → Int → Int)
    (fuel k : Nat) (iout tout tout1 : Int) (hCV : CVode k tout = CV_SUCCESS)
    (hiout : checkedInt (iout + 1) = some (iout + 1))
    (htout : doubleToInt ((tout : ℚ) * s.TMULT_) = some tout1)
    (hsteps : iout + 1 ≠ s.steps_) :
    integrate_loop s CVode (fuel + 1) k iout tout =
      (tout :: (integrate_loop s CVode fuel (k + 1) (iout + 1) tout1).1,
        (integrate_loop s CVode fuel (k + 1) (iout + 1) tout1).2) := by
  simp [integrate_loop, hCV, check_retval, CV_SUCCESS, hiout, htout, hsteps]

/-- One iteration of the loop of `integrate()` when `CVode` succeeds and the product
`tout * TMULT_` has no `int` value. -/
theorem integrate_loop_undefined (s : CVODESSerialIntegrator) (CVode : Nat → Int → Int)
    (fuel k : Nat) (iout tout : Int) (hCV : CVode k tout = CV_SUCCESS)
    (htout : doubleToInt ((tout : ℚ) * s.TMULT_) = none) :
    integrate_loop s CVode (fuel + 1) k iout tout = ([tout], IntegrateEnd.undefined) := by
  simp only [integrate_loop, hCV, check_retval, CV_SUCCESS, htout]
  cases checkedInt (iout + 1) <;> simp

/-- One iteration of the loop with the constructor's constants when `CVode` succeeds and
ten times `tout` is an `int` value. -/
theorem integrate_loop_times_ten (model : IdealGasConstPressureAdiabaticReactor)
    (debug : Int) (CVode : Nat → Int → Int) (hCV : ∀ k tout, CVode k tout = CV_SUCCESS)
    (fuel k : Nat) (iout tout : Int) (hiout : 0 ≤ iout ∧ iout + 1 < 12)
    (htout : 0 ≤ tout ∧ tout ≤ 214748364) :
    integrate_loop (construct model debug) CVode (fuel + 1) k iout tout =
      (tout :: (integrate_loop (construct model debug) CVode fuel (k + 1) (iout + 1)
          (tout * 10)).1,
        (integrate_loop (construct model debug) CVode fuel (k + 1) (iout + 1)
          (tout * 10)).2) := by
  refine integrate_loop_success _ CVode fuel k iout tout (tout * 10) (hCV k tout) ?_ ?_ ?_
  · have h : INT_MIN ≤ iout + 1 ∧ iout + 1 ≤ INT_MAX := by
      simp only [INT_MIN, INT_MAX]
      omega
    simp only [checkedInt, h, and_self, if_true]
  · have h : INT_MIN ≤ tout * 10 ∧ tout * 10 ≤ INT_MAX := by
      simp only [INT_MIN, INT_MAX]
      omega
    show doubleToInt ((tout : ℚ) * 10) = some (tout * 10)
    rw [doubleToInt_mul_ten]
    simp only [checkedInt, h, and_self, if_true]
  · show iout + 1 ≠ 12
    omega

/-- C33: the output-time schedule of `integrate()` with the constructor's constants
`timeop_ = 1`, `TMULT_ = 10`, `steps_ = 12`.  When every `CVode` call succeeds, the
requested output times are `10^k` for `k = 0..9` only: the update `tout *= TMULT_` after
the tenth call has no `int` value, because `10^10` exceeds the largest `int`, so the
requests for `k = 10` and `k = 11` are never made with the values `10^10` and `10^11`. -/
theorem integrate_schedule (model : IdealGasConstPressureAdiabaticReactor) (debug : Int)
    (CVode : Nat → Int → Int) (fuel : Nat)
    (hCV : ∀ k tout, CVode k tout = CV_SUCCESS) (hfuel : 10 ≤ fuel) :
    (construct model debug).integrate CVode fuel =
        ((List.range 10).map (fun k => (10 : Int) ^ k), IntegrateEnd.undefined) ∧
      doubleToInt (((10 : Int) ^ 9 : Int) * (construct model debug).TMULT_) = none ∧
      INT_MAX < 10 ^ 10 := by
  have hlast : doubleToInt (10000000000 : ℚ) = none := by
    have h := doubleToInt_intCast 10000000000
    simp only [Int.cast_ofNat] at h
    rw [h]
    simp [checkedInt, INT_MIN, INT_MAX]
  refine ⟨?_, ?_, by simp [INT_MAX]⟩
  · obtain ⟨f, rfl⟩ : ∃ f, fuel = f + 10 := ⟨fuel - 10, by omega⟩
    have h1 : doubleToInt (construct model debug).timeop_ = some 1 := by
      show doubleToInt (1 : ℚ) = some 1
      have h := doubleToInt_intCast 1
      simp only [Int.cast_one] at h
      rw [h]
      simp [checkedInt, INT_MIN, INT_MAX]
    simp only [integrate, h1]
    rw [integrate_loop_times_ten model debug CVode hCV _ _ _ _ (by norm_num) (by norm_num),
      integrate_loop_times_ten model debug CVode hCV _ _ _ _ (by norm_num) (by norm_num),
      integrate_loop_times_ten model debug CVode hCV _ _ _ _ (by norm_num) (by norm_num),
      integrate_loop_times_ten model debug CVode hCV _ _ _ _ (by norm_num) (by norm_num),
      integrate_loop_times_ten model debug CVode hCV _ _ _ _ (by norm_num) (by norm_num),
      integrate_loop_times_ten model debug CVode hCV _ _ _ _ (by norm_num) (by norm_num),
      integrate_loop_times_ten model debug CVode hCV _ _ _ _ (by norm_num) (by norm_num),
      integrate_loop_times_ten model debug CVode hCV _ _ _ _ (by norm_num) (by norm_num),
      integrate_loop_times_ten model debug CVode hCV _ _ _ _ (by norm_num) (by norm_num),
      integrate_loop_undefined _ CVode _ _ _ _ (hCV _ _)
        (by
          show doubleToInt (((1 * 10 * 10 * 10 * 10 * 10 * 10 * 10 * 10 * 10 : Int) : ℚ) * 10) =
            none
          norm_num
          exact hlast)]
    norm_num [List.range_succ]
  · show doubleToInt ((((10 : Int) ^ 9 : Int) : ℚ) * 10) = none
    norm_num
    exact hlast

/-- C33, witness: every `CVode` call returns `CV_SUCCESS`, ten iterations allowed. -/
theorem integrate_schedule_witness :
    (construct scenarioReactor 0).integrate (fun _ _ => CV_SUCCESS) 10 =
        ((List.range 10).map (fun k => (10 : Int) ^ k), IntegrateEnd.undefined) ∧
      doubleToInt (((10 : Int) ^ 9 : Int) * (construct scenarioReactor 0).TMULT_) = none ∧
      INT_MAX < 10 ^ 10 :=
  integrate_schedule scenarioReactor 0 (fun _ _ => CV_SUCCESS) 10 (fun _ _ => rfl)
    (by decide)

end CVODESSerialIntegrator

end ZeroDAdReactors
